import Mathlib

/-!
# AM335x GPIO and PWM servers

A shallow embedding of the three C sources of the repository

* `c_src/gpio/kos_am335x_gpio.c`  (the GPIO server),
* `c_src/pwm/kos_am335x_pwm.c`    (the PWM server),
* `c_src/kos_am335x_starterware_gpio.c` (the synchronous binding),

followed by theorems about them.

Conventions.  Machine words (`seL4_Word`, `uint32_t`, `unsigned int`; all 32 bits wide on
the AM335x) are natural numbers.  The handlers only compare, divide and take remainders of
them, none of which can overflow; the one value that can leave the 32-bit range, the
`double` that the PWM server casts to `uint32_t`, is reduced to 32 bits by the cast.
Process-wide variables of a server become the fields of
its state record, which every handler receives and returns.  The StarterWare register
functions (`gpio_v2.h`, `ehrpwm.h`) are not part of the sources; the servers take them as a
record of functions over an arbitrary hardware state `H`, and every handler additionally
reports, in program order, the list of outside calls it made.
-/

/-! ## The message layer (`kos.h`) -/

/-- Status codes of `kos.h` used by the servers, kept symbolic. -/
inductive kos_status_t where
  | STATUS_OK
  | STATUS_NOT_IMPLEMENTED
  | STATUS_BAD_REQUEST
  | STATUS_UNAUTHORIZED
  | STATUS_FULL
  | STATUS_NOT_FOUND
  deriving DecidableEq, Repr

open kos_status_t

/-- What `kos.h` supplies and the sources only name: the constant `KOS_CORE_APP_ID_LIMIT`
(both protocol badges are defined as it), the flag `KOS_MSG_FLAG_SEND_PAYLOAD` and the
decoder `kos_msg_payload_size` of a metadata word. -/
structure Kos where
  KOS_CORE_APP_ID_LIMIT : Nat
  KOS_MSG_FLAG_SEND_PAYLOAD : Nat
  kos_msg_payload_size : Nat → Nat

/-- A received `kos_msg_t`: the three message registers the loop copies into `msg`. -/
structure kos_msg_t where
  label : Nat
  param : Nat
  metadata : Nat
  deriving DecidableEq, Repr

/-- A reply under construction: the five arguments handed to `kos_msg_new`, in order
(status label, param, payload size in bytes, transfer token slot, last argument).  How
`kos.h` packs them into a metadata word is outside the sources. -/
structure kos_reply_t where
  label : kos_status_t
  param : Nat
  payload_size : Nat
  transfer_token : Nat
  last : Nat
  deriving DecidableEq, Repr

/-- The constructor `kos_msg_new` of `kos.h`. -/
def kos_msg_new (label : kos_status_t) (param payload_size transfer_token last : Nat) :
    kos_reply_t :=
  { label := label, param := param, payload_size := payload_size,
    transfer_token := transfer_token, last := last }

/-- Modelled from the spec: `kos_msg_new_status` of `kos.h` is missing from the sources; a
status-only reply carries the status and neither param, payload nor token. -/
def kos_msg_new_status (s : kos_status_t) : kos_reply_t :=
  kos_msg_new s 0 0 0 0

/-- Width of `seL4_Word` and of `unsigned int` on the AM335x (a 32-bit ARM core). -/
def WORD_BITS : Nat := 32

/-- The value of `(~0)` once converted to the type of `msg.label` in a `switch`. -/
def ALL_ONES : Nat := 2 ^ WORD_BITS - 1

/-- Size of a `uint32_t` in bytes. -/
def sizeof_uint32_t : Nat := 4

/-- One loop iteration receives this: the message registers 0..2 (`msg`), message register
3 (`badge`), the label of the seL4 message info (`caller_id`) and the contents of the shared
payload buffer returned by `kos_msg_server_payload`, as a map from word index to word. -/
structure Incoming where
  msg : kos_msg_t
  badge : Nat
  caller_id : Nat
  transport : Nat → Nat

/-- What a handler leaves behind: the reply message, the payload buffer as the handler
leaves it, the new server state, and the outside calls performed, in program order. -/
structure Outcome (S : Type) (C : Type) where
  msg : kos_reply_t
  transport : Nat → Nat
  state : S
  calls : List C

/-! ## The GPIO server (`c_src/gpio/kos_am335x_gpio.c`) -/

namespace GpioServer

def RECEIVE_TOKEN_SLOT : Nat := 1
def TRANSFER_TOKEN_SLOT : Nat := 2
def NUM_GPIOS : Nat := 4

def CONFIGURE_PIN_ARGS : Nat := 2
def SET_DEBOUNCE_ARGS : Nat := 2
def SET_DEBOUNCE_TIMING_ARGS : Nat := 2
def READ_ARGS : Nat := 1
def WRITE_ARGS : Nat := 2

def INPUT_MODE : Nat := 0
def OUTPUT_MODE : Nat := 1

def PINS_IN_CONTROLLER : Nat := 32
def MAX_PIN : Nat := 127

/-- The registration label `GPIO_REQUEST_LABEL`, written `(~0)` in the source. -/
def GPIO_REQUEST_LABEL : Nat := ALL_ONES

/-- The badge `GPIO_PROTOCOL_BADGE`, defined as `KOS_CORE_APP_ID_LIMIT`. -/
def GPIO_PROTOCOL_BADGE (kos : Kos) : Nat := kos.KOS_CORE_APP_ID_LIMIT

def CONFIGURE_PIN_REQUEST : Nat := 1
def SET_DEBOUNCE_REQUEST : Nat := 2
def SET_DEBOUNCE_TIMING_REQUEST : Nat := 3
def READ_REQUEST : Nat := 4
def WRITE_REQUEST : Nat := 5
def NUM_GPIO_REQUESTS : Nat := 6

/-- The function `flat_pin_to_controller_pin`: the two values stored through the out
pointers, as the pair `(controller, pin)`. -/
def flat_pin_to_controller_pin (flat_pin : Nat) : Nat × Nat :=
  (flat_pin / PINS_IN_CONTROLLER, flat_pin % PINS_IN_CONTROLLER)

/-- The direction constants of `gpio_v2.h`, kept symbolic. -/
inductive gpio_dir where
  | GPIO_DIR_INPUT
  | GPIO_DIR_OUTPUT
  deriving DecidableEq, Repr

/-- The debounce constants of `gpio_v2.h`, kept symbolic. -/
inductive gpio_debounce where
  | GPIO_DEBOUNCE_FUNC_ENABLE
  | GPIO_DEBOUNCE_FUNC_DISABLE
  deriving DecidableEq, Repr

/-- The register functions of `gpio_v2.h` the handlers call, over a hardware state `H`.
Arguments are those of the C functions, in order, after the hardware state. -/
structure GpioDriver (H : Type) where
  GPIODirModeSet : H → Nat → Nat → gpio_dir → H
  GPIODebounceFuncControl : H → Nat → Nat → gpio_debounce → H
  GPIODebounceTimeConfig : H → Nat → Nat → H
  GPIOPinRead : H → Nat → Nat → Nat
  GPIOPinWrite : H → Nat → Nat → Nat → H

/-- An outside call made by a GPIO handler: the token creation of `kos.h`, a read of entry
`index` of the table `gpio_controller_bases`, or a register function with its arguments. -/
inductive GpioCall where
  | kos_msg_token_create (badge flags slot : Nat)
  | gpio_controller_bases (index : Nat)
  | GPIODirModeSet (base pin : Nat) (dir : gpio_dir)
  | GPIODebounceFuncControl (base pin : Nat) (ctl : gpio_debounce)
  | GPIODebounceTimeConfig (base time : Nat)
  | GPIOPinRead (base pin : Nat)
  | GPIOPinWrite (base pin level : Nat)
  deriving DecidableEq, Repr

/-- What is fixed once the loop starts: the `kos.h` constants, the four entries of
`gpio_controller_bases` filled in by `main`, and the register functions. -/
structure Env (H : Type) where
  kos : Kos
  gpio_controller_bases : Fin 4 → Nat
  drv : GpioDriver H

/-- The mutable state: the global `client_id` and the hardware behind the register
functions. -/
structure State (H : Type) where
  client_id : Nat
  hw : H

/-- The state in which the loop starts: `client_id` is a zero-initialised global. -/
def State.initial {H : Type} (hw : H) : State H :=
  { client_id := 0, hw := hw }

/-- The function `handle_request`.  `kos_assert_created` stops the process when the token
cannot be created; the model follows the runs in which the assertion holds and records the
creation as a call. -/
def handle_request {H : Type} (env : Env H) (s : State H) (_msg : kos_msg_t)
    (badge caller_id : Nat) (transport : Nat → Nat) : Outcome (State H) GpioCall :=
  if badge ≠ GPIO_PROTOCOL_BADGE env.kos then
    ⟨kos_msg_new_status STATUS_NOT_IMPLEMENTED, transport, s, []⟩
  else if caller_id = 0 then
    ⟨kos_msg_new_status STATUS_BAD_REQUEST, transport, s, []⟩
  else if s.client_id ≠ 0 ∧ s.client_id ≠ caller_id then
    ⟨kos_msg_new_status STATUS_FULL, transport, s, []⟩
  else
    ⟨kos_msg_new STATUS_OK 0 0 TRANSFER_TOKEN_SLOT 0, transport,
      { s with client_id := caller_id },
      [GpioCall.kos_msg_token_create (GPIO_PROTOCOL_BADGE env.kos)
        env.kos.KOS_MSG_FLAG_SEND_PAYLOAD TRANSFER_TOKEN_SLOT]⟩

/-- The function `handle_configure_pin`. -/
def handle_configure_pin {H : Type} (env : Env H) (s : State H) (msg : kos_msg_t)
    (caller_id : Nat) (transport : Nat → Nat) : Outcome (State H) GpioCall :=
  if caller_id ≠ s.client_id then
    ⟨kos_msg_new_status STATUS_UNAUTHORIZED, transport, s, []⟩
  else if env.kos.kos_msg_payload_size msg.metadata ≠ sizeof_uint32_t * CONFIGURE_PIN_ARGS then
    ⟨kos_msg_new_status STATUS_BAD_REQUEST, transport, s, []⟩
  else
    let pin := transport 0
    let mode := transport 1
    if h : pin > MAX_PIN then
      ⟨kos_msg_new_status STATUS_BAD_REQUEST, transport, s, []⟩
    else
      let cp := flat_pin_to_controller_pin pin
      let controller_base := env.gpio_controller_bases
        ⟨cp.1, by simp only [cp, flat_pin_to_controller_pin, PINS_IN_CONTROLLER, MAX_PIN] at *; omega⟩
      if mode = OUTPUT_MODE then
        ⟨kos_msg_new_status STATUS_OK, transport,
          { s with hw := env.drv.GPIODirModeSet s.hw controller_base cp.2 gpio_dir.GPIO_DIR_OUTPUT },
          [GpioCall.gpio_controller_bases cp.1,
           GpioCall.GPIODirModeSet controller_base cp.2 gpio_dir.GPIO_DIR_OUTPUT]⟩
      else
        ⟨kos_msg_new_status STATUS_OK, transport,
          { s with hw := env.drv.GPIODirModeSet s.hw controller_base cp.2 gpio_dir.GPIO_DIR_INPUT },
          [GpioCall.gpio_controller_bases cp.1,
           GpioCall.GPIODirModeSet controller_base cp.2 gpio_dir.GPIO_DIR_INPUT]⟩

/-- The function `handle_set_debounce`. -/
def handle_set_debounce {H : Type} (env : Env H) (s : State H) (msg : kos_msg_t)
    (caller_id : Nat) (transport : Nat → Nat) : Outcome (State H) GpioCall :=
  if caller_id ≠ s.client_id then
    ⟨kos_msg_new_status STATUS_UNAUTHORIZED, transport, s, []⟩
  else if env.kos.kos_msg_payload_size msg.metadata ≠ sizeof_uint32_t * SET_DEBOUNCE_ARGS then
    ⟨kos_msg_new_status STATUS_BAD_REQUEST, transport, s, []⟩
  else
    let pin := transport 0
    let debounce := transport 1
    if h : pin > MAX_PIN then
      ⟨kos_msg_new_status STATUS_BAD_REQUEST, transport, s, []⟩
    else
      let cp := flat_pin_to_controller_pin pin
      let controller_base := env.gpio_controller_bases
        ⟨cp.1, by simp only [cp, flat_pin_to_controller_pin, PINS_IN_CONTROLLER, MAX_PIN] at *; omega⟩
      if debounce ≠ 0 then
        ⟨kos_msg_new_status STATUS_OK, transport,
          { s with hw := (env.drv.GPIODebounceFuncControl s.hw controller_base cp.2
              gpio_debounce.GPIO_DEBOUNCE_FUNC_ENABLE) },
          [GpioCall.gpio_controller_bases cp.1,
           GpioCall.GPIODebounceFuncControl controller_base cp.2
              gpio_debounce.GPIO_DEBOUNCE_FUNC_ENABLE]⟩
      else
        ⟨kos_msg_new_status STATUS_OK, transport,
          { s with hw := (env.drv.GPIODebounceFuncControl s.hw controller_base cp.2
              gpio_debounce.GPIO_DEBOUNCE_FUNC_DISABLE) },
          [GpioCall.gpio_controller_bases cp.1,
           GpioCall.GPIODebounceFuncControl controller_base cp.2
              gpio_debounce.GPIO_DEBOUNCE_FUNC_DISABLE]⟩

/-- The function `handle_set_debounce_timing`: the local pin index is computed and not
used, the time constant goes to the whole controller. -/
def handle_set_debounce_timing {H : Type} (env : Env H) (s : State H) (msg : kos_msg_t)
    (caller_id : Nat) (transport : Nat → Nat) : Outcome (State H) GpioCall :=
  if caller_id ≠ s.client_id then
    ⟨kos_msg_new_status STATUS_UNAUTHORIZED, transport, s, []⟩
  else if env.kos.kos_msg_payload_size msg.metadata
      ≠ sizeof_uint32_t * SET_DEBOUNCE_TIMING_ARGS then
    ⟨kos_msg_new_status STATUS_BAD_REQUEST, transport, s, []⟩
  else
    let pin := transport 0
    let debounce_time := transport 1
    if h : pin > MAX_PIN then
      ⟨kos_msg_new_status STATUS_BAD_REQUEST, transport, s, []⟩
    else
      let cp := flat_pin_to_controller_pin pin
      let controller_base := env.gpio_controller_bases
        ⟨cp.1, by simp only [cp, flat_pin_to_controller_pin, PINS_IN_CONTROLLER, MAX_PIN] at *; omega⟩
      ⟨kos_msg_new_status STATUS_OK, transport,
        { s with hw := env.drv.GPIODebounceTimeConfig s.hw controller_base debounce_time },
        [GpioCall.gpio_controller_bases cp.1,
         GpioCall.GPIODebounceTimeConfig controller_base debounce_time]⟩

/-- The function `handle_read`: `!!` maps a non-zero register value to 1 and zero to 0; the
level is stored in word 0 of the payload buffer and the reply announces 4 payload bytes. -/
def handle_read {H : Type} (env : Env H) (s : State H) (msg : kos_msg_t)
    (caller_id : Nat) (transport : Nat → Nat) : Outcome (State H) GpioCall :=
  if caller_id ≠ s.client_id then
    ⟨kos_msg_new_status STATUS_UNAUTHORIZED, transport, s, []⟩
  else if env.kos.kos_msg_payload_size msg.metadata ≠ sizeof_uint32_t * READ_ARGS then
    ⟨kos_msg_new_status STATUS_BAD_REQUEST, transport, s, []⟩
  else
    let pin := transport 0
    if h : pin > MAX_PIN then
      ⟨kos_msg_new_status STATUS_BAD_REQUEST, transport, s, []⟩
    else
      let cp := flat_pin_to_controller_pin pin
      let controller_base := env.gpio_controller_bases
        ⟨cp.1, by simp only [cp, flat_pin_to_controller_pin, PINS_IN_CONTROLLER, MAX_PIN] at *; omega⟩
      let level := if env.drv.GPIOPinRead s.hw controller_base cp.2 ≠ 0 then 1 else 0
      ⟨kos_msg_new STATUS_OK 0 sizeof_uint32_t 0 0, Function.update transport 0 level, s,
        [GpioCall.gpio_controller_bases cp.1, GpioCall.GPIOPinRead controller_base cp.2]⟩

/-- The function `handle_write`. -/
def handle_write {H : Type} (env : Env H) (s : State H) (msg : kos_msg_t)
    (caller_id : Nat) (transport : Nat → Nat) : Outcome (State H) GpioCall :=
  if caller_id ≠ s.client_id then
    ⟨kos_msg_new_status STATUS_UNAUTHORIZED, transport, s, []⟩
  else if env.kos.kos_msg_payload_size msg.metadata ≠ sizeof_uint32_t * WRITE_ARGS then
    ⟨kos_msg_new_status STATUS_BAD_REQUEST, transport, s, []⟩
  else
    let pin := transport 0
    let level := transport 1
    if h : pin > MAX_PIN then
      ⟨kos_msg_new_status STATUS_BAD_REQUEST, transport, s, []⟩
    else
      let cp := flat_pin_to_controller_pin pin
      let controller_base := env.gpio_controller_bases
        ⟨cp.1, by simp only [cp, flat_pin_to_controller_pin, PINS_IN_CONTROLLER, MAX_PIN] at *; omega⟩
      ⟨kos_msg_new_status STATUS_OK, transport,
        { s with hw := env.drv.GPIOPinWrite s.hw controller_base cp.2 level },
        [GpioCall.gpio_controller_bases cp.1,
         GpioCall.GPIOPinWrite controller_base cp.2 level]⟩

/-- One iteration of the `while (true)` loop of `listen_thread_fn`, from the received
message to the reply it prepares for the next `seL4_ReplyRecv`. -/
def listen_step {H : Type} (env : Env H) (s : State H) (inc : Incoming) :
    Outcome (State H) GpioCall :=
  if inc.badge ≠ GPIO_PROTOCOL_BADGE env.kos then
    ⟨kos_msg_new STATUS_NOT_IMPLEMENTED 0 0 0 0, inc.transport, s, []⟩
  else if inc.msg.label = GPIO_REQUEST_LABEL then
    handle_request env s inc.msg inc.badge inc.caller_id inc.transport
  else if inc.msg.label = CONFIGURE_PIN_REQUEST then
    handle_configure_pin env s inc.msg inc.caller_id inc.transport
  else if inc.msg.label = SET_DEBOUNCE_REQUEST then
    handle_set_debounce env s inc.msg inc.caller_id inc.transport
  else if inc.msg.label = SET_DEBOUNCE_TIMING_REQUEST then
    handle_set_debounce_timing env s inc.msg inc.caller_id inc.transport
  else if inc.msg.label = READ_REQUEST then
    handle_read env s inc.msg inc.caller_id inc.transport
  else if inc.msg.label = WRITE_REQUEST then
    handle_write env s inc.msg inc.caller_id inc.transport
  else
    ⟨kos_msg_new STATUS_NOT_IMPLEMENTED 0 0 0 0, inc.transport, s, []⟩

/-- The loop of `listen_thread_fn` over the first messages it receives: the outcome of
every iteration, each starting in the state the previous one left. -/
def listen_thread_fn {H : Type} (env : Env H) (s : State H) :
    List Incoming → List (Outcome (State H) GpioCall)
  | [] => []
  | inc :: rest =>
    (listen_step env s inc) :: listen_thread_fn env (listen_step env s inc).state rest

end GpioServer

/-! ## Double-precision arithmetic used by the PWM server

`calc_and_set_counter_values` computes `duty_cycle / 100.0 * period_count` in `double`.
The operands are 32-bit integers, so every value that occurs is a non-negative number of
the normal range of IEEE 754 binary64.  Such a value is kept exactly, as a fraction whose
denominator is a power of two; every operation rounds the exact result to 53 significant
bits, to nearest, ties to even. -/

/-- A non-negative finite `double`: the number `num / 2 ^ exp`. -/
structure Double64 where
  num : Nat
  exp : Nat
  deriving DecidableEq, Repr

/-- The fraction `a / b` rounded to the nearest integer, a tie going to the even one. -/
def round_nearest_even (a b : Nat) : Nat :=
  if 2 * (a % b) < b then a / b
  else if b < 2 * (a % b) then a / b + 1
  else if (a / b) % 2 = 0 then a / b
  else a / b + 1

/-- Position of the leading one bit of `n`, found in at most `fuel` halvings. -/
def bit_length_aux : Nat → Nat → Nat
  | 0, _ => 0
  | fuel + 1, n => if n < 2 then 0 else bit_length_aux fuel (n / 2) + 1

/-- The integer `floor (log2 n)` for a non-zero `n` (and 0 for 0). -/
def ilog2 (n : Nat) : Nat := bit_length_aux n n

/-- The fraction `n / d` (with `d` non-zero) rounded to binary64: it is scaled by the power
of two that brings it into `[2^52, 2^53)`, rounded to an integer there, and scaled back. -/
def fl64 (n d : Nat) : Double64 :=
  if n = 0 then ⟨0, 0⟩
  else if ilog2 n ≤ 52 + ilog2 d then
    let sh := 52 + ilog2 d - ilog2 n
    let sh1 := if n * 2 ^ sh < 2 ^ 52 * d then sh + 1 else sh
    ⟨round_nearest_even (n * 2 ^ sh1) d, sh1⟩
  else
    let dn := ilog2 n - (52 + ilog2 d)
    let dn1 := if n < 2 ^ 52 * (d * 2 ^ dn) then dn - 1 else dn
    ⟨round_nearest_even n (d * 2 ^ dn1) * 2 ^ dn1, 0⟩

/-- Conversion of a `uint32_t` to `double`, which is exact. -/
def uint32_to_double (x : Nat) : Double64 := ⟨x, 0⟩

/-- The constant `100.0`. -/
def double_100 : Double64 := ⟨100, 0⟩

/-- Division of two doubles, the divisor being non-zero. -/
def double_div (x y : Double64) : Double64 :=
  fl64 (x.num * 2 ^ y.exp) (y.num * 2 ^ x.exp)

/-- Multiplication of two doubles. -/
def double_mul (x y : Double64) : Double64 :=
  fl64 (x.num * y.num) (2 ^ (x.exp + y.exp))

/-- The integer part of a double: the value with its fraction cut off. -/
def double_integer_part (x : Double64) : Nat :=
  x.num / 2 ^ x.exp

/-- The cast `(uint32_t)` of a double: its integer part when that is below `2 ^ 32`.  C
leaves the conversion undefined otherwise; the result is a `uint32_t` in any case, and the
model then takes the low 32 bits of the integer part.  What is stated below about a
converted value is stated where the integer part is below `2 ^ 32`. -/
def double_to_uint32 (x : Double64) : Nat :=
  double_integer_part x % 2 ^ 32

/-- The cast `(uint32_t)` of a double where C defines it: `none` when the integer part is
`2 ^ 32` or more. -/
def double_to_uint32_checked (x : Double64) : Option Nat :=
  if double_integer_part x < 2 ^ 32 then some (double_integer_part x) else none

/-! ## The PWM server (`c_src/pwm/kos_am335x_pwm.c`) -/

namespace PwmServer

def RECEIVE_TOKEN_SLOT : Nat := 1
def TRANSFER_TOKEN_SLOT : Nat := 2
def NUM_PWM : Nat := 3

def MODULE_CLK : Nat := 100000000
def TB_CLK : Nat := 100000000

def PIN_A : Nat := 0
def PIN_B : Nat := 1
def NUM_PINS : Nat := 2

def SET_PWM_FREQUENCY_ARGS : Nat := 1
def SET_PWM_DUTY_CYCLE_ARGS : Nat := 2

/-- The registration label `PWM_REQUEST_LABEL`, written `(~0)` in the source. -/
def PWM_REQUEST_LABEL : Nat := ALL_ONES

/-- The badge `PWM_PROTOCOL_BADGE`, defined as `KOS_CORE_APP_ID_LIMIT`. -/
def PWM_PROTOCOL_BADGE (kos : Kos) : Nat := kos.KOS_CORE_APP_ID_LIMIT

def SET_PWM_FREQUENCY_REQUEST : Nat := 1
def SET_PWM_DUTY_CYCLE_REQUEST : Nat := 2
def NUM_PWM_REQUESTS : Nat := 3

/-- The constants of `ehrpwm.h` the handlers pass on, kept symbolic. -/
inductive ehrpwm_const where
  | EHRPWM_COUNT_UP
  | EHRPWM_SHADOW_WRITE_ENABLE
  | EHRPWM_CMPCTL_LOADAMODE_TBCTRZERO
  | EHRPWM_CMPCTL_OVERWR_SH_FL
  deriving DecidableEq, Repr

/-- The register functions of `ehrpwm.h` the handlers call, over a hardware state `H`.
Arguments are those of the C functions, in order, after the hardware state. -/
structure PwmDriver (H : Type) where
  EHRPWMPWMOpFreqSet : H → Nat → Nat → Nat → ehrpwm_const → ehrpwm_const → H
  EHRPWMLoadCMPA : H → Nat → Nat → ehrpwm_const → ehrpwm_const → ehrpwm_const → H
  EHRPWMLoadCMPB : H → Nat → Nat → ehrpwm_const → ehrpwm_const → ehrpwm_const → H

/-- An outside call made by a PWM handler: the token creation of `kos.h` or a register
function with its varying arguments. -/
inductive PwmCall where
  | kos_msg_token_create (badge flags slot : Nat)
  | EHRPWMPWMOpFreqSet (base tbClk pwmFreq : Nat)
  | EHRPWMLoadCMPA (base value : Nat)
  | EHRPWMLoadCMPB (base value : Nat)
  deriving DecidableEq, Repr

/-- What is fixed once the loop starts: the `kos.h` constants, the base address
`pwm_controller_base` found by `main`, and the register functions. -/
structure Env (H : Type) where
  kos : Kos
  pwm_controller_base : Nat
  drv : PwmDriver H

/-- The mutable state: the globals `client_id`, `curr_freq` and `curr_pin_duty_cycle`
(entry `PIN_A` first, entry `PIN_B` second) and the hardware behind the register
functions. -/
structure State (H : Type) where
  client_id : Nat
  curr_freq : Nat
  curr_pin_duty_cycle : Nat × Nat
  hw : H

/-- The state in which the loop starts: the three globals are zero-initialised. -/
def State.initial {H : Type} (hw : H) : State H :=
  { client_id := 0, curr_freq := 0, curr_pin_duty_cycle := (0, 0), hw := hw }

/-- The function `handle_request`.  `kos_assert_created` stops the process when the token
cannot be created; the model follows the runs in which the assertion holds and records the
creation as a call. -/
def handle_request {H : Type} (env : Env H) (s : State H) (_msg : kos_msg_t)
    (badge caller_id : Nat) (transport : Nat → Nat) : Outcome (State H) PwmCall :=
  if badge ≠ PWM_PROTOCOL_BADGE env.kos then
    ⟨kos_msg_new_status STATUS_NOT_IMPLEMENTED, transport, s, []⟩
  else if caller_id = 0 then
    ⟨kos_msg_new_status STATUS_BAD_REQUEST, transport, s, []⟩
  else if s.client_id ≠ 0 ∧ s.client_id ≠ caller_id then
    ⟨kos_msg_new_status STATUS_FULL, transport, s, []⟩
  else
    ⟨kos_msg_new STATUS_OK 0 0 TRANSFER_TOKEN_SLOT 0, transport,
      { s with client_id := caller_id },
      [PwmCall.kos_msg_token_create (PWM_PROTOCOL_BADGE env.kos)
        env.kos.KOS_MSG_FLAG_SEND_PAYLOAD TRANSFER_TOKEN_SLOT]⟩

/-- The value `counter_value` of `calc_and_set_counter_values` for a non-zero current
frequency: `period_count = TB_CLK / curr_freq` in unsigned integers, then
`duty_cycle / 100.0 * period_count` in doubles, then the cast to `uint32_t`. -/
def counter_value (curr_freq duty_cycle : Nat) : Nat :=
  let period_count := TB_CLK / curr_freq
  double_to_uint32
    (double_mul (double_div (uint32_to_double duty_cycle) double_100)
      (uint32_to_double period_count))

/-- The operand of the cast in `counter_value`: the double
`duty_cycle / 100.0 * period_count`. -/
def counter_value_double (curr_freq duty_cycle : Nat) : Double64 :=
  let period_count := TB_CLK / curr_freq
  double_mul (double_div (uint32_to_double duty_cycle) double_100)
    (uint32_to_double period_count)

/-- The function `calc_and_set_counter_values`: the new hardware state and the calls
made. -/
def calc_and_set_counter_values {H : Type} (env : Env H) (s : State H) (pin : Nat)
    (duty_cycle : Nat) : State H × List PwmCall :=
  if s.curr_freq = 0 then
    (s, [])
  else
    let controller_base := env.pwm_controller_base
    let counter_value := counter_value s.curr_freq duty_cycle
    if pin = PIN_A then
      ({ s with hw := (env.drv.EHRPWMLoadCMPA s.hw controller_base counter_value
          ehrpwm_const.EHRPWM_SHADOW_WRITE_ENABLE
          ehrpwm_const.EHRPWM_CMPCTL_LOADAMODE_TBCTRZERO
          ehrpwm_const.EHRPWM_CMPCTL_OVERWR_SH_FL) },
        [PwmCall.EHRPWMLoadCMPA controller_base counter_value])
    else
      ({ s with hw := (env.drv.EHRPWMLoadCMPB s.hw controller_base counter_value
          ehrpwm_const.EHRPWM_SHADOW_WRITE_ENABLE
          ehrpwm_const.EHRPWM_CMPCTL_LOADAMODE_TBCTRZERO
          ehrpwm_const.EHRPWM_CMPCTL_OVERWR_SH_FL) },
        [PwmCall.EHRPWMLoadCMPB controller_base counter_value])

/-- The function `handle_set_pwm_frequency`. -/
def handle_set_pwm_frequency {H : Type} (env : Env H) (s : State H) (msg : kos_msg_t)
    (caller_id : Nat) (transport : Nat → Nat) : Outcome (State H) PwmCall :=
  if caller_id ≠ s.client_id then
    ⟨kos_msg_new_status STATUS_UNAUTHORIZED, transport, s, []⟩
  else if env.kos.kos_msg_payload_size msg.metadata
      ≠ sizeof_uint32_t * SET_PWM_FREQUENCY_ARGS then
    ⟨kos_msg_new_status STATUS_BAD_REQUEST, transport, s, []⟩
  else
    let frequency := transport 0
    let controller_base := env.pwm_controller_base
    let s1 : State H :=
      { s with hw := (env.drv.EHRPWMPWMOpFreqSet s.hw controller_base TB_CLK frequency
          ehrpwm_const.EHRPWM_COUNT_UP ehrpwm_const.EHRPWM_SHADOW_WRITE_ENABLE) }
    let s2 : State H := { s1 with curr_freq := frequency }
    let ra := calc_and_set_counter_values env s2 PIN_A s2.curr_pin_duty_cycle.1
    let rb := calc_and_set_counter_values env ra.1 PIN_B ra.1.curr_pin_duty_cycle.2
    ⟨kos_msg_new_status STATUS_OK, transport, rb.1,
      PwmCall.EHRPWMPWMOpFreqSet controller_base TB_CLK frequency :: (ra.2 ++ rb.2)⟩

/-- The function `handle_set_pwm_duty_cycle`. -/
def handle_set_pwm_duty_cycle {H : Type} (env : Env H) (s : State H) (msg : kos_msg_t)
    (caller_id : Nat) (transport : Nat → Nat) : Outcome (State H) PwmCall :=
  if caller_id ≠ s.client_id then
    ⟨kos_msg_new_status STATUS_UNAUTHORIZED, transport, s, []⟩
  else if env.kos.kos_msg_payload_size msg.metadata
      ≠ sizeof_uint32_t * SET_PWM_DUTY_CYCLE_ARGS then
    ⟨kos_msg_new_status STATUS_BAD_REQUEST, transport, s, []⟩
  else
    let pin := transport 0
    let duty_cycle := transport 1
    if pin = PIN_A then
      let s1 : State H := { s with curr_pin_duty_cycle := (duty_cycle, s.curr_pin_duty_cycle.2) }
      let r := calc_and_set_counter_values env s1 PIN_A s1.curr_pin_duty_cycle.1
      ⟨kos_msg_new_status STATUS_OK, transport, r.1, r.2⟩
    else
      let s1 : State H := { s with curr_pin_duty_cycle := (s.curr_pin_duty_cycle.1, duty_cycle) }
      let r := calc_and_set_counter_values env s1 PIN_B s1.curr_pin_duty_cycle.2
      ⟨kos_msg_new_status STATUS_OK, transport, r.1, r.2⟩

/-- One iteration of the `while (true)` loop of `listen_thread_fn`, from the received
message to the reply it prepares for the next `seL4_ReplyRecv`. -/
def listen_step {H : Type} (env : Env H) (s : State H) (inc : Incoming) :
    Outcome (State H) PwmCall :=
  if inc.badge ≠ PWM_PROTOCOL_BADGE env.kos then
    ⟨kos_msg_new STATUS_NOT_IMPLEMENTED 0 0 0 0, inc.transport, s, []⟩
  else if inc.msg.label = PWM_REQUEST_LABEL then
    handle_request env s inc.msg inc.badge inc.caller_id inc.transport
  else if inc.msg.label = SET_PWM_FREQUENCY_REQUEST then
    handle_set_pwm_frequency env s inc.msg inc.caller_id inc.transport
  else if inc.msg.label = SET_PWM_DUTY_CYCLE_REQUEST then
    handle_set_pwm_duty_cycle env s inc.msg inc.caller_id inc.transport
  else
    ⟨kos_msg_new STATUS_NOT_IMPLEMENTED 0 0 0 0, inc.transport, s, []⟩

/-- The loop of `listen_thread_fn` over the first messages it receives: the outcome of
every iteration, each starting in the state the previous one left. -/
def listen_thread_fn {H : Type} (env : Env H) (s : State H) :
    List Incoming → List (Outcome (State H) PwmCall)
  | [] => []
  | inc :: rest =>
    (listen_step env s inc) :: listen_thread_fn env (listen_step env s inc).state rest

end PwmServer

/-! ## The PWM computation with its undefined cases made explicit

Two steps of `calc_and_set_counter_values` have no defined result for some operands: the
unsigned division `TB_CLK / curr_freq` when `curr_freq` is 0, and the conversion of a
`double` to `uint32_t` when its integer part does not fit in 32 bits.  The definitions
below follow the same source lines as the ones above and return `none` where such a step
would be executed. -/

namespace PwmServer

/-- The value `counter_value`, or `none` when computing it divides by zero or converts a
double whose integer part is `2 ^ 32` or more. -/
def counter_value_checked (curr_freq duty_cycle : Nat) : Option Nat :=
  if curr_freq = 0 then none
  else
    let period_count := TB_CLK / curr_freq
    double_to_uint32_checked
      (double_mul (double_div (uint32_to_double duty_cycle) double_100)
        (uint32_to_double period_count))

/-- The function `calc_and_set_counter_values`, with `none` for an undefined step. -/
def calc_and_set_counter_values_checked {H : Type} (env : Env H) (s : State H) (pin : Nat)
    (duty_cycle : Nat) : Option (State H × List PwmCall) :=
  if s.curr_freq = 0 then
    some (s, [])
  else
    let controller_base := env.pwm_controller_base
    match counter_value_checked s.curr_freq duty_cycle with
    | none => none
    | some counter_value =>
      if pin = PIN_A then
        some ({ s with hw := (env.drv.EHRPWMLoadCMPA s.hw controller_base counter_value
            ehrpwm_const.EHRPWM_SHADOW_WRITE_ENABLE
            ehrpwm_const.EHRPWM_CMPCTL_LOADAMODE_TBCTRZERO
            ehrpwm_const.EHRPWM_CMPCTL_OVERWR_SH_FL) },
          [PwmCall.EHRPWMLoadCMPA controller_base counter_value])
      else
        some ({ s with hw := (env.drv.EHRPWMLoadCMPB s.hw controller_base counter_value
            ehrpwm_const.EHRPWM_SHADOW_WRITE_ENABLE
            ehrpwm_const.EHRPWM_CMPCTL_LOADAMODE_TBCTRZERO
            ehrpwm_const.EHRPWM_CMPCTL_OVERWR_SH_FL) },
          [PwmCall.EHRPWMLoadCMPB controller_base counter_value])

/-- The function `handle_set_pwm_frequency`, with `none` for an undefined step. -/
def handle_set_pwm_frequency_checked {H : Type} (env : Env H) (s : State H)
    (msg : kos_msg_t) (caller_id : Nat) (transport : Nat → Nat) :
    Option (Outcome (State H) PwmCall) :=
  if caller_id ≠ s.client_id then
    some ⟨kos_msg_new_status STATUS_UNAUTHORIZED, transport, s, []⟩
  else if env.kos.kos_msg_payload_size msg.metadata
      ≠ sizeof_uint32_t * SET_PWM_FREQUENCY_ARGS then
    some ⟨kos_msg_new_status STATUS_BAD_REQUEST, transport, s, []⟩
  else
    let frequency := transport 0
    let controller_base := env.pwm_controller_base
    let s1 : State H :=
      { s with hw := (env.drv.EHRPWMPWMOpFreqSet s.hw controller_base TB_CLK frequency
          ehrpwm_const.EHRPWM_COUNT_UP ehrpwm_const.EHRPWM_SHADOW_WRITE_ENABLE) }
    let s2 : State H := { s1 with curr_freq := frequency }
    match calc_and_set_counter_values_checked env s2 PIN_A s2.curr_pin_duty_cycle.1 with
    | none => none
    | some ra =>
      match calc_and_set_counter_values_checked env ra.1 PIN_B ra.1.curr_pin_duty_cycle.2 with
      | none => none
      | some rb =>
        some ⟨kos_msg_new_status STATUS_OK, transport, rb.1,
          PwmCall.EHRPWMPWMOpFreqSet controller_base TB_CLK frequency :: (ra.2 ++ rb.2)⟩

/-- The function `handle_set_pwm_duty_cycle`, with `none` for an undefined step. -/
def handle_set_pwm_duty_cycle_checked {H : Type} (env : Env H) (s : State H)
    (msg : kos_msg_t) (caller_id : Nat) (transport : Nat → Nat) :
    Option (Outcome (State H) PwmCall) :=
  if caller_id ≠ s.client_id then
    some ⟨kos_msg_new_status STATUS_UNAUTHORIZED, transport, s, []⟩
  else if env.kos.kos_msg_payload_size msg.metadata
      ≠ sizeof_uint32_t * SET_PWM_DUTY_CYCLE_ARGS then
    some ⟨kos_msg_new_status STATUS_BAD_REQUEST, transport, s, []⟩
  else
    let pin := transport 0
    let duty_cycle := transport 1
    if pin = PIN_A then
      let s1 : State H := { s with curr_pin_duty_cycle := (duty_cycle, s.curr_pin_duty_cycle.2) }
      match calc_and_set_counter_values_checked env s1 PIN_A s1.curr_pin_duty_cycle.1 with
      | none => none
      | some r => some ⟨kos_msg_new_status STATUS_OK, transport, r.1, r.2⟩
    else
      let s1 : State H := { s with curr_pin_duty_cycle := (s.curr_pin_duty_cycle.1, duty_cycle) }
      match calc_and_set_counter_values_checked env s1 PIN_B s1.curr_pin_duty_cycle.2 with
      | none => none
      | some r => some ⟨kos_msg_new_status STATUS_OK, transport, r.1, r.2⟩

/-- One iteration of the loop of `listen_thread_fn`, with `none` for an undefined step. -/
def listen_step_checked {H : Type} (env : Env H) (s : State H) (inc : Incoming) :
    Option (Outcome (State H) PwmCall) :=
  if inc.badge ≠ PWM_PROTOCOL_BADGE env.kos then
    some ⟨kos_msg_new STATUS_NOT_IMPLEMENTED 0 0 0 0, inc.transport, s, []⟩
  else if inc.msg.label = PWM_REQUEST_LABEL then
    some (handle_request env s inc.msg inc.badge inc.caller_id inc.transport)
  else if inc.msg.label = SET_PWM_FREQUENCY_REQUEST then
    handle_set_pwm_frequency_checked env s inc.msg inc.caller_id inc.transport
  else if inc.msg.label = SET_PWM_DUTY_CYCLE_REQUEST then
    handle_set_pwm_duty_cycle_checked env s inc.msg inc.caller_id inc.transport
  else
    some ⟨kos_msg_new STATUS_NOT_IMPLEMENTED 0 0 0 0, inc.transport, s, []⟩

/-- The loop of `listen_thread_fn` over the first messages it receives, with `none` when
an iteration executes an undefined step. -/
def listen_thread_fn_checked {H : Type} (env : Env H) (s : State H) :
    List Incoming → Option (List (Outcome (State H) PwmCall))
  | [] => some []
  | inc :: rest =>
    match listen_step_checked env s inc with
    | none => none
    | some o =>
      match listen_thread_fn_checked env o.state rest with
      | none => none
      | some os => some (o :: os)

/-- The threshold as section 4.5 of the specification words it:
`round(percent / 100 * periodCount)` with `periodCount = referenceClock / frequency` (the
integer quotient, as the specification's own example 16666666.5 shows) and
`referenceClock = 100000000`; `round` is the nearest integer, a half going up. -/
def spec_threshold_rounded (frequency percent : Nat) : Nat :=
  (2 * (percent * (100000000 / frequency)) + 100) / 200

/-! ### A register-level stand-in for the PWM controller -/

/-- Modelled from the spec: the register functions of `ehrpwm.h` are missing from the
sources.  The stand-in keeps what section 4.5 of the specification says they program: the
timebase clock and the frequency the period register was last programmed for, and the
compare threshold of channel A and of channel B. -/
structure PwmRegs where
  tb_clk : Nat
  pwm_freq : Nat
  cmpa : Nat
  cmpb : Nat
  deriving DecidableEq, Repr

/-- Modelled from the spec: `EHRPWMPWMOpFreqSet` reprograms the timebase period for the
given frequency and leaves the compare thresholds alone; `EHRPWMLoadCMPA` and
`EHRPWMLoadCMPB` load the given value into the compare threshold of their channel (the
source passes the flag that lets the load overwrite a pending one). -/
def regsDriver : PwmDriver PwmRegs :=
  { EHRPWMPWMOpFreqSet := fun hw _ tbClk pwmFreq _ _ =>
      { hw with tb_clk := tbClk, pwm_freq := pwmFreq },
    EHRPWMLoadCMPA := fun hw _ value _ _ _ => { hw with cmpa := value },
    EHRPWMLoadCMPB := fun hw _ value _ _ _ => { hw with cmpb := value } }

/-- Modelled from the spec: the registers as `init_pwm_controller` leaves them, the
timebase clock configured to `TB_CLK`, no frequency programmed, zero loaded into both
compare thresholds. -/
def PwmRegs.startup : PwmRegs :=
  { tb_clk := TB_CLK, pwm_freq := 0, cmpa := 0, cmpb := 0 }

/-- The PWM server running on the register stand-in. -/
def regsEnv (kos : Kos) (pwm_controller_base : Nat) : Env PwmRegs :=
  { kos := kos, pwm_controller_base := pwm_controller_base, drv := regsDriver }

end PwmServer

/-! ### A register-level stand-in for the GPIO controllers -/

namespace GpioServer

/-- Modelled from the spec: the register functions of `gpio_v2.h` are missing from the
sources.  The stand-in keeps, per controller base address and local pin index, what
section 4.4 of the specification says they program: the direction of the line, its
debounce switch, the level driven on the line by `write`, and the level an outside source
puts on the line; and per controller the debounce time. -/
structure GpioRegs where
  dir : Nat → Nat → gpio_dir
  debounce : Nat → Nat → gpio_debounce
  debounce_time : Nat → Nat
  dataout : Nat → Nat → Nat
  datain : Nat → Nat → Nat

/-- Modelled from the spec: `GPIODirModeSet` sets the direction of one line,
`GPIODebounceFuncControl` its debounce switch, `GPIODebounceTimeConfig` the debounce time
of the controller, `GPIOPinWrite` drives the line to the given level, and `GPIOPinRead`
returns the level of the line: the driven level when the line is an output, the outside
level when it is an input. -/
def regsDriver : GpioDriver GpioRegs :=
  { GPIODirModeSet := fun hw base pin d =>
      { hw with dir := fun b p => if b = base ∧ p = pin then d else hw.dir b p },
    GPIODebounceFuncControl := fun hw base pin c =>
      { hw with debounce := fun b p => if b = base ∧ p = pin then c else hw.debounce b p },
    GPIODebounceTimeConfig := fun hw base time =>
      { hw with debounce_time := fun b => if b = base then time else hw.debounce_time b },
    GPIOPinRead := fun hw base pin =>
      if hw.dir base pin = gpio_dir.GPIO_DIR_OUTPUT then hw.dataout base pin
      else hw.datain base pin,
    GPIOPinWrite := fun hw base pin level =>
      { hw with dataout := fun b p => if b = base ∧ p = pin then level else hw.dataout b p } }

/-- The GPIO server running on the register stand-in. -/
def regsEnv (kos : Kos) (gpio_controller_bases : Fin 4 → Nat) : Env GpioRegs :=
  { kos := kos, gpio_controller_bases := gpio_controller_bases, drv := regsDriver }

end GpioServer

/-! ## The synchronous binding (`c_src/kos_am335x_starterware_gpio.c`) -/

namespace GpioNif

def PINS_IN_CONTROLLER : Nat := 32

/-- The binding has its own copy of `flat_pin_to_controller_pin`. -/
def flat_pin_to_controller_pin (flat_pin : Nat) : Nat × Nat :=
  (flat_pin / PINS_IN_CONTROLLER, flat_pin % PINS_IN_CONTROLLER)

def NUM_GPIOS : Nat := 4

def CONFIGURE_PIN_ARGS : Nat := 2
def READ_ARGS : Nat := 1
def WRITE_ARGS : Nat := 2
def SET_DEBOUNCE_ARGS : Nat := 2
def SET_DEBOUNCE_TIME_ARGS : Nat := 2

def INPUT_MODE : Nat := 0
def OUTPUT_MODE : Nat := 1

/-- An argument term handed over by the Erlang runtime: an integer or something else. -/
inductive erl_term where
  | integer (i : Int)
  | atom (id : Nat)
  deriving DecidableEq, Repr

/-- The function `enif_get_uint` of `erl_nif.h`: it succeeds, with the value, on an integer
that fits an `unsigned int`, and fails on every other term. -/
def enif_get_uint (t : erl_term) : Option Nat :=
  match t with
  | erl_term.integer i => if 0 ≤ i ∧ i < 2 ^ 32 then some i.toNat else none
  | erl_term.atom _ => none

/-- What a binding function hands back: the exception of `enif_make_badarg`, the atom
`ok`, the pair of `ok` and a level; or, where the C function reads `gpio_controller_bases`
at an index outside its four entries, which has no defined result, that index. -/
inductive nif_return where
  | badarg
  | ok
  | ok_level (level : Nat)
  | index_out_of_table (index : Nat)
  deriving DecidableEq, Repr

/-- What is fixed after `load`: the four entries of `gpio_controller_bases` and the
register functions of `gpio_v2.h`. -/
structure Env (H : Type) where
  gpio_controller_bases : Fin 4 → Nat
  drv : GpioServer.GpioDriver H

/-- What a binding function leaves behind: the returned term, the hardware, and the
outside calls made, in program order. -/
structure NifOutcome (H : Type) where
  ret : nif_return
  hw : H
  calls : List GpioServer.GpioCall

/-- The function `configure_pin`; `argc` is the length of `argv`. -/
def configure_pin {H : Type} (env : Env H) (hw : H) (argv : List erl_term) :
    NifOutcome H :=
  if argv.length ≠ CONFIGURE_PIN_ARGS then ⟨nif_return.badarg, hw, []⟩
  else
    match enif_get_uint (argv.getD 0 (erl_term.atom 0)),
        enif_get_uint (argv.getD 1 (erl_term.atom 0)) with
    | some pin, some mode =>
      let cp := flat_pin_to_controller_pin pin
      if h : cp.1 < 4 then
        let controller_base := env.gpio_controller_bases ⟨cp.1, h⟩
        if mode = OUTPUT_MODE then
          ⟨nif_return.ok,
            env.drv.GPIODirModeSet hw controller_base cp.2 GpioServer.gpio_dir.GPIO_DIR_OUTPUT,
            [GpioServer.GpioCall.gpio_controller_bases cp.1,
             GpioServer.GpioCall.GPIODirModeSet controller_base cp.2
               GpioServer.gpio_dir.GPIO_DIR_OUTPUT]⟩
        else
          ⟨nif_return.ok,
            env.drv.GPIODirModeSet hw controller_base cp.2 GpioServer.gpio_dir.GPIO_DIR_INPUT,
            [GpioServer.GpioCall.gpio_controller_bases cp.1,
             GpioServer.GpioCall.GPIODirModeSet controller_base cp.2
               GpioServer.gpio_dir.GPIO_DIR_INPUT]⟩
      else
        ⟨nif_return.index_out_of_table cp.1, hw,
          [GpioServer.GpioCall.gpio_controller_bases cp.1]⟩
    | _, _ => ⟨nif_return.badarg, hw, []⟩

/-- The function `set_debounce`; it compares `argc` with `CONFIGURE_PIN_ARGS`. -/
def set_debounce {H : Type} (env : Env H) (hw : H) (argv : List erl_term) :
    NifOutcome H :=
  if argv.length ≠ CONFIGURE_PIN_ARGS then ⟨nif_return.badarg, hw, []⟩
  else
    match enif_get_uint (argv.getD 0 (erl_term.atom 0)),
        enif_get_uint (argv.getD 1 (erl_term.atom 0)) with
    | some pin, some debounce =>
      let cp := flat_pin_to_controller_pin pin
      if h : cp.1 < 4 then
        let controller_base := env.gpio_controller_bases ⟨cp.1, h⟩
        if debounce ≠ 0 then
          ⟨nif_return.ok,
            env.drv.GPIODebounceFuncControl hw controller_base cp.2
              GpioServer.gpio_debounce.GPIO_DEBOUNCE_FUNC_ENABLE,
            [GpioServer.GpioCall.gpio_controller_bases cp.1,
             GpioServer.GpioCall.GPIODebounceFuncControl controller_base cp.2
               GpioServer.gpio_debounce.GPIO_DEBOUNCE_FUNC_ENABLE]⟩
        else
          ⟨nif_return.ok,
            env.drv.GPIODebounceFuncControl hw controller_base cp.2
              GpioServer.gpio_debounce.GPIO_DEBOUNCE_FUNC_DISABLE,
            [GpioServer.GpioCall.gpio_controller_bases cp.1,
             GpioServer.GpioCall.GPIODebounceFuncControl controller_base cp.2
               GpioServer.gpio_debounce.GPIO_DEBOUNCE_FUNC_DISABLE]⟩
      else
        ⟨nif_return.index_out_of_table cp.1, hw,
          [GpioServer.GpioCall.gpio_controller_bases cp.1]⟩
    | _, _ => ⟨nif_return.badarg, hw, []⟩

/-- The function `set_debounce_time`; it compares `argc` with `CONFIGURE_PIN_ARGS`. -/
def set_debounce_time {H : Type} (env : Env H) (hw : H) (argv : List erl_term) :
    NifOutcome H :=
  if argv.length ≠ CONFIGURE_PIN_ARGS then ⟨nif_return.badarg, hw, []⟩
  else
    match enif_get_uint (argv.getD 0 (erl_term.atom 0)),
        enif_get_uint (argv.getD 1 (erl_term.atom 0)) with
    | some pin, some debounce_time =>
      let cp := flat_pin_to_controller_pin pin
      if h : cp.1 < 4 then
        let controller_base := env.gpio_controller_bases ⟨cp.1, h⟩
        ⟨nif_return.ok, env.drv.GPIODebounceTimeConfig hw controller_base debounce_time,
          [GpioServer.GpioCall.gpio_controller_bases cp.1,
           GpioServer.GpioCall.GPIODebounceTimeConfig controller_base debounce_time]⟩
      else
        ⟨nif_return.index_out_of_table cp.1, hw,
          [GpioServer.GpioCall.gpio_controller_bases cp.1]⟩
    | _, _ => ⟨nif_return.badarg, hw, []⟩

/-- The function `read`; it compares `argc` with `CONFIGURE_PIN_ARGS` and converts
`argv[0]` only. -/
def read {H : Type} (env : Env H) (hw : H) (argv : List erl_term) : NifOutcome H :=
  if argv.length ≠ CONFIGURE_PIN_ARGS then ⟨nif_return.badarg, hw, []⟩
  else
    match enif_get_uint (argv.getD 0 (erl_term.atom 0)) with
    | some pin =>
      let cp := flat_pin_to_controller_pin pin
      if h : cp.1 < 4 then
        let controller_base := env.gpio_controller_bases ⟨cp.1, h⟩
        let level := if env.drv.GPIOPinRead hw controller_base cp.2 ≠ 0 then 1 else 0
        ⟨nif_return.ok_level level, hw,
          [GpioServer.GpioCall.gpio_controller_bases cp.1,
           GpioServer.GpioCall.GPIOPinRead controller_base cp.2]⟩
      else
        ⟨nif_return.index_out_of_table cp.1, hw,
          [GpioServer.GpioCall.gpio_controller_bases cp.1]⟩
    | none => ⟨nif_return.badarg, hw, []⟩

/-- The function `write`; it compares `argc` with `CONFIGURE_PIN_ARGS`. -/
def write {H : Type} (env : Env H) (hw : H) (argv : List erl_term) : NifOutcome H :=
  if argv.length ≠ CONFIGURE_PIN_ARGS then ⟨nif_return.badarg, hw, []⟩
  else
    match enif_get_uint (argv.getD 0 (erl_term.atom 0)),
        enif_get_uint (argv.getD 1 (erl_term.atom 0)) with
    | some pin, some level =>
      let cp := flat_pin_to_controller_pin pin
      if h : cp.1 < 4 then
        let controller_base := env.gpio_controller_bases ⟨cp.1, h⟩
        ⟨nif_return.ok, env.drv.GPIOPinWrite hw controller_base cp.2 level,
          [GpioServer.GpioCall.gpio_controller_bases cp.1,
           GpioServer.GpioCall.GPIOPinWrite controller_base cp.2 level]⟩
      else
        ⟨nif_return.index_out_of_table cp.1, hw,
          [GpioServer.GpioCall.gpio_controller_bases cp.1]⟩
    | _, _ => ⟨nif_return.badarg, hw, []⟩

/-- The table `nif_funcs`: the arity under which each function is registered, in the order
`configure_pin`, `read`, `write`, `set_debounce`, `set_debounce_time`.  The runtime calls a
function with exactly that many arguments. -/
def nif_funcs_arity : List Nat :=
  [CONFIGURE_PIN_ARGS, READ_ARGS, WRITE_ARGS, SET_DEBOUNCE_ARGS, SET_DEBOUNCE_TIME_ARGS]

end GpioNif

/-! ## Sample environments

Concrete instances of the parameters, on which the theorems below are evaluated.  The
hardware state is the record of the register calls made so far. -/

namespace Sample

/-- A stand-in for `kos.h`: badge 256, flag 1, and a metadata word that is its own payload
size. -/
def kos : Kos :=
  { KOS_CORE_APP_ID_LIMIT := 256, KOS_MSG_FLAG_SEND_PAYLOAD := 1,
    kos_msg_payload_size := fun metadata => metadata }

/-- GPIO register functions that append every call to the record; a pin reads as 1. -/
def gpioDriver : GpioServer.GpioDriver (List GpioServer.GpioCall) :=
  { GPIODirModeSet := fun hw base pin dir => hw ++ [GpioServer.GpioCall.GPIODirModeSet base pin dir],
    GPIODebounceFuncControl := fun hw base pin ctl =>
      hw ++ [GpioServer.GpioCall.GPIODebounceFuncControl base pin ctl],
    GPIODebounceTimeConfig := fun hw base time =>
      hw ++ [GpioServer.GpioCall.GPIODebounceTimeConfig base time],
    GPIOPinRead := fun _ _ _ => 1,
    GPIOPinWrite := fun hw base pin level =>
      hw ++ [GpioServer.GpioCall.GPIOPinWrite base pin level] }

/-- The four physical addresses of the GPIO controllers, standing for the mapped ones. -/
def gpioBases : Fin 4 → Nat := fun i =>
  if i.val = 0 then 0x44e07000 else if i.val = 1 then 0x4804c000
  else if i.val = 2 then 0x481ac000 else 0x481ae000

def gpioEnv : GpioServer.Env (List GpioServer.GpioCall) :=
  { kos := kos, gpio_controller_bases := gpioBases, drv := gpioDriver }

/-- PWM register functions that append every call to the record. -/
def pwmDriver : PwmServer.PwmDriver (List PwmServer.PwmCall) :=
  { EHRPWMPWMOpFreqSet := fun hw base tbClk pwmFreq _ _ =>
      hw ++ [PwmServer.PwmCall.EHRPWMPWMOpFreqSet base tbClk pwmFreq],
    EHRPWMLoadCMPA := fun hw base value _ _ _ =>
      hw ++ [PwmServer.PwmCall.EHRPWMLoadCMPA base value],
    EHRPWMLoadCMPB := fun hw base value _ _ _ =>
      hw ++ [PwmServer.PwmCall.EHRPWMLoadCMPB base value] }

def pwmEnv : PwmServer.Env (List PwmServer.PwmCall) :=
  { kos := kos, pwm_controller_base := 0x48300200, drv := pwmDriver }

/-- A GPIO server bound to client 7, no register call made yet. -/
def gpioBound : GpioServer.State (List GpioServer.GpioCall) :=
  { client_id := 7, hw := [] }

/-- A PWM server bound to client 7 at 1000 Hz with duty cycles 50 and 25. -/
def pwmBound : PwmServer.State (List PwmServer.PwmCall) :=
  { client_id := 7, curr_freq := 1000, curr_pin_duty_cycle := (50, 25), hw := [] }

/-- A payload buffer holding `a` in word 0 and `b` in every other word. -/
def words (a b : Nat) : Nat → Nat := fun i => if i = 0 then a else b

/-- The binding on the recording register functions. -/
def nifEnv : GpioNif.Env (List GpioServer.GpioCall) :=
  { gpio_controller_bases := gpioBases, drv := gpioDriver }

/-- The PWM server on the register stand-in. -/
def pwmRegsEnv : PwmServer.Env PwmServer.PwmRegs :=
  PwmServer.regsEnv kos 0x48300200

/-- The GPIO server on the register stand-in. -/
def gpioRegsEnv : GpioServer.Env GpioServer.GpioRegs :=
  GpioServer.regsEnv kos gpioBases

/-- A PWM server on the register stand-in bound to client 7, with the given frequency and
cached duty cycles on top of the startup registers. -/
def pwmRegsBound (curr_freq duty_a duty_b : Nat) : PwmServer.State PwmServer.PwmRegs :=
  { client_id := 7, curr_freq := curr_freq, curr_pin_duty_cycle := (duty_a, duty_b),
    hw := PwmServer.PwmRegs.startup }

/-- GPIO registers after reset: every line an input, debounce off, all levels 0. -/
def gpioRegs0 : GpioServer.GpioRegs :=
  { dir := fun _ _ => GpioServer.gpio_dir.GPIO_DIR_INPUT,
    debounce := fun _ _ => GpioServer.gpio_debounce.GPIO_DEBOUNCE_FUNC_DISABLE,
    debounce_time := fun _ => 0, dataout := fun _ _ => 0, datain := fun _ _ => 0 }

end Sample

/-! ## Theorems -/

/-- C1: for every flat pin `p` in 0..127 both copies of `flat_pin_to_controller_pin` yield
controller `p / 32` and local index `p % 32`, with the controller in 0..3, the local index
in 0..31 and `32 * controller + local = p`; two pins in 0..127 with the same decomposition
are equal. -/
theorem C1_flat_pin_decomposition (p : Nat) (hp : p ≤ 127) :
    (GpioServer.flat_pin_to_controller_pin p = (p / 32, p % 32)
      ∧ GpioNif.flat_pin_to_controller_pin p = (p / 32, p % 32))
    ∧ (GpioServer.flat_pin_to_controller_pin p).1 ≤ 3
    ∧ (GpioServer.flat_pin_to_controller_pin p).2 ≤ 31
    ∧ 32 * (GpioServer.flat_pin_to_controller_pin p).1
        + (GpioServer.flat_pin_to_controller_pin p).2 = p
    ∧ (∀ q : Nat, q ≤ 127 →
        GpioServer.flat_pin_to_controller_pin p = GpioServer.flat_pin_to_controller_pin q →
        p = q)
    ∧ (∀ q : Nat, q ≤ 127 →
        GpioNif.flat_pin_to_controller_pin p = GpioNif.flat_pin_to_controller_pin q →
        p = q) := by
  simp only [GpioServer.flat_pin_to_controller_pin, GpioNif.flat_pin_to_controller_pin,
    GpioServer.PINS_IN_CONTROLLER, GpioNif.PINS_IN_CONTROLLER, Prod.mk.injEq]
  refine ⟨⟨trivial, trivial⟩, by omega, by omega, by omega, ?_, ?_⟩ <;>
  · intro q _ h
    omega

/-- C1 at pin 77: controller 2, local index 13. -/
theorem C1_flat_pin_decomposition_witness :
    77 ≤ 127
    ∧ (GpioServer.flat_pin_to_controller_pin 77 = (2, 13)
      ∧ GpioNif.flat_pin_to_controller_pin 77 = (2, 13))
    ∧ 32 * (GpioServer.flat_pin_to_controller_pin 77).1
        + (GpioServer.flat_pin_to_controller_pin 77).2 = 77 :=
  ⟨by decide, (C1_flat_pin_decomposition 77 (by decide)).1,
    (C1_flat_pin_decomposition 77 (by decide)).2.2.2.1⟩

/-! ### Rejection of out-of-range pins -/

/-- C2: in the GPIO server, each of the five operation handlers, called by the bound client
with a payload of exactly the expected size (8, 8, 8, 4 and 8 bytes) and a pin argument
above 127, answers `STATUS_BAD_REQUEST`, makes no outside call (so no register function is
called and `gpio_controller_bases` is not indexed) and returns the state and the payload
buffer as they were; the same holds when the request comes in through the loop. -/
theorem C2_gpio_pin_above_127_rejected {H : Type} (env : GpioServer.Env H)
    (s : GpioServer.State H) (msg : kos_msg_t) (caller_id : Nat) (transport : Nat → Nat)
    (hcaller : caller_id = s.client_id) (hpin : 127 < transport 0) :
    (env.kos.kos_msg_payload_size msg.metadata = 4 * 2 →
        GpioServer.handle_configure_pin env s msg caller_id transport
          = ⟨kos_msg_new_status STATUS_BAD_REQUEST, transport, s, []⟩)
    ∧ (env.kos.kos_msg_payload_size msg.metadata = 4 * 2 →
        GpioServer.handle_set_debounce env s msg caller_id transport
          = ⟨kos_msg_new_status STATUS_BAD_REQUEST, transport, s, []⟩)
    ∧ (env.kos.kos_msg_payload_size msg.metadata = 4 * 2 →
        GpioServer.handle_set_debounce_timing env s msg caller_id transport
          = ⟨kos_msg_new_status STATUS_BAD_REQUEST, transport, s, []⟩)
    ∧ (env.kos.kos_msg_payload_size msg.metadata = 4 * 1 →
        GpioServer.handle_read env s msg caller_id transport
          = ⟨kos_msg_new_status STATUS_BAD_REQUEST, transport, s, []⟩)
    ∧ (env.kos.kos_msg_payload_size msg.metadata = 4 * 2 →
        GpioServer.handle_write env s msg caller_id transport
          = ⟨kos_msg_new_status STATUS_BAD_REQUEST, transport, s, []⟩)
    ∧ (∀ label : Nat, label ∈ [1, 2, 3, 4, 5] → msg.label = label →
        env.kos.kos_msg_payload_size msg.metadata = (if label = 4 then 4 * 1 else 4 * 2) →
        GpioServer.listen_step env s
            ⟨msg, GpioServer.GPIO_PROTOCOL_BADGE env.kos, caller_id, transport⟩
          = ⟨kos_msg_new_status STATUS_BAD_REQUEST, transport, s, []⟩) := by
  have hp : transport 0 > GpioServer.MAX_PIN := hpin
  refine ⟨?_, ?_, ?_, ?_, ?_, ?_⟩
  · intro hsz
    simp [GpioServer.handle_configure_pin, hcaller, hsz, hp, sizeof_uint32_t,
      GpioServer.CONFIGURE_PIN_ARGS]
  · intro hsz
    simp [GpioServer.handle_set_debounce, hcaller, hsz, hp, sizeof_uint32_t,
      GpioServer.SET_DEBOUNCE_ARGS]
  · intro hsz
    simp [GpioServer.handle_set_debounce_timing, hcaller, hsz, hp, sizeof_uint32_t,
      GpioServer.SET_DEBOUNCE_TIMING_ARGS]
  · intro hsz
    simp [GpioServer.handle_read, hcaller, hsz, hp, sizeof_uint32_t, GpioServer.READ_ARGS]
  · intro hsz
    simp [GpioServer.handle_write, hcaller, hsz, hp, sizeof_uint32_t, GpioServer.WRITE_ARGS]
  · intro label hmem hl hsz
    simp only [List.mem_cons, List.mem_singleton, List.not_mem_nil, or_false] at hmem
    rcases hmem with h | h | h | h | h <;> subst h <;>
      simp [GpioServer.listen_step, hl, GpioServer.GPIO_REQUEST_LABEL, ALL_ONES, WORD_BITS,
        GpioServer.CONFIGURE_PIN_REQUEST, GpioServer.SET_DEBOUNCE_REQUEST,
        GpioServer.SET_DEBOUNCE_TIMING_REQUEST, GpioServer.READ_REQUEST,
        GpioServer.WRITE_REQUEST, GpioServer.handle_configure_pin,
        GpioServer.handle_set_debounce, GpioServer.handle_set_debounce_timing,
        GpioServer.handle_read, GpioServer.handle_write, hcaller, hp, sizeof_uint32_t,
        GpioServer.CONFIGURE_PIN_ARGS, GpioServer.SET_DEBOUNCE_ARGS,
        GpioServer.SET_DEBOUNCE_TIMING_ARGS, GpioServer.READ_ARGS, GpioServer.WRITE_ARGS]

/-- C2 on the sample server bound to client 7: a configure-pin request of client 7 with an
8-byte payload and pin 200. -/
theorem C2_gpio_pin_above_127_rejected_witness :
    (7 = Sample.gpioBound.client_id ∧ 127 < Sample.words 200 1 0)
    ∧ GpioServer.handle_configure_pin Sample.gpioEnv Sample.gpioBound ⟨1, 0, 8⟩ 7
          (Sample.words 200 1)
        = ⟨kos_msg_new_status STATUS_BAD_REQUEST, Sample.words 200 1, Sample.gpioBound, []⟩ :=
  ⟨⟨by decide, by decide⟩,
    (C2_gpio_pin_above_127_rejected Sample.gpioEnv Sample.gpioBound ⟨1, 0, 8⟩ 7
      (Sample.words 200 1) (by decide) (by decide)).1 (by decide)⟩

/-! ### Registration -/

namespace GpioServer

/-- The successful path of `handle_request`, spelled out. -/
theorem gpio_handle_request_ok {H : Type} (env : Env H) (s : State H) (msg : kos_msg_t)
    (caller_id : Nat) (transport : Nat → Nat) (h0 : caller_id ≠ 0)
    (hfree : s.client_id = 0 ∨ s.client_id = caller_id) :
    handle_request env s msg (GPIO_PROTOCOL_BADGE env.kos) caller_id transport
      = ⟨kos_msg_new STATUS_OK 0 0 TRANSFER_TOKEN_SLOT 0, transport,
          { s with client_id := caller_id },
          [GpioCall.kos_msg_token_create (GPIO_PROTOCOL_BADGE env.kos)
            env.kos.KOS_MSG_FLAG_SEND_PAYLOAD TRANSFER_TOKEN_SLOT]⟩ := by
  have hfull : ¬ (s.client_id ≠ 0 ∧ s.client_id ≠ caller_id) := by
    rcases hfree with h | h <;> simp [h]
  simp [handle_request, h0, hfull]

/-- The reply of `handle_request` under the protocol badge has status OK only on the
successful path. -/
theorem gpio_handle_request_label_ok {H : Type} (env : Env H) (s : State H) (msg : kos_msg_t)
    (caller_id : Nat) (transport : Nat → Nat) :
    (handle_request env s msg (GPIO_PROTOCOL_BADGE env.kos) caller_id transport).msg.label
        = STATUS_OK
      ↔ (caller_id ≠ 0 ∧ (s.client_id = 0 ∨ s.client_id = caller_id)) := by
  unfold handle_request
  by_cases h0 : caller_id = 0
  · simp [h0, kos_msg_new_status, kos_msg_new]
  · by_cases hfull : s.client_id ≠ 0 ∧ s.client_id ≠ caller_id
    · have : ¬ (s.client_id = 0 ∨ s.client_id = caller_id) := by
        rintro (h | h)
        · exact hfull.1 h
        · exact hfull.2 h
      simp [h0, hfull, this, kos_msg_new_status, kos_msg_new]
    · have : s.client_id = 0 ∨ s.client_id = caller_id := by
        by_cases h : s.client_id = 0
        · exact Or.inl h
        · exact Or.inr (by_contra fun h2 => hfull ⟨h, h2⟩)
      simp [h0, hfull, this, kos_msg_new]

/-- A run of registration requests of one non-zero caller, started unbound or bound to
that caller: every request succeeds and leaves the server bound to the caller. -/
theorem gpio_reregister_all {H : Type} (env : Env H) (c : Nat) (hc : c ≠ 0)
    (msgs : List Incoming)
    (hmsgs : ∀ m ∈ msgs, m.badge = GPIO_PROTOCOL_BADGE env.kos
      ∧ m.msg.label = GPIO_REQUEST_LABEL ∧ m.caller_id = c) :
    ∀ s : State H, (s.client_id = 0 ∨ s.client_id = c) →
      (listen_thread_fn env s msgs).length = msgs.length
      ∧ ∀ o ∈ listen_thread_fn env s msgs,
          o.msg = kos_msg_new STATUS_OK 0 0 TRANSFER_TOKEN_SLOT 0
          ∧ o.state = { s with client_id := c } := by
  induction msgs with
  | nil => intro s _; simp [listen_thread_fn]
  | cons m rest ih =>
    intro s hs
    obtain ⟨hb, hl, hcid⟩ := hmsgs m (List.mem_cons_self _ _)
    have hstep : listen_step env s m
        = ⟨kos_msg_new STATUS_OK 0 0 TRANSFER_TOKEN_SLOT 0, m.transport,
            { s with client_id := c },
            [GpioCall.kos_msg_token_create (GPIO_PROTOCOL_BADGE env.kos)
              env.kos.KOS_MSG_FLAG_SEND_PAYLOAD TRANSFER_TOKEN_SLOT]⟩ := by
      have := gpio_handle_request_ok env s m.msg c m.transport hc hs
      simp only [listen_step, hb, hl, hcid, ne_eq, not_true_eq_false, if_false, if_true]
      exact this
    have ih2 := ih (fun x hx => hmsgs x (List.mem_cons_of_mem _ hx))
      { s with client_id := c } (Or.inr rfl)
    simp only [listen_thread_fn, hstep, List.length_cons, List.mem_cons]
    refine ⟨by rw [ih2.1], ?_⟩
    rintro o (ho | ho)
    · subst ho; exact ⟨rfl, rfl⟩
    · exact ih2.2 o ho

end GpioServer

namespace PwmServer

/-- The successful path of `handle_request`, spelled out. -/
theorem pwm_handle_request_ok {H : Type} (env : Env H) (s : State H) (msg : kos_msg_t)
    (caller_id : Nat) (transport : Nat → Nat) (h0 : caller_id ≠ 0)
    (hfree : s.client_id = 0 ∨ s.client_id = caller_id) :
    handle_request env s msg (PWM_PROTOCOL_BADGE env.kos) caller_id transport
      = ⟨kos_msg_new STATUS_OK 0 0 TRANSFER_TOKEN_SLOT 0, transport,
          { s with client_id := caller_id },
          [PwmCall.kos_msg_token_create (PWM_PROTOCOL_BADGE env.kos)
            env.kos.KOS_MSG_FLAG_SEND_PAYLOAD TRANSFER_TOKEN_SLOT]⟩ := by
  have hfull : ¬ (s.client_id ≠ 0 ∧ s.client_id ≠ caller_id) := by
    rcases hfree with h | h <;> simp [h]
  simp [handle_request, h0, hfull]

/-- The reply of `handle_request` under the protocol badge has status OK only on the
successful path. -/
theorem pwm_handle_request_label_ok {H : Type} (env : Env H) (s : State H) (msg : kos_msg_t)
    (caller_id : Nat) (transport : Nat → Nat) :
    (handle_request env s msg (PWM_PROTOCOL_BADGE env.kos) caller_id transport).msg.label
        = STATUS_OK
      ↔ (caller_id ≠ 0 ∧ (s.client_id = 0 ∨ s.client_id = caller_id)) := by
  unfold handle_request
  by_cases h0 : caller_id = 0
  · simp [h0, kos_msg_new_status, kos_msg_new]
  · by_cases hfull : s.client_id ≠ 0 ∧ s.client_id ≠ caller_id
    · have : ¬ (s.client_id = 0 ∨ s.client_id = caller_id) := by
        rintro (h | h)
        · exact hfull.1 h
        · exact hfull.2 h
      simp [h0, hfull, this, kos_msg_new_status, kos_msg_new]
    · have : s.client_id = 0 ∨ s.client_id = caller_id := by
        by_cases h : s.client_id = 0
        · exact Or.inl h
        · exact Or.inr (by_contra fun h2 => hfull ⟨h, h2⟩)
      simp [h0, hfull, this, kos_msg_new]

/-- A run of registration requests of one non-zero caller, started unbound or bound to
that caller: every request succeeds and leaves the server bound to the caller. -/
theorem pwm_reregister_all {H : Type} (env : Env H) (c : Nat) (hc : c ≠ 0)
    (msgs : List Incoming)
    (hmsgs : ∀ m ∈ msgs, m.badge = PWM_PROTOCOL_BADGE env.kos
      ∧ m.msg.label = PWM_REQUEST_LABEL ∧ m.caller_id = c) :
    ∀ s : State H, (s.client_id = 0 ∨ s.client_id = c) →
      (listen_thread_fn env s msgs).length = msgs.length
      ∧ ∀ o ∈ listen_thread_fn env s msgs,
          o.msg = kos_msg_new STATUS_OK 0 0 TRANSFER_TOKEN_SLOT 0
          ∧ o.state = { s with client_id := c } := by
  induction msgs with
  | nil => intro s _; simp [listen_thread_fn]
  | cons m rest ih =>
    intro s hs
    obtain ⟨hb, hl, hcid⟩ := hmsgs m (List.mem_cons_self _ _)
    have hstep : listen_step env s m
        = ⟨kos_msg_new STATUS_OK 0 0 TRANSFER_TOKEN_SLOT 0, m.transport,
            { s with client_id := c },
            [PwmCall.kos_msg_token_create (PWM_PROTOCOL_BADGE env.kos)
              env.kos.KOS_MSG_FLAG_SEND_PAYLOAD TRANSFER_TOKEN_SLOT]⟩ := by
      have := pwm_handle_request_ok env s m.msg c m.transport hc hs
      simp only [listen_step, hb, hl, hcid, ne_eq, not_true_eq_false, if_false, if_true]
      exact this
    have ih2 := ih (fun x hx => hmsgs x (List.mem_cons_of_mem _ hx))
      { s with client_id := c } (Or.inr rfl)
    simp only [listen_thread_fn, hstep, List.length_cons, List.mem_cons]
    refine ⟨by rw [ih2.1], ?_⟩
    rintro o (ho | ho)
    · subst ho; exact ⟨rfl, rfl⟩
    · exact ih2.2 o ho

end PwmServer

/-- C3: for a registration request carrying the protocol badge, in both servers
`handle_request` replies with status OK exactly when the caller id is non-zero and
`client_id` is 0 or equal to the caller id; in that case the reply is
`kos_msg_new(STATUS_OK, 0, 0, TRANSFER_TOKEN_SLOT, 0)`, one token is created for the transfer
slot and `client_id` is the caller id afterwards, nothing else of the state changing.  So the
first non-zero caller of a freshly started server becomes bound, and any run of
registration requests of one caller, unbound or bound to that caller at the start, succeeds
at every request and leaves the server bound to that caller. -/
theorem C3_registration_succeeds_iff {H K : Type} (genv : GpioServer.Env H)
    (gs : GpioServer.State H) (penv : PwmServer.Env K) (ps : PwmServer.State K)
    (msg : kos_msg_t) (caller_id : Nat) (transport : Nat → Nat) (hw : H) (hw2 : K) :
    (((GpioServer.handle_request genv gs msg (GpioServer.GPIO_PROTOCOL_BADGE genv.kos)
          caller_id transport).msg.label = STATUS_OK
        ↔ (caller_id ≠ 0 ∧ (gs.client_id = 0 ∨ gs.client_id = caller_id)))
      ∧ ((caller_id ≠ 0 ∧ (gs.client_id = 0 ∨ gs.client_id = caller_id)) →
          GpioServer.handle_request genv gs msg (GpioServer.GPIO_PROTOCOL_BADGE genv.kos)
              caller_id transport
            = ⟨kos_msg_new STATUS_OK 0 0 2 0, transport, { gs with client_id := caller_id },
                [GpioServer.GpioCall.kos_msg_token_create
                  (GpioServer.GPIO_PROTOCOL_BADGE genv.kos)
                  genv.kos.KOS_MSG_FLAG_SEND_PAYLOAD 2]⟩)
      ∧ (caller_id ≠ 0 →
          (GpioServer.handle_request genv (GpioServer.State.initial hw) msg
              (GpioServer.GPIO_PROTOCOL_BADGE genv.kos) caller_id transport).msg
              = kos_msg_new STATUS_OK 0 0 2 0
          ∧ (GpioServer.handle_request genv (GpioServer.State.initial hw) msg
              (GpioServer.GPIO_PROTOCOL_BADGE genv.kos) caller_id transport).state.client_id
              = caller_id)
      ∧ (∀ msgs : List Incoming, caller_id ≠ 0 →
          (gs.client_id = 0 ∨ gs.client_id = caller_id) →
          (∀ m ∈ msgs, m.badge = GpioServer.GPIO_PROTOCOL_BADGE genv.kos
            ∧ m.msg.label = GpioServer.GPIO_REQUEST_LABEL ∧ m.caller_id = caller_id) →
          (GpioServer.listen_thread_fn genv gs msgs).length = msgs.length
          ∧ ∀ o ∈ GpioServer.listen_thread_fn genv gs msgs,
              o.msg = kos_msg_new STATUS_OK 0 0 2 0
              ∧ o.state = { gs with client_id := caller_id }))
    ∧ (((PwmServer.handle_request penv ps msg (PwmServer.PWM_PROTOCOL_BADGE penv.kos)
          caller_id transport).msg.label = STATUS_OK
        ↔ (caller_id ≠ 0 ∧ (ps.client_id = 0 ∨ ps.client_id = caller_id)))
      ∧ ((caller_id ≠ 0 ∧ (ps.client_id = 0 ∨ ps.client_id = caller_id)) →
          PwmServer.handle_request penv ps msg (PwmServer.PWM_PROTOCOL_BADGE penv.kos)
              caller_id transport
            = ⟨kos_msg_new STATUS_OK 0 0 2 0, transport, { ps with client_id := caller_id },
                [PwmServer.PwmCall.kos_msg_token_create
                  (PwmServer.PWM_PROTOCOL_BADGE penv.kos)
                  penv.kos.KOS_MSG_FLAG_SEND_PAYLOAD 2]⟩)
      ∧ (caller_id ≠ 0 →
          (PwmServer.handle_request penv (PwmServer.State.initial hw2) msg
              (PwmServer.PWM_PROTOCOL_BADGE penv.kos) caller_id transport).msg
              = kos_msg_new STATUS_OK 0 0 2 0
          ∧ (PwmServer.handle_request penv (PwmServer.State.initial hw2) msg
              (PwmServer.PWM_PROTOCOL_BADGE penv.kos) caller_id transport).state.client_id
              = caller_id)
      ∧ (∀ msgs : List Incoming, caller_id ≠ 0 →
          (ps.client_id = 0 ∨ ps.client_id = caller_id) →
          (∀ m ∈ msgs, m.badge = PwmServer.PWM_PROTOCOL_BADGE penv.kos
            ∧ m.msg.label = PwmServer.PWM_REQUEST_LABEL ∧ m.caller_id = caller_id) →
          (PwmServer.listen_thread_fn penv ps msgs).length = msgs.length
          ∧ ∀ o ∈ PwmServer.listen_thread_fn penv ps msgs,
              o.msg = kos_msg_new STATUS_OK 0 0 2 0
              ∧ o.state = { ps with client_id := caller_id })) := by
  refine ⟨⟨GpioServer.gpio_handle_request_label_ok genv gs msg caller_id transport, ?_, ?_, ?_⟩,
    ⟨PwmServer.pwm_handle_request_label_ok penv ps msg caller_id transport, ?_, ?_, ?_⟩⟩
  · rintro ⟨h0, hfree⟩
    exact GpioServer.gpio_handle_request_ok genv gs msg caller_id transport h0 hfree
  · intro h0
    rw [GpioServer.gpio_handle_request_ok genv (GpioServer.State.initial hw) msg caller_id
      transport h0 (Or.inl rfl)]
    exact ⟨rfl, rfl⟩
  · intro msgs h0 hfree hmsgs
    exact GpioServer.gpio_reregister_all genv caller_id h0 msgs hmsgs gs hfree
  · rintro ⟨h0, hfree⟩
    exact PwmServer.pwm_handle_request_ok penv ps msg caller_id transport h0 hfree
  · intro h0
    rw [PwmServer.pwm_handle_request_ok penv (PwmServer.State.initial hw2) msg caller_id
      transport h0 (Or.inl rfl)]
    exact ⟨rfl, rfl⟩
  · intro msgs h0 hfree hmsgs
    exact PwmServer.pwm_reregister_all penv caller_id h0 msgs hmsgs ps hfree

/-- C3 on the sample servers: client 7 registers with a fresh GPIO server and becomes
bound, and registers again with the PWM server already bound to it. -/
theorem C3_registration_succeeds_iff_witness :
    ((GpioServer.handle_request Sample.gpioEnv (GpioServer.State.initial []) ⟨ALL_ONES, 0, 0⟩
          256 7 (Sample.words 0 0)).msg = kos_msg_new STATUS_OK 0 0 2 0
      ∧ (GpioServer.handle_request Sample.gpioEnv (GpioServer.State.initial []) ⟨ALL_ONES, 0, 0⟩
          256 7 (Sample.words 0 0)).state.client_id = 7)
    ∧ (PwmServer.handle_request Sample.pwmEnv Sample.pwmBound ⟨ALL_ONES, 0, 0⟩
          256 7 (Sample.words 0 0)).msg.label = STATUS_OK :=
  ⟨(C3_registration_succeeds_iff Sample.gpioEnv Sample.gpioBound Sample.pwmEnv
      Sample.pwmBound ⟨ALL_ONES, 0, 0⟩ 7 (Sample.words 0 0) [] []).1.2.2.1 (by decide),
   (C3_registration_succeeds_iff Sample.gpioEnv Sample.gpioBound Sample.pwmEnv
      Sample.pwmBound ⟨ALL_ONES, 0, 0⟩ 7 (Sample.words 0 0) [] []).2.1.mpr
      ⟨by decide, Or.inr rfl⟩⟩

/-- C4: in both servers, when a client `c ≠ 0` is bound, a registration request under the
protocol badge from a caller `d` with `d ≠ 0` and `d ≠ c` is answered with `STATUS_FULL`,
makes no outside call (no token is created) and leaves the state, so also `client_id = c`,
as it was; the same holds when the request comes in through the loop. -/
theorem C4_second_client_gets_full {H K : Type} (genv : GpioServer.Env H)
    (gs : GpioServer.State H) (penv : PwmServer.Env K) (ps : PwmServer.State K)
    (msg : kos_msg_t) (c d : Nat) (transport : Nat → Nat)
    (hg : gs.client_id = c) (hp : ps.client_id = c) (hc : c ≠ 0) (hd : d ≠ 0)
    (hdc : d ≠ c) :
    GpioServer.handle_request genv gs msg (GpioServer.GPIO_PROTOCOL_BADGE genv.kos) d transport
        = ⟨kos_msg_new_status STATUS_FULL, transport, gs, []⟩
    ∧ PwmServer.handle_request penv ps msg (PwmServer.PWM_PROTOCOL_BADGE penv.kos) d transport
        = ⟨kos_msg_new_status STATUS_FULL, transport, ps, []⟩
    ∧ (msg.label = GpioServer.GPIO_REQUEST_LABEL →
        GpioServer.listen_step genv gs
            ⟨msg, GpioServer.GPIO_PROTOCOL_BADGE genv.kos, d, transport⟩
          = ⟨kos_msg_new_status STATUS_FULL, transport, gs, []⟩)
    ∧ (msg.label = PwmServer.PWM_REQUEST_LABEL →
        PwmServer.listen_step penv ps
            ⟨msg, PwmServer.PWM_PROTOCOL_BADGE penv.kos, d, transport⟩
          = ⟨kos_msg_new_status STATUS_FULL, transport, ps, []⟩) := by
  have hcd : ¬ c = d := fun h => hdc h.symm
  have h1 : GpioServer.handle_request genv gs msg (GpioServer.GPIO_PROTOCOL_BADGE genv.kos) d
      transport = ⟨kos_msg_new_status STATUS_FULL, transport, gs, []⟩ := by
    simp [GpioServer.handle_request, hg, hc, hd, hcd]
  have h2 : PwmServer.handle_request penv ps msg (PwmServer.PWM_PROTOCOL_BADGE penv.kos) d
      transport = ⟨kos_msg_new_status STATUS_FULL, transport, ps, []⟩ := by
    simp [PwmServer.handle_request, hp, hc, hd, hcd]
  refine ⟨h1, h2, ?_, ?_⟩
  · intro hl
    simp only [GpioServer.listen_step, hl, ne_eq, not_true_eq_false, if_false, if_true]
    exact h1
  · intro hl
    simp only [PwmServer.listen_step, hl, ne_eq, not_true_eq_false, if_false, if_true]
    exact h2

/-- C4 on the sample servers bound to client 7: client 9 tries to register. -/
theorem C4_second_client_gets_full_witness :
    (Sample.gpioBound.client_id = 7 ∧ Sample.pwmBound.client_id = 7 ∧ 7 ≠ 0 ∧ 9 ≠ 0 ∧ 9 ≠ 7)
    ∧ GpioServer.handle_request Sample.gpioEnv Sample.gpioBound ⟨ALL_ONES, 0, 0⟩
          (GpioServer.GPIO_PROTOCOL_BADGE Sample.gpioEnv.kos) 9 (Sample.words 0 0)
        = ⟨kos_msg_new_status STATUS_FULL, Sample.words 0 0, Sample.gpioBound, []⟩
    ∧ PwmServer.handle_request Sample.pwmEnv Sample.pwmBound ⟨ALL_ONES, 0, 0⟩
          (PwmServer.PWM_PROTOCOL_BADGE Sample.pwmEnv.kos) 9 (Sample.words 0 0)
        = ⟨kos_msg_new_status STATUS_FULL, Sample.words 0 0, Sample.pwmBound, []⟩ :=
  have h := C4_second_client_gets_full Sample.gpioEnv Sample.gpioBound Sample.pwmEnv
    Sample.pwmBound ⟨ALL_ONES, 0, 0⟩ 7 9 (Sample.words 0 0) rfl rfl (by decide) (by decide)
    (by decide)
  ⟨⟨rfl, rfl, by decide, by decide, by decide⟩, h.1, h.2.1⟩

/-- C5: in both servers a registration request under the protocol badge whose caller id is
0 is answered with `STATUS_BAD_REQUEST`, makes no outside call and leaves the state as it
was, whatever `client_id` is: unbound, or bound to any client (the check of the caller id
comes before the check for a bound client); the same holds through the loop. -/
theorem C5_null_caller_bad_request {H K : Type} (genv : GpioServer.Env H)
    (gs : GpioServer.State H) (penv : PwmServer.Env K) (ps : PwmServer.State K)
    (msg : kos_msg_t) (transport : Nat → Nat) :
    GpioServer.handle_request genv gs msg (GpioServer.GPIO_PROTOCOL_BADGE genv.kos) 0 transport
        = ⟨kos_msg_new_status STATUS_BAD_REQUEST, transport, gs, []⟩
    ∧ PwmServer.handle_request penv ps msg (PwmServer.PWM_PROTOCOL_BADGE penv.kos) 0 transport
        = ⟨kos_msg_new_status STATUS_BAD_REQUEST, transport, ps, []⟩
    ∧ GpioServer.listen_step genv gs
          ⟨⟨GpioServer.GPIO_REQUEST_LABEL, msg.param, msg.metadata⟩,
            GpioServer.GPIO_PROTOCOL_BADGE genv.kos, 0, transport⟩
        = ⟨kos_msg_new_status STATUS_BAD_REQUEST, transport, gs, []⟩
    ∧ PwmServer.listen_step penv ps
          ⟨⟨PwmServer.PWM_REQUEST_LABEL, msg.param, msg.metadata⟩,
            PwmServer.PWM_PROTOCOL_BADGE penv.kos, 0, transport⟩
        = ⟨kos_msg_new_status STATUS_BAD_REQUEST, transport, ps, []⟩ := by
  refine ⟨?_, ?_, ?_, ?_⟩
  · simp [GpioServer.handle_request]
  · simp [PwmServer.handle_request]
  · simp [GpioServer.listen_step, GpioServer.handle_request]
  · simp [PwmServer.listen_step, PwmServer.handle_request]

/-- C5 on the sample servers: caller 0 registers with the unbound GPIO server and with the
PWM server bound to client 7. -/
theorem C5_null_caller_bad_request_witness :
    GpioServer.handle_request Sample.gpioEnv (GpioServer.State.initial []) ⟨ALL_ONES, 0, 0⟩
          (GpioServer.GPIO_PROTOCOL_BADGE Sample.gpioEnv.kos) 0 (Sample.words 0 0)
        = ⟨kos_msg_new_status STATUS_BAD_REQUEST, Sample.words 0 0,
            GpioServer.State.initial [], []⟩
    ∧ PwmServer.handle_request Sample.pwmEnv Sample.pwmBound ⟨ALL_ONES, 0, 0⟩
          (PwmServer.PWM_PROTOCOL_BADGE Sample.pwmEnv.kos) 0 (Sample.words 0 0)
        = ⟨kos_msg_new_status STATUS_BAD_REQUEST, Sample.words 0 0, Sample.pwmBound, []⟩ :=
  have h := C5_null_caller_bad_request Sample.gpioEnv (GpioServer.State.initial [])
    Sample.pwmEnv Sample.pwmBound ⟨ALL_ONES, 0, 0⟩ (Sample.words 0 0)
  ⟨h.1, h.2.1⟩

/-! ### The bound client over a run -/

/-- A run whose steps keep a non-zero id keeps it throughout. -/
theorem run_ids_constant {S C : Type} (step : S → Incoming → Outcome S C)
    (run : S → List Incoming → List (Outcome S C)) (cid : S → Nat)
    (hnil : ∀ s, run s [] = [])
    (hcons : ∀ s i r, run s (i :: r) = step s i :: run (step s i).state r)
    (hstep : ∀ s i, cid s ≠ 0 → cid (step s i).state = cid s) (msgs : List Incoming) :
    ∀ s, cid s ≠ 0 →
      (run s msgs).map (fun o => cid o.state) = List.replicate msgs.length (cid s) := by
  induction msgs with
  | nil => intro s _; simp [hnil]
  | cons i r ih =>
    intro s hs
    have h1 := hstep s i hs
    have h2 := ih (step s i).state (by rw [h1]; exact hs)
    rw [hcons, List.map_cons, h2, h1, List.length_cons, List.replicate_succ]

/-- A run started with id 0, whose steps keep a non-zero id and otherwise keep or set it:
the ids after each step are some zeros followed by copies of one non-zero id. -/
theorem run_ids_zero_then_constant {S C : Type} (step : S → Incoming → Outcome S C)
    (run : S → List Incoming → List (Outcome S C)) (cid : S → Nat)
    (hnil : ∀ s, run s [] = [])
    (hcons : ∀ s i r, run s (i :: r) = step s i :: run (step s i).state r)
    (hstep : ∀ s i, cid s ≠ 0 → cid (step s i).state = cid s) (msgs : List Incoming) :
    ∀ s, cid s = 0 →
      ∃ k c, c ≠ 0 ∧ k ≤ msgs.length
        ∧ (run s msgs).map (fun o => cid o.state)
            = List.replicate k 0 ++ List.replicate (msgs.length - k) c := by
  induction msgs with
  | nil => intro s _; exact ⟨0, 1, by decide, le_refl _, by simp [hnil]⟩
  | cons i r ih =>
    intro s hs
    by_cases h : cid (step s i).state = 0
    · obtain ⟨k, c, hc, hk, hrun⟩ := ih (step s i).state h
      refine ⟨k + 1, c, hc, by simpa using hk, ?_⟩
      rw [hcons, List.map_cons, hrun, h, List.length_cons, List.replicate_succ,
        Nat.add_sub_add_right, List.cons_append]
    · refine ⟨0, cid (step s i).state, h, Nat.zero_le _, ?_⟩
      rw [hcons, List.map_cons,
        run_ids_constant step run cid hnil hcons hstep r (step s i).state h]
      simp [List.replicate_succ]

namespace GpioServer

/-- Registration keeps a non-zero `client_id`. -/
theorem gpio_handle_request_client_id {H : Type} (env : Env H) (s : State H) (msg : kos_msg_t)
    (badge caller_id : Nat) (transport : Nat → Nat) (hs : s.client_id ≠ 0) :
    (handle_request env s msg badge caller_id transport).state.client_id = s.client_id := by
  unfold handle_request
  split_ifs with h1 h2 h3
  · rfl
  · rfl
  · rfl
  · simp only [ne_eq, not_and_or, not_not] at h3
    rcases h3 with h | h
    · exact absurd h hs
    · exact h.symm

/-- The operation handlers never assign `client_id`. -/
theorem gpio_handlers_client_id {H : Type} (env : Env H) (s : State H) (msg : kos_msg_t)
    (caller_id : Nat) (transport : Nat → Nat) :
    (handle_configure_pin env s msg caller_id transport).state.client_id = s.client_id
    ∧ (handle_set_debounce env s msg caller_id transport).state.client_id = s.client_id
    ∧ (handle_set_debounce_timing env s msg caller_id transport).state.client_id
        = s.client_id
    ∧ (handle_read env s msg caller_id transport).state.client_id = s.client_id
    ∧ (handle_write env s msg caller_id transport).state.client_id = s.client_id := by
  refine ⟨?_, ?_, ?_, ?_, ?_⟩
  · simp only [handle_configure_pin]; split_ifs <;> rfl
  · simp only [handle_set_debounce]; split_ifs <;> rfl
  · simp only [handle_set_debounce_timing]; split_ifs <;> rfl
  · simp only [handle_read]; split_ifs <;> rfl
  · simp only [handle_write]; split_ifs <;> rfl

/-- One loop iteration keeps a non-zero `client_id`. -/
theorem gpio_listen_step_client_id {H : Type} (env : Env H) (s : State H) (inc : Incoming)
    (hs : s.client_id ≠ 0) : (listen_step env s inc).state.client_id = s.client_id := by
  have h := gpio_handlers_client_id env s inc.msg inc.caller_id inc.transport
  unfold listen_step
  split_ifs
  · rfl
  · exact gpio_handle_request_client_id env s inc.msg inc.badge inc.caller_id inc.transport hs
  · exact h.1
  · exact h.2.1
  · exact h.2.2.1
  · exact h.2.2.2.1
  · exact h.2.2.2.2
  · rfl

end GpioServer

namespace PwmServer

/-- The function `calc_and_set_counter_values` changes the hardware only. -/
theorem pwm_calc_and_set_counter_values_fields {H : Type} (env : Env H) (s : State H)
    (pin duty_cycle : Nat) :
    (calc_and_set_counter_values env s pin duty_cycle).1.client_id = s.client_id
    ∧ (calc_and_set_counter_values env s pin duty_cycle).1.curr_freq = s.curr_freq
    ∧ (calc_and_set_counter_values env s pin duty_cycle).1.curr_pin_duty_cycle
        = s.curr_pin_duty_cycle := by
  unfold calc_and_set_counter_values
  split_ifs <;> exact ⟨rfl, rfl, rfl⟩

/-- Registration keeps a non-zero `client_id`. -/
theorem pwm_handle_request_client_id {H : Type} (env : Env H) (s : State H) (msg : kos_msg_t)
    (badge caller_id : Nat) (transport : Nat → Nat) (hs : s.client_id ≠ 0) :
    (handle_request env s msg badge caller_id transport).state.client_id = s.client_id := by
  unfold handle_request
  split_ifs with h1 h2 h3
  · rfl
  · rfl
  · rfl
  · simp only [ne_eq, not_and_or, not_not] at h3
    rcases h3 with h | h
    · exact absurd h hs
    · exact h.symm

/-- The operation handlers never assign `client_id`. -/
theorem pwm_handlers_client_id {H : Type} (env : Env H) (s : State H) (msg : kos_msg_t)
    (caller_id : Nat) (transport : Nat → Nat) :
    (handle_set_pwm_frequency env s msg caller_id transport).state.client_id = s.client_id
    ∧ (handle_set_pwm_duty_cycle env s msg caller_id transport).state.client_id
        = s.client_id := by
  refine ⟨?_, ?_⟩
  · simp only [handle_set_pwm_frequency]
    split_ifs
    · rfl
    · rfl
    · simp only [(pwm_calc_and_set_counter_values_fields env _ _ _).1]
  · simp only [handle_set_pwm_duty_cycle]
    split_ifs
    · rfl
    · rfl
    · simp only [(pwm_calc_and_set_counter_values_fields env _ _ _).1]
    · simp only [(pwm_calc_and_set_counter_values_fields env _ _ _).1]

/-- One loop iteration keeps a non-zero `client_id`. -/
theorem pwm_listen_step_client_id {H : Type} (env : Env H) (s : State H) (inc : Incoming)
    (hs : s.client_id ≠ 0) : (listen_step env s inc).state.client_id = s.client_id := by
  have h := pwm_handlers_client_id env s inc.msg inc.caller_id inc.transport
  unfold listen_step
  split_ifs
  · rfl
  · exact pwm_handle_request_client_id env s inc.msg inc.badge inc.caller_id inc.transport hs
  · exact h.1
  · exact h.2
  · rfl

end PwmServer

/-- C6: in both servers a loop iteration never changes a non-zero `client_id`, whatever the
message; hence, for the loop started with `client_id = 0` and any finite sequence of
messages, the values of `client_id` after the successive iterations are `k` zeros followed
by copies of a single non-zero id: the value changes at most once, from 0 to a non-zero id,
and is never cleared or replaced afterwards. -/
theorem C6_client_id_bound_once {H K : Type} (genv : GpioServer.Env H)
    (penv : PwmServer.Env K) :
    ((∀ (s : GpioServer.State H) (inc : Incoming), s.client_id ≠ 0 →
        (GpioServer.listen_step genv s inc).state.client_id = s.client_id)
      ∧ (∀ (hw : H) (msgs : List Incoming), ∃ k c, c ≠ 0 ∧ k ≤ msgs.length
          ∧ (GpioServer.listen_thread_fn genv (GpioServer.State.initial hw) msgs).map
                (fun o => o.state.client_id)
              = List.replicate k 0 ++ List.replicate (msgs.length - k) c))
    ∧ ((∀ (s : PwmServer.State K) (inc : Incoming), s.client_id ≠ 0 →
        (PwmServer.listen_step penv s inc).state.client_id = s.client_id)
      ∧ (∀ (hw : K) (msgs : List Incoming), ∃ k c, c ≠ 0 ∧ k ≤ msgs.length
          ∧ (PwmServer.listen_thread_fn penv (PwmServer.State.initial hw) msgs).map
                (fun o => o.state.client_id)
              = List.replicate k 0 ++ List.replicate (msgs.length - k) c)) := by
  refine ⟨⟨GpioServer.gpio_listen_step_client_id genv, ?_⟩,
    ⟨PwmServer.pwm_listen_step_client_id penv, ?_⟩⟩
  · intro hw msgs
    exact run_ids_zero_then_constant (GpioServer.listen_step genv)
      (GpioServer.listen_thread_fn genv) (fun s => s.client_id) (fun _ => rfl)
      (fun _ _ _ => rfl) (GpioServer.gpio_listen_step_client_id genv) msgs
      (GpioServer.State.initial hw) rfl
  · intro hw msgs
    exact run_ids_zero_then_constant (PwmServer.listen_step penv)
      (PwmServer.listen_thread_fn penv) (fun s => s.client_id) (fun _ => rfl)
      (fun _ _ _ => rfl) (PwmServer.pwm_listen_step_client_id penv) msgs
      (PwmServer.State.initial hw) rfl

/-- C6 on the sample GPIO server: bound to client 7, a registration request of client 9
leaves `client_id` at 7; and started unbound, the run "write by 7, register 7, register 9,
register 0" has the ids 0, 7, 7, 7. -/
theorem C6_client_id_bound_once_witness :
    (GpioServer.listen_step Sample.gpioEnv Sample.gpioBound
        ⟨⟨ALL_ONES, 0, 0⟩, 256, 9, Sample.words 0 0⟩).state.client_id = 7
    ∧ (GpioServer.listen_thread_fn Sample.gpioEnv (GpioServer.State.initial [])
          [⟨⟨5, 0, 8⟩, 256, 7, Sample.words 3 1⟩, ⟨⟨ALL_ONES, 0, 0⟩, 256, 7, Sample.words 0 0⟩,
           ⟨⟨ALL_ONES, 0, 0⟩, 256, 9, Sample.words 0 0⟩,
           ⟨⟨ALL_ONES, 0, 0⟩, 256, 0, Sample.words 0 0⟩]).map (fun o => o.state.client_id)
        = [0, 7, 7, 7] :=
  ⟨(C6_client_id_bound_once Sample.gpioEnv Sample.pwmEnv).1.1 Sample.gpioBound
      ⟨⟨ALL_ONES, 0, 0⟩, 256, 9, Sample.words 0 0⟩ (by decide), by decide⟩

/-! ### Authorization, payload size, badge and label checks -/

/-- C7: every operation handler of both servers (GPIO: configure pin, set debounce, set
debounce timing, read, write; PWM: set frequency, set duty cycle), called with a caller id
different from `client_id`, answers `STATUS_UNAUTHORIZED` for every message (so for every
payload size) and every payload buffer (so also for a pin above 127), makes no outside call
and returns the state as it was; the same holds through the loop for every operation
label. -/
theorem C7_other_caller_unauthorized {H K : Type} (genv : GpioServer.Env H)
    (gs : GpioServer.State H) (penv : PwmServer.Env K) (ps : PwmServer.State K)
    (msg : kos_msg_t) (caller_id : Nat) (transport : Nat → Nat)
    (hg : caller_id ≠ gs.client_id) (hp : caller_id ≠ ps.client_id) :
    (GpioServer.handle_configure_pin genv gs msg caller_id transport
        = ⟨kos_msg_new_status STATUS_UNAUTHORIZED, transport, gs, []⟩
      ∧ GpioServer.handle_set_debounce genv gs msg caller_id transport
        = ⟨kos_msg_new_status STATUS_UNAUTHORIZED, transport, gs, []⟩
      ∧ GpioServer.handle_set_debounce_timing genv gs msg caller_id transport
        = ⟨kos_msg_new_status STATUS_UNAUTHORIZED, transport, gs, []⟩
      ∧ GpioServer.handle_read genv gs msg caller_id transport
        = ⟨kos_msg_new_status STATUS_UNAUTHORIZED, transport, gs, []⟩
      ∧ GpioServer.handle_write genv gs msg caller_id transport
        = ⟨kos_msg_new_status STATUS_UNAUTHORIZED, transport, gs, []⟩)
    ∧ (PwmServer.handle_set_pwm_frequency penv ps msg caller_id transport
        = ⟨kos_msg_new_status STATUS_UNAUTHORIZED, transport, ps, []⟩
      ∧ PwmServer.handle_set_pwm_duty_cycle penv ps msg caller_id transport
        = ⟨kos_msg_new_status STATUS_UNAUTHORIZED, transport, ps, []⟩)
    ∧ (msg.label ∈ [1, 2, 3, 4, 5] →
        GpioServer.listen_step genv gs
            ⟨msg, GpioServer.GPIO_PROTOCOL_BADGE genv.kos, caller_id, transport⟩
          = ⟨kos_msg_new_status STATUS_UNAUTHORIZED, transport, gs, []⟩)
    ∧ (msg.label ∈ [1, 2] →
        PwmServer.listen_step penv ps
            ⟨msg, PwmServer.PWM_PROTOCOL_BADGE penv.kos, caller_id, transport⟩
          = ⟨kos_msg_new_status STATUS_UNAUTHORIZED, transport, ps, []⟩) := by
  have g1 : GpioServer.handle_configure_pin genv gs msg caller_id transport
      = ⟨kos_msg_new_status STATUS_UNAUTHORIZED, transport, gs, []⟩ := by
    simp [GpioServer.handle_configure_pin, hg]
  have g2 : GpioServer.handle_set_debounce genv gs msg caller_id transport
      = ⟨kos_msg_new_status STATUS_UNAUTHORIZED, transport, gs, []⟩ := by
    simp [GpioServer.handle_set_debounce, hg]
  have g3 : GpioServer.handle_set_debounce_timing genv gs msg caller_id transport
      = ⟨kos_msg_new_status STATUS_UNAUTHORIZED, transport, gs, []⟩ := by
    simp [GpioServer.handle_set_debounce_timing, hg]
  have g4 : GpioServer.handle_read genv gs msg caller_id transport
      = ⟨kos_msg_new_status STATUS_UNAUTHORIZED, transport, gs, []⟩ := by
    simp [GpioServer.handle_read, hg]
  have g5 : GpioServer.handle_write genv gs msg caller_id transport
      = ⟨kos_msg_new_status STATUS_UNAUTHORIZED, transport, gs, []⟩ := by
    simp [GpioServer.handle_write, hg]
  have p1 : PwmServer.handle_set_pwm_frequency penv ps msg caller_id transport
      = ⟨kos_msg_new_status STATUS_UNAUTHORIZED, transport, ps, []⟩ := by
    simp [PwmServer.handle_set_pwm_frequency, hp]
  have p2 : PwmServer.handle_set_pwm_duty_cycle penv ps msg caller_id transport
      = ⟨kos_msg_new_status STATUS_UNAUTHORIZED, transport, ps, []⟩ := by
    simp [PwmServer.handle_set_pwm_duty_cycle, hp]
  refine ⟨⟨g1, g2, g3, g4, g5⟩, ⟨p1, p2⟩, ?_, ?_⟩
  · intro hmem
    simp only [List.mem_cons, List.mem_singleton, List.not_mem_nil, or_false] at hmem
    rcases hmem with h | h | h | h | h <;>
      simp [GpioServer.listen_step, h, GpioServer.GPIO_REQUEST_LABEL, ALL_ONES, WORD_BITS,
        GpioServer.CONFIGURE_PIN_REQUEST, GpioServer.SET_DEBOUNCE_REQUEST,
        GpioServer.SET_DEBOUNCE_TIMING_REQUEST, GpioServer.READ_REQUEST,
        GpioServer.WRITE_REQUEST, g1, g2, g3, g4, g5]
  · intro hmem
    simp only [List.mem_cons, List.mem_singleton, List.not_mem_nil, or_false] at hmem
    rcases hmem with h | h <;>
      simp [PwmServer.listen_step, h, PwmServer.PWM_REQUEST_LABEL, ALL_ONES, WORD_BITS,
        PwmServer.SET_PWM_FREQUENCY_REQUEST, PwmServer.SET_PWM_DUTY_CYCLE_REQUEST, p1, p2]

/-- C7 on the sample servers bound to client 7: client 9 sends a read with a 3-byte payload
and pin 200, and a set-frequency request. -/
theorem C7_other_caller_unauthorized_witness :
    (9 ≠ Sample.gpioBound.client_id ∧ 9 ≠ Sample.pwmBound.client_id)
    ∧ GpioServer.handle_read Sample.gpioEnv Sample.gpioBound ⟨4, 0, 3⟩ 9 (Sample.words 200 0)
        = ⟨kos_msg_new_status STATUS_UNAUTHORIZED, Sample.words 200 0, Sample.gpioBound, []⟩
    ∧ PwmServer.handle_set_pwm_frequency Sample.pwmEnv Sample.pwmBound ⟨4, 0, 3⟩ 9
          (Sample.words 200 0)
        = ⟨kos_msg_new_status STATUS_UNAUTHORIZED, Sample.words 200 0, Sample.pwmBound, []⟩ :=
  have h := C7_other_caller_unauthorized Sample.gpioEnv Sample.gpioBound Sample.pwmEnv
    Sample.pwmBound ⟨4, 0, 3⟩ 9 (Sample.words 200 0) (by decide) (by decide)
  ⟨⟨by decide, by decide⟩, h.1.2.2.2.1, h.2.1.1⟩

/-- C8: every operation handler of both servers, called by the bound client with a payload
size different from 4 bytes times its argument count (configure pin 2, set debounce 2, set
debounce timing 2, read 1, write 2, set frequency 1, set duty cycle 2), be it smaller or
larger, answers `STATUS_BAD_REQUEST`, makes no outside call and returns the state (in the
PWM server including `curr_freq` and `curr_pin_duty_cycle`) as it was; the same holds
through the loop for every operation label. -/
theorem C8_wrong_payload_size_bad_request {H K : Type} (genv : GpioServer.Env H)
    (gs : GpioServer.State H) (penv : PwmServer.Env K) (ps : PwmServer.State K)
    (msg : kos_msg_t) (caller_id : Nat) (transport : Nat → Nat)
    (hg : caller_id = gs.client_id) (hp : caller_id = ps.client_id) :
    ((genv.kos.kos_msg_payload_size msg.metadata ≠ 4 * 2 →
        GpioServer.handle_configure_pin genv gs msg caller_id transport
          = ⟨kos_msg_new_status STATUS_BAD_REQUEST, transport, gs, []⟩)
      ∧ (genv.kos.kos_msg_payload_size msg.metadata ≠ 4 * 2 →
        GpioServer.handle_set_debounce genv gs msg caller_id transport
          = ⟨kos_msg_new_status STATUS_BAD_REQUEST, transport, gs, []⟩)
      ∧ (genv.kos.kos_msg_payload_size msg.metadata ≠ 4 * 2 →
        GpioServer.handle_set_debounce_timing genv gs msg caller_id transport
          = ⟨kos_msg_new_status STATUS_BAD_REQUEST, transport, gs, []⟩)
      ∧ (genv.kos.kos_msg_payload_size msg.metadata ≠ 4 * 1 →
        GpioServer.handle_read genv gs msg caller_id transport
          = ⟨kos_msg_new_status STATUS_BAD_REQUEST, transport, gs, []⟩)
      ∧ (genv.kos.kos_msg_payload_size msg.metadata ≠ 4 * 2 →
        GpioServer.handle_write genv gs msg caller_id transport
          = ⟨kos_msg_new_status STATUS_BAD_REQUEST, transport, gs, []⟩))
    ∧ ((penv.kos.kos_msg_payload_size msg.metadata ≠ 4 * 1 →
        PwmServer.handle_set_pwm_frequency penv ps msg caller_id transport
          = ⟨kos_msg_new_status STATUS_BAD_REQUEST, transport, ps, []⟩)
      ∧ (penv.kos.kos_msg_payload_size msg.metadata ≠ 4 * 2 →
        PwmServer.handle_set_pwm_duty_cycle penv ps msg caller_id transport
          = ⟨kos_msg_new_status STATUS_BAD_REQUEST, transport, ps, []⟩))
    ∧ (∀ label : Nat, label ∈ [1, 2, 3, 4, 5] → msg.label = label →
        genv.kos.kos_msg_payload_size msg.metadata ≠ (if label = 4 then 4 * 1 else 4 * 2) →
        GpioServer.listen_step genv gs
            ⟨msg, GpioServer.GPIO_PROTOCOL_BADGE genv.kos, caller_id, transport⟩
          = ⟨kos_msg_new_status STATUS_BAD_REQUEST, transport, gs, []⟩)
    ∧ (∀ label : Nat, label ∈ [1, 2] → msg.label = label →
        penv.kos.kos_msg_payload_size msg.metadata ≠ (if label = 1 then 4 * 1 else 4 * 2) →
        PwmServer.listen_step penv ps
            ⟨msg, PwmServer.PWM_PROTOCOL_BADGE penv.kos, caller_id, transport⟩
          = ⟨kos_msg_new_status STATUS_BAD_REQUEST, transport, ps, []⟩) := by
  have g1 : genv.kos.kos_msg_payload_size msg.metadata ≠ 4 * 2 →
      GpioServer.handle_configure_pin genv gs msg caller_id transport
        = ⟨kos_msg_new_status STATUS_BAD_REQUEST, transport, gs, []⟩ := by
    intro hsz
    simp [GpioServer.handle_configure_pin, hg, sizeof_uint32_t, GpioServer.CONFIGURE_PIN_ARGS,
      hsz]
  have g2 : genv.kos.kos_msg_payload_size msg.metadata ≠ 4 * 2 →
      GpioServer.handle_set_debounce genv gs msg caller_id transport
        = ⟨kos_msg_new_status STATUS_BAD_REQUEST, transport, gs, []⟩ := by
    intro hsz
    simp [GpioServer.handle_set_debounce, hg, sizeof_uint32_t, GpioServer.SET_DEBOUNCE_ARGS,
      hsz]
  have g3 : genv.kos.kos_msg_payload_size msg.metadata ≠ 4 * 2 →
      GpioServer.handle_set_debounce_timing genv gs msg caller_id transport
        = ⟨kos_msg_new_status STATUS_BAD_REQUEST, transport, gs, []⟩ := by
    intro hsz
    simp [GpioServer.handle_set_debounce_timing, hg, sizeof_uint32_t,
      GpioServer.SET_DEBOUNCE_TIMING_ARGS, hsz]
  have g4 : genv.kos.kos_msg_payload_size msg.metadata ≠ 4 * 1 →
      GpioServer.handle_read genv gs msg caller_id transport
        = ⟨kos_msg_new_status STATUS_BAD_REQUEST, transport, gs, []⟩ := by
    intro hsz
    simp [GpioServer.handle_read, hg, sizeof_uint32_t, GpioServer.READ_ARGS, hsz]
  have g5 : genv.kos.kos_msg_payload_size msg.metadata ≠ 4 * 2 →
      GpioServer.handle_write genv gs msg caller_id transport
        = ⟨kos_msg_new_status STATUS_BAD_REQUEST, transport, gs, []⟩ := by
    intro hsz
    simp [GpioServer.handle_write, hg, sizeof_uint32_t, GpioServer.WRITE_ARGS, hsz]
  have p1 : penv.kos.kos_msg_payload_size msg.metadata ≠ 4 * 1 →
      PwmServer.handle_set_pwm_frequency penv ps msg caller_id transport
        = ⟨kos_msg_new_status STATUS_BAD_REQUEST, transport, ps, []⟩ := by
    intro hsz
    simp [PwmServer.handle_set_pwm_frequency, hp, sizeof_uint32_t,
      PwmServer.SET_PWM_FREQUENCY_ARGS, hsz]
  have p2 : penv.kos.kos_msg_payload_size msg.metadata ≠ 4 * 2 →
      PwmServer.handle_set_pwm_duty_cycle penv ps msg caller_id transport
        = ⟨kos_msg_new_status STATUS_BAD_REQUEST, transport, ps, []⟩ := by
    intro hsz
    simp [PwmServer.handle_set_pwm_duty_cycle, hp, sizeof_uint32_t,
      PwmServer.SET_PWM_DUTY_CYCLE_ARGS, hsz]
  refine ⟨⟨g1, g2, g3, g4, g5⟩, ⟨p1, p2⟩, ?_, ?_⟩
  · intro label hmem hl hsz
    simp only [List.mem_cons, List.mem_singleton, List.not_mem_nil, or_false] at hmem
    rcases hmem with h | h | h | h | h <;> subst h <;>
      simp only [Nat.reduceEqDiff, OfNat.ofNat_ne_one, Nat.succ_ne_self, if_false,
        if_true] at hsz <;>
      simp [GpioServer.listen_step, hl, GpioServer.GPIO_REQUEST_LABEL, ALL_ONES, WORD_BITS,
        GpioServer.CONFIGURE_PIN_REQUEST, GpioServer.SET_DEBOUNCE_REQUEST,
        GpioServer.SET_DEBOUNCE_TIMING_REQUEST, GpioServer.READ_REQUEST,
        GpioServer.WRITE_REQUEST, g1, g2, g3, g4, g5, hsz]
  · intro label hmem hl hsz
    simp only [List.mem_cons, List.mem_singleton, List.not_mem_nil, or_false] at hmem
    rcases hmem with h | h <;> subst h <;>
      simp only [Nat.reduceEqDiff, OfNat.ofNat_ne_one, Nat.succ_ne_self, if_false,
        if_true] at hsz <;>
      simp [PwmServer.listen_step, hl, PwmServer.PWM_REQUEST_LABEL, ALL_ONES, WORD_BITS,
        PwmServer.SET_PWM_FREQUENCY_REQUEST, PwmServer.SET_PWM_DUTY_CYCLE_REQUEST, p1, p2,
        hsz]

/-- C8 on the sample servers bound to client 7: a write with a 12-byte payload and a
set-duty-cycle request with a 4-byte payload, both from client 7. -/
theorem C8_wrong_payload_size_bad_request_witness :
    (7 = Sample.gpioBound.client_id ∧ 7 = Sample.pwmBound.client_id
      ∧ Sample.gpioEnv.kos.kos_msg_payload_size (12 : Nat) ≠ 4 * 2
      ∧ Sample.pwmEnv.kos.kos_msg_payload_size (4 : Nat) ≠ 4 * 2)
    ∧ GpioServer.handle_write Sample.gpioEnv Sample.gpioBound ⟨5, 0, 12⟩ 7 (Sample.words 3 1)
        = ⟨kos_msg_new_status STATUS_BAD_REQUEST, Sample.words 3 1, Sample.gpioBound, []⟩
    ∧ PwmServer.handle_set_pwm_duty_cycle Sample.pwmEnv Sample.pwmBound ⟨2, 0, 4⟩ 7
          (Sample.words 0 75)
        = ⟨kos_msg_new_status STATUS_BAD_REQUEST, Sample.words 0 75, Sample.pwmBound, []⟩ :=
  ⟨⟨by decide, by decide, by decide, by decide⟩,
    (C8_wrong_payload_size_bad_request Sample.gpioEnv Sample.gpioBound Sample.pwmEnv
      Sample.pwmBound ⟨5, 0, 12⟩ 7 (Sample.words 3 1) (by decide) (by decide)).1.2.2.2.2
      (by decide),
    (C8_wrong_payload_size_bad_request Sample.gpioEnv Sample.gpioBound Sample.pwmEnv
      Sample.pwmBound ⟨2, 0, 4⟩ 7 (Sample.words 0 75) (by decide) (by decide)).2.1.2
      (by decide)⟩

/-- C9: in the loop of both servers a message whose badge differs from the protocol badge
is answered with `kos_msg_new(STATUS_NOT_IMPLEMENTED, 0, 0, 0, 0)` for every label (the
registration label included), caller id and payload; no outside call is made (no token is
created) and the state, `client_id` included, is as it was. -/
theorem C9_foreign_badge_not_implemented {H K : Type} (genv : GpioServer.Env H)
    (gs : GpioServer.State H) (penv : PwmServer.Env K) (ps : PwmServer.State K)
    (inc : Incoming) (hg : inc.badge ≠ GpioServer.GPIO_PROTOCOL_BADGE genv.kos)
    (hp : inc.badge ≠ PwmServer.PWM_PROTOCOL_BADGE penv.kos) :
    GpioServer.listen_step genv gs inc
        = ⟨kos_msg_new STATUS_NOT_IMPLEMENTED 0 0 0 0, inc.transport, gs, []⟩
    ∧ PwmServer.listen_step penv ps inc
        = ⟨kos_msg_new STATUS_NOT_IMPLEMENTED 0 0 0 0, inc.transport, ps, []⟩ := by
  constructor
  · simp [GpioServer.listen_step, hg]
  · simp [PwmServer.listen_step, hp]

/-- C9 on the sample servers (badge 256): a registration request of client 7 under badge
255, sent to the unbound GPIO server and to the bound PWM server. -/
theorem C9_foreign_badge_not_implemented_witness :
    (255 ≠ GpioServer.GPIO_PROTOCOL_BADGE Sample.gpioEnv.kos
      ∧ 255 ≠ PwmServer.PWM_PROTOCOL_BADGE Sample.pwmEnv.kos)
    ∧ GpioServer.listen_step Sample.gpioEnv (GpioServer.State.initial [])
          ⟨⟨ALL_ONES, 0, 0⟩, 255, 7, Sample.words 0 0⟩
        = ⟨kos_msg_new STATUS_NOT_IMPLEMENTED 0 0 0 0, Sample.words 0 0,
            GpioServer.State.initial [], []⟩
    ∧ PwmServer.listen_step Sample.pwmEnv Sample.pwmBound
          ⟨⟨ALL_ONES, 0, 0⟩, 255, 7, Sample.words 0 0⟩
        = ⟨kos_msg_new STATUS_NOT_IMPLEMENTED 0 0 0 0, Sample.words 0 0,
            Sample.pwmBound, []⟩ :=
  ⟨⟨by decide, by decide⟩,
    C9_foreign_badge_not_implemented Sample.gpioEnv (GpioServer.State.initial [])
      Sample.pwmEnv Sample.pwmBound ⟨⟨ALL_ONES, 0, 0⟩, 255, 7, Sample.words 0 0⟩
      (by decide) (by decide)⟩

/-- C10: in the loop a message under the protocol badge whose label is neither the
registration label `2^32 - 1` nor one of the operation labels (1..5 in the GPIO server, 1..2
in the PWM server) is answered with `kos_msg_new(STATUS_NOT_IMPLEMENTED, 0, 0, 0, 0)`,
makes no outside call and leaves the state as it was, whatever the caller id and payload.
In particular label 0 and the enumeration ends `NUM_GPIO_REQUESTS = 6` and
`NUM_PWM_REQUESTS = 3` are no operations, and the PWM server does not implement labels
3..5. -/
theorem C10_unknown_label_not_implemented {H K : Type} (genv : GpioServer.Env H)
    (gs : GpioServer.State H) (penv : PwmServer.Env K) (ps : PwmServer.State K)
    (msg : kos_msg_t) (caller_id : Nat) (transport : Nat → Nat) :
    (msg.label ≠ 2 ^ 32 - 1 → msg.label ∉ [1, 2, 3, 4, 5] →
        GpioServer.listen_step genv gs
            ⟨msg, GpioServer.GPIO_PROTOCOL_BADGE genv.kos, caller_id, transport⟩
          = ⟨kos_msg_new STATUS_NOT_IMPLEMENTED 0 0 0 0, transport, gs, []⟩)
    ∧ (msg.label ≠ 2 ^ 32 - 1 → msg.label ∉ [1, 2] →
        PwmServer.listen_step penv ps
            ⟨msg, PwmServer.PWM_PROTOCOL_BADGE penv.kos, caller_id, transport⟩
          = ⟨kos_msg_new STATUS_NOT_IMPLEMENTED 0 0 0 0, transport, ps, []⟩)
    ∧ GpioServer.NUM_GPIO_REQUESTS = 6 ∧ PwmServer.NUM_PWM_REQUESTS = 3
    ∧ (∀ label ∈ [0, GpioServer.NUM_GPIO_REQUESTS],
        GpioServer.listen_step genv gs
            ⟨⟨label, msg.param, msg.metadata⟩, GpioServer.GPIO_PROTOCOL_BADGE genv.kos,
              caller_id, transport⟩
          = ⟨kos_msg_new STATUS_NOT_IMPLEMENTED 0 0 0 0, transport, gs, []⟩)
    ∧ (∀ label ∈ [0, PwmServer.NUM_PWM_REQUESTS, 4, 5],
        PwmServer.listen_step penv ps
            ⟨⟨label, msg.param, msg.metadata⟩, PwmServer.PWM_PROTOCOL_BADGE penv.kos,
              caller_id, transport⟩
          = ⟨kos_msg_new STATUS_NOT_IMPLEMENTED 0 0 0 0, transport, ps, []⟩) := by
  refine ⟨?_, ?_, rfl, rfl, ?_, ?_⟩
  · intro h1 h2
    simp only [List.mem_cons, List.mem_singleton, List.not_mem_nil, or_false, not_or] at h2
    obtain ⟨a1, a2, a3, a4, a5⟩ := h2
    have h1x : ¬ msg.label = GpioServer.GPIO_REQUEST_LABEL := h1
    simp [GpioServer.listen_step, h1x, a1, a2, a3, a4, a5,
      GpioServer.CONFIGURE_PIN_REQUEST, GpioServer.SET_DEBOUNCE_REQUEST,
      GpioServer.SET_DEBOUNCE_TIMING_REQUEST, GpioServer.READ_REQUEST,
      GpioServer.WRITE_REQUEST]
  · intro h1 h2
    simp only [List.mem_cons, List.mem_singleton, List.not_mem_nil, or_false, not_or] at h2
    obtain ⟨a1, a2⟩ := h2
    have h1x : ¬ msg.label = PwmServer.PWM_REQUEST_LABEL := h1
    simp [PwmServer.listen_step, h1x, a1, a2, PwmServer.SET_PWM_FREQUENCY_REQUEST,
      PwmServer.SET_PWM_DUTY_CYCLE_REQUEST]
  · intro label hmem
    simp only [List.mem_cons, List.mem_singleton, List.not_mem_nil, or_false,
      GpioServer.NUM_GPIO_REQUESTS] at hmem
    rcases hmem with h | h <;> subst h <;>
      simp [GpioServer.listen_step, GpioServer.GPIO_REQUEST_LABEL, ALL_ONES, WORD_BITS,
        GpioServer.CONFIGURE_PIN_REQUEST, GpioServer.SET_DEBOUNCE_REQUEST,
        GpioServer.SET_DEBOUNCE_TIMING_REQUEST, GpioServer.READ_REQUEST,
        GpioServer.WRITE_REQUEST]
  · intro label hmem
    simp only [List.mem_cons, List.mem_singleton, List.not_mem_nil, or_false,
      PwmServer.NUM_PWM_REQUESTS] at hmem
    rcases hmem with h | h | h | h <;> subst h <;>
      simp [PwmServer.listen_step, PwmServer.PWM_REQUEST_LABEL, ALL_ONES, WORD_BITS,
        PwmServer.SET_PWM_FREQUENCY_REQUEST, PwmServer.SET_PWM_DUTY_CYCLE_REQUEST]

/-- C10 on the sample servers bound to client 7: label 6 sent to the GPIO server and label
4 (a GPIO read) sent to the PWM server, both by client 7. -/
theorem C10_unknown_label_not_implemented_witness :
    ((6 : Nat) ≠ 2 ^ 32 - 1 ∧ (6 : Nat) ∉ [1, 2, 3, 4, 5] ∧ (4 : Nat) ∉ [1, 2])
    ∧ GpioServer.listen_step Sample.gpioEnv Sample.gpioBound
          ⟨⟨6, 0, 4⟩, GpioServer.GPIO_PROTOCOL_BADGE Sample.gpioEnv.kos, 7, Sample.words 5 0⟩
        = ⟨kos_msg_new STATUS_NOT_IMPLEMENTED 0 0 0 0, Sample.words 5 0, Sample.gpioBound, []⟩
    ∧ PwmServer.listen_step Sample.pwmEnv Sample.pwmBound
          ⟨⟨4, 0, 4⟩, PwmServer.PWM_PROTOCOL_BADGE Sample.pwmEnv.kos, 7, Sample.words 5 0⟩
        = ⟨kos_msg_new STATUS_NOT_IMPLEMENTED 0 0 0 0, Sample.words 5 0, Sample.pwmBound, []⟩ :=
  ⟨⟨by decide, by decide, by decide⟩,
    (C10_unknown_label_not_implemented Sample.gpioEnv Sample.gpioBound Sample.pwmEnv
      Sample.pwmBound ⟨6, 0, 4⟩ 7 (Sample.words 5 0)).1 (by decide) (by decide),
    (C10_unknown_label_not_implemented Sample.gpioEnv Sample.gpioBound Sample.pwmEnv
      Sample.pwmBound ⟨4, 0, 4⟩ 7 (Sample.words 5 0)).2.1 (by decide) (by decide)⟩

/-! ### Registration and the payload length -/

/-- C11, what the code does at a registration request with a payload: the sample servers,
unbound, receive a registration request of client 7 whose metadata announces 4 payload
bytes; both reply `STATUS_OK` with the token, not `STATUS_BAD_REQUEST`, and bind client
7. -/
theorem C11_registration_with_payload_accepted :
    Sample.kos.kos_msg_payload_size 4 ≠ 0
    ∧ ((GpioServer.listen_step Sample.gpioEnv (GpioServer.State.initial [])
          ⟨⟨ALL_ONES, 0, 4⟩, 256, 7, Sample.words 0 0⟩).msg = kos_msg_new STATUS_OK 0 0 2 0
      ∧ (GpioServer.listen_step Sample.gpioEnv (GpioServer.State.initial [])
          ⟨⟨ALL_ONES, 0, 4⟩, 256, 7, Sample.words 0 0⟩).msg.label ≠ STATUS_BAD_REQUEST
      ∧ (GpioServer.listen_step Sample.gpioEnv (GpioServer.State.initial [])
          ⟨⟨ALL_ONES, 0, 4⟩, 256, 7, Sample.words 0 0⟩).state.client_id = 7)
    ∧ ((PwmServer.listen_step Sample.pwmEnv (PwmServer.State.initial [])
          ⟨⟨ALL_ONES, 0, 4⟩, 256, 7, Sample.words 0 0⟩).msg = kos_msg_new STATUS_OK 0 0 2 0
      ∧ (PwmServer.listen_step Sample.pwmEnv (PwmServer.State.initial [])
          ⟨⟨ALL_ONES, 0, 4⟩, 256, 7, Sample.words 0 0⟩).msg.label ≠ STATUS_BAD_REQUEST
      ∧ (PwmServer.listen_step Sample.pwmEnv (PwmServer.State.initial [])
          ⟨⟨ALL_ONES, 0, 4⟩, 256, 7, Sample.words 0 0⟩).state.client_id = 7) := by
  decide

/-- C11 as amended: in both servers a registration request is answered without regard to
its payload length: `handle_request` and the loop give the same outcome whatever the param
and metadata words of the message are, and under the protocol badge the reply is
`STATUS_BAD_REQUEST` exactly when the caller id is 0. -/
theorem C11_registration_ignores_payload_length {H K : Type} (genv : GpioServer.Env H)
    (gs : GpioServer.State H) (penv : PwmServer.Env K) (ps : PwmServer.State K)
    (msg msg2 : kos_msg_t) (badge caller_id : Nat) (transport : Nat → Nat) :
    (GpioServer.handle_request genv gs msg badge caller_id transport
        = GpioServer.handle_request genv gs msg2 badge caller_id transport
      ∧ GpioServer.listen_step genv gs
            ⟨⟨GpioServer.GPIO_REQUEST_LABEL, msg.param, msg.metadata⟩, badge, caller_id,
              transport⟩
        = GpioServer.listen_step genv gs
            ⟨⟨GpioServer.GPIO_REQUEST_LABEL, msg2.param, msg2.metadata⟩, badge, caller_id,
              transport⟩
      ∧ ((GpioServer.handle_request genv gs msg (GpioServer.GPIO_PROTOCOL_BADGE genv.kos)
            caller_id transport).msg.label = STATUS_BAD_REQUEST ↔ caller_id = 0))
    ∧ (PwmServer.handle_request penv ps msg badge caller_id transport
        = PwmServer.handle_request penv ps msg2 badge caller_id transport
      ∧ PwmServer.listen_step penv ps
            ⟨⟨PwmServer.PWM_REQUEST_LABEL, msg.param, msg.metadata⟩, badge, caller_id,
              transport⟩
        = PwmServer.listen_step penv ps
            ⟨⟨PwmServer.PWM_REQUEST_LABEL, msg2.param, msg2.metadata⟩, badge, caller_id,
              transport⟩
      ∧ ((PwmServer.handle_request penv ps msg (PwmServer.PWM_PROTOCOL_BADGE penv.kos)
            caller_id transport).msg.label = STATUS_BAD_REQUEST ↔ caller_id = 0)) := by
  refine ⟨⟨rfl, ?_, ?_⟩, ⟨rfl, ?_, ?_⟩⟩
  · simp only [GpioServer.listen_step, if_true]
    split_ifs <;> rfl
  · simp only [GpioServer.handle_request, ne_eq, not_true_eq_false, if_false]
    split_ifs with h0 hfull
    · simp [h0, kos_msg_new_status, kos_msg_new]
    · simp [h0, kos_msg_new_status, kos_msg_new]
    · simp [h0, kos_msg_new]
  · simp only [PwmServer.listen_step, if_true]
    split_ifs <;> rfl
  · simp only [PwmServer.handle_request, ne_eq, not_true_eq_false, if_false]
    split_ifs with h0 hfull
    · simp [h0, kos_msg_new_status, kos_msg_new]
    · simp [h0, kos_msg_new_status, kos_msg_new]
    · simp [h0, kos_msg_new]

/-! ### Duty cycle and frequency -/

namespace PwmServer

/-- At a non-zero current frequency `calc_and_set_counter_values` loads `counter_value`
into the compare register of the channel. -/
theorem pwm_calc_at_nonzero_freq {H : Type} (env : Env H) (s : State H) (duty_cycle : Nat)
    (hf : s.curr_freq ≠ 0) :
    calc_and_set_counter_values env s PIN_A duty_cycle
        = ({ s with hw := (env.drv.EHRPWMLoadCMPA s.hw env.pwm_controller_base
              (counter_value s.curr_freq duty_cycle) ehrpwm_const.EHRPWM_SHADOW_WRITE_ENABLE
              ehrpwm_const.EHRPWM_CMPCTL_LOADAMODE_TBCTRZERO
              ehrpwm_const.EHRPWM_CMPCTL_OVERWR_SH_FL) },
            [PwmCall.EHRPWMLoadCMPA env.pwm_controller_base
              (counter_value s.curr_freq duty_cycle)])
    ∧ calc_and_set_counter_values env s PIN_B duty_cycle
        = ({ s with hw := (env.drv.EHRPWMLoadCMPB s.hw env.pwm_controller_base
              (counter_value s.curr_freq duty_cycle) ehrpwm_const.EHRPWM_SHADOW_WRITE_ENABLE
              ehrpwm_const.EHRPWM_CMPCTL_LOADAMODE_TBCTRZERO
              ehrpwm_const.EHRPWM_CMPCTL_OVERWR_SH_FL) },
            [PwmCall.EHRPWMLoadCMPB env.pwm_controller_base
              (counter_value s.curr_freq duty_cycle)]) := by
  constructor
  · simp [calc_and_set_counter_values, hf]
  · simp [calc_and_set_counter_values, hf, PIN_A, PIN_B]

/-- At current frequency 0 `calc_and_set_counter_values` returns at its guard. -/
theorem pwm_calc_at_zero_freq {H : Type} (env : Env H) (s : State H) (pin duty_cycle : Nat)
    (hf : s.curr_freq = 0) : calc_and_set_counter_values env s pin duty_cycle = (s, []) := by
  simp [calc_and_set_counter_values, hf]

/-- An accepted set-duty-cycle request at a non-zero current frequency, spelled out. -/
theorem pwm_set_duty_cycle_at_nonzero_freq {H : Type} (env : Env H) (s : State H)
    (msg : kos_msg_t) (caller_id : Nat) (transport : Nat → Nat)
    (hc : caller_id = s.client_id)
    (hsz : env.kos.kos_msg_payload_size msg.metadata = 4 * 2) (hf : s.curr_freq ≠ 0) :
    (transport 0 = 0 →
      handle_set_pwm_duty_cycle env s msg caller_id transport
        = ⟨kos_msg_new_status STATUS_OK, transport,
            { s with
              curr_pin_duty_cycle := (transport 1, s.curr_pin_duty_cycle.2),
              hw := (env.drv.EHRPWMLoadCMPA s.hw env.pwm_controller_base
                (counter_value s.curr_freq (transport 1))
                ehrpwm_const.EHRPWM_SHADOW_WRITE_ENABLE
                ehrpwm_const.EHRPWM_CMPCTL_LOADAMODE_TBCTRZERO
                ehrpwm_const.EHRPWM_CMPCTL_OVERWR_SH_FL) },
            [PwmCall.EHRPWMLoadCMPA env.pwm_controller_base
              (counter_value s.curr_freq (transport 1))]⟩)
    ∧ (transport 0 ≠ 0 →
      handle_set_pwm_duty_cycle env s msg caller_id transport
        = ⟨kos_msg_new_status STATUS_OK, transport,
            { s with
              curr_pin_duty_cycle := (s.curr_pin_duty_cycle.1, transport 1),
              hw := (env.drv.EHRPWMLoadCMPB s.hw env.pwm_controller_base
                (counter_value s.curr_freq (transport 1))
                ehrpwm_const.EHRPWM_SHADOW_WRITE_ENABLE
                ehrpwm_const.EHRPWM_CMPCTL_LOADAMODE_TBCTRZERO
                ehrpwm_const.EHRPWM_CMPCTL_OVERWR_SH_FL) },
            [PwmCall.EHRPWMLoadCMPB env.pwm_controller_base
              (counter_value s.curr_freq (transport 1))]⟩) := by
  constructor
  · intro hpin
    have hA : transport 0 = PIN_A := hpin
    simp only [handle_set_pwm_duty_cycle, hc, ne_eq, not_true_eq_false, if_false, hsz,
      sizeof_uint32_t, SET_PWM_DUTY_CYCLE_ARGS, hA, if_true]
    rw [(pwm_calc_at_nonzero_freq env
      { s with curr_pin_duty_cycle := (transport 1, s.curr_pin_duty_cycle.2) } _ hf).1]
  · intro hpin
    have hA : ¬ transport 0 = PIN_A := hpin
    simp only [handle_set_pwm_duty_cycle, hc, ne_eq, not_true_eq_false, if_false, hsz,
      sizeof_uint32_t, SET_PWM_DUTY_CYCLE_ARGS, hA]
    rw [(pwm_calc_at_nonzero_freq env
      { s with curr_pin_duty_cycle := (s.curr_pin_duty_cycle.1, transport 1) } _ hf).2]

/-- An accepted set-duty-cycle request at current frequency 0, spelled out. -/
theorem pwm_set_duty_cycle_at_zero_freq {H : Type} (env : Env H) (s : State H)
    (msg : kos_msg_t) (caller_id : Nat) (transport : Nat → Nat)
    (hc : caller_id = s.client_id)
    (hsz : env.kos.kos_msg_payload_size msg.metadata = 4 * 2) (hf : s.curr_freq = 0) :
    (transport 0 = 0 →
      handle_set_pwm_duty_cycle env s msg caller_id transport
        = ⟨kos_msg_new_status STATUS_OK, transport,
            { s with curr_pin_duty_cycle := (transport 1, s.curr_pin_duty_cycle.2) }, []⟩)
    ∧ (transport 0 ≠ 0 →
      handle_set_pwm_duty_cycle env s msg caller_id transport
        = ⟨kos_msg_new_status STATUS_OK, transport,
            { s with curr_pin_duty_cycle := (s.curr_pin_duty_cycle.1, transport 1) }, []⟩) := by
  constructor
  · intro hpin
    have hA : transport 0 = PIN_A := hpin
    simp only [handle_set_pwm_duty_cycle, hc, ne_eq, not_true_eq_false, if_false, hsz,
      sizeof_uint32_t, SET_PWM_DUTY_CYCLE_ARGS, hA, if_true]
    rw [pwm_calc_at_zero_freq env
      { s with curr_pin_duty_cycle := (transport 1, s.curr_pin_duty_cycle.2) } _ _ hf]
  · intro hpin
    have hA : ¬ transport 0 = PIN_A := hpin
    simp only [handle_set_pwm_duty_cycle, hc, ne_eq, not_true_eq_false, if_false, hsz,
      sizeof_uint32_t, SET_PWM_DUTY_CYCLE_ARGS, hA]
    rw [pwm_calc_at_zero_freq env
      { s with curr_pin_duty_cycle := (s.curr_pin_duty_cycle.1, transport 1) } _ _ hf]

/-- An accepted set-frequency request with a non-zero frequency, spelled out. -/
theorem pwm_set_frequency_nonzero {H : Type} (env : Env H) (s : State H)
    (msg : kos_msg_t) (caller_id : Nat) (transport : Nat → Nat)
    (hc : caller_id = s.client_id)
    (hsz : env.kos.kos_msg_payload_size msg.metadata = 4 * 1) (hf : transport 0 ≠ 0) :
    handle_set_pwm_frequency env s msg caller_id transport
      = ⟨kos_msg_new_status STATUS_OK, transport,
          { s with
            curr_freq := transport 0,
            hw := (env.drv.EHRPWMLoadCMPB
              (env.drv.EHRPWMLoadCMPA
                (env.drv.EHRPWMPWMOpFreqSet s.hw env.pwm_controller_base TB_CLK (transport 0)
                  ehrpwm_const.EHRPWM_COUNT_UP ehrpwm_const.EHRPWM_SHADOW_WRITE_ENABLE)
                env.pwm_controller_base (counter_value (transport 0) s.curr_pin_duty_cycle.1)
                ehrpwm_const.EHRPWM_SHADOW_WRITE_ENABLE
                ehrpwm_const.EHRPWM_CMPCTL_LOADAMODE_TBCTRZERO
                ehrpwm_const.EHRPWM_CMPCTL_OVERWR_SH_FL)
              env.pwm_controller_base (counter_value (transport 0) s.curr_pin_duty_cycle.2)
              ehrpwm_const.EHRPWM_SHADOW_WRITE_ENABLE
              ehrpwm_const.EHRPWM_CMPCTL_LOADAMODE_TBCTRZERO
              ehrpwm_const.EHRPWM_CMPCTL_OVERWR_SH_FL) },
          [PwmCall.EHRPWMPWMOpFreqSet env.pwm_controller_base TB_CLK (transport 0),
           PwmCall.EHRPWMLoadCMPA env.pwm_controller_base
             (counter_value (transport 0) s.curr_pin_duty_cycle.1),
           PwmCall.EHRPWMLoadCMPB env.pwm_controller_base
             (counter_value (transport 0) s.curr_pin_duty_cycle.2)]⟩ := by
  simp only [handle_set_pwm_frequency, hc, ne_eq, not_true_eq_false, if_false, hsz,
    sizeof_uint32_t, SET_PWM_FREQUENCY_ARGS]
  rw [(pwm_calc_at_nonzero_freq env _ _ hf).1, (pwm_calc_at_nonzero_freq env _ _ hf).2]
  rfl

/-- An accepted set-frequency request with frequency 0, spelled out. -/
theorem pwm_set_frequency_zero {H : Type} (env : Env H) (s : State H)
    (msg : kos_msg_t) (caller_id : Nat) (transport : Nat → Nat)
    (hc : caller_id = s.client_id)
    (hsz : env.kos.kos_msg_payload_size msg.metadata = 4 * 1) (hf : transport 0 = 0) :
    handle_set_pwm_frequency env s msg caller_id transport
      = ⟨kos_msg_new_status STATUS_OK, transport,
          { s with
            curr_freq := 0,
            hw := (env.drv.EHRPWMPWMOpFreqSet s.hw env.pwm_controller_base TB_CLK 0
              ehrpwm_const.EHRPWM_COUNT_UP ehrpwm_const.EHRPWM_SHADOW_WRITE_ENABLE) },
          [PwmCall.EHRPWMPWMOpFreqSet env.pwm_controller_base TB_CLK 0]⟩ := by
  simp only [handle_set_pwm_frequency, hc, ne_eq, not_true_eq_false, if_false, hsz,
    sizeof_uint32_t, SET_PWM_FREQUENCY_ARGS, hf]
  rw [pwm_calc_at_zero_freq env _ _ _ rfl, pwm_calc_at_zero_freq env _ _ _ rfl]
  rfl

end PwmServer

/-- C12, what the code loads where rounding and truncation differ, on the register
stand-in bound to client 7.  At frequency 100000000 (period count 1) and percent 99 the
exact product is 0.99, whose nearest integer is 1 under either tie rule; the compare
threshold of channel A becomes 0.  At frequency 3 and percent 50, the specification's own
example, the product is 16666666.5 and the threshold becomes 16666666, not the 16666667
that rounding half up gives. -/
theorem C12_threshold_is_not_rounded :
    ((PwmServer.handle_set_pwm_duty_cycle Sample.pwmRegsEnv
          (Sample.pwmRegsBound 100000000 0 0) ⟨2, 0, 8⟩ 7 (Sample.words 0 99)).state.hw.cmpa = 0
      ∧ PwmServer.spec_threshold_rounded 100000000 99 = 1
      ∧ round_nearest_even (99 * (100000000 / 100000000)) 100 = 1)
    ∧ ((PwmServer.handle_set_pwm_duty_cycle Sample.pwmRegsEnv
          (Sample.pwmRegsBound 3 0 0) ⟨2, 0, 8⟩ 7 (Sample.words 0 50)).state.hw.cmpa = 16666666
      ∧ PwmServer.spec_threshold_rounded 3 50 = 16666667) := by
  decide

/-- An accepted set-duty-cycle request replies OK, caches the percent for the selected
channel and leaves `client_id`, `curr_freq` and the other cached percent alone, whatever
the current frequency. -/
theorem pwm_set_duty_cycle_cached {H : Type} (env : PwmServer.Env H)
    (s : PwmServer.State H) (msg : kos_msg_t) (caller_id : Nat) (transport : Nat → Nat)
    (hc : caller_id = s.client_id)
    (hsz : env.kos.kos_msg_payload_size msg.metadata = 4 * 2) :
    (PwmServer.handle_set_pwm_duty_cycle env s msg caller_id transport).msg
        = kos_msg_new_status STATUS_OK
    ∧ (PwmServer.handle_set_pwm_duty_cycle env s msg caller_id transport).state.client_id
        = s.client_id
    ∧ (PwmServer.handle_set_pwm_duty_cycle env s msg caller_id transport).state.curr_freq
        = s.curr_freq
    ∧ (transport 0 = 0 →
        (PwmServer.handle_set_pwm_duty_cycle env s msg caller_id
            transport).state.curr_pin_duty_cycle = (transport 1, s.curr_pin_duty_cycle.2))
    ∧ (transport 0 ≠ 0 →
        (PwmServer.handle_set_pwm_duty_cycle env s msg caller_id
            transport).state.curr_pin_duty_cycle = (s.curr_pin_duty_cycle.1, transport 1)) := by
  by_cases hf : s.curr_freq = 0
  · have h := PwmServer.pwm_set_duty_cycle_at_zero_freq env s msg caller_id transport hc hsz hf
    by_cases hp : transport 0 = 0
    · rw [h.1 hp]; exact ⟨rfl, rfl, rfl, fun _ => rfl, fun h2 => absurd hp h2⟩
    · rw [h.2 hp]; exact ⟨rfl, rfl, rfl, fun h2 => absurd h2 hp, fun _ => rfl⟩
  · have h := PwmServer.pwm_set_duty_cycle_at_nonzero_freq env s msg caller_id transport hc
      hsz hf
    by_cases hp : transport 0 = 0
    · rw [h.1 hp]; exact ⟨rfl, rfl, rfl, fun _ => rfl, fun h2 => absurd hp h2⟩
    · rw [h.2 hp]; exact ⟨rfl, rfl, rfl, fun h2 => absurd h2 hp, fun _ => rfl⟩

/-- C14: an authorized, well-formed set-frequency request with frequency 0 replies OK, sets
`curr_freq` to 0, keeps both cached duty cycles, and its only outside call is
`EHRPWMPWMOpFreqSet`: no compare register is loaded.  Both calls of
`calc_and_set_counter_values` return at the guard, so the division `TB_CLK / curr_freq`
and the conversion to `uint32_t` are not executed: the computation with the undefined
cases made explicit yields the same outcome and no undefined step.  On the register
stand-in both compare thresholds are as before. -/
theorem C14_set_frequency_zero_keeps_thresholds {H : Type} (env : PwmServer.Env H)
    (s : PwmServer.State H) (kos : Kos) (base : Nat)
    (rs : PwmServer.State PwmServer.PwmRegs) (msg : kos_msg_t) (caller_id : Nat)
    (transport : Nat → Nat) (hc : caller_id = s.client_id) (hrc : caller_id = rs.client_id)
    (hsz : env.kos.kos_msg_payload_size msg.metadata = 4 * 1)
    (hrsz : kos.kos_msg_payload_size msg.metadata = 4 * 1)
    (hf : transport 0 = 0) :
    PwmServer.handle_set_pwm_frequency env s msg caller_id transport
      = ⟨kos_msg_new_status STATUS_OK, transport,
          { s with
            curr_freq := 0,
            hw := (env.drv.EHRPWMPWMOpFreqSet s.hw env.pwm_controller_base PwmServer.TB_CLK 0
              PwmServer.ehrpwm_const.EHRPWM_COUNT_UP
              PwmServer.ehrpwm_const.EHRPWM_SHADOW_WRITE_ENABLE) },
          [PwmServer.PwmCall.EHRPWMPWMOpFreqSet env.pwm_controller_base PwmServer.TB_CLK 0]⟩
    ∧ PwmServer.handle_set_pwm_frequency_checked env s msg caller_id transport
        = some (PwmServer.handle_set_pwm_frequency env s msg caller_id transport)
    ∧ ((PwmServer.handle_set_pwm_frequency (PwmServer.regsEnv kos base) rs msg caller_id
          transport).msg = kos_msg_new_status STATUS_OK
      ∧ (PwmServer.handle_set_pwm_frequency (PwmServer.regsEnv kos base) rs msg caller_id
          transport).state.hw.cmpa = rs.hw.cmpa
      ∧ (PwmServer.handle_set_pwm_frequency (PwmServer.regsEnv kos base) rs msg caller_id
          transport).state.hw.cmpb = rs.hw.cmpb
      ∧ (PwmServer.handle_set_pwm_frequency (PwmServer.regsEnv kos base) rs msg caller_id
          transport).state.curr_pin_duty_cycle = rs.curr_pin_duty_cycle) := by
  have h := PwmServer.pwm_set_frequency_zero env s msg caller_id transport hc hsz hf
  refine ⟨h, ?_, ?_⟩
  · rw [h]
    simp [PwmServer.handle_set_pwm_frequency_checked, hc, hsz, sizeof_uint32_t,
      PwmServer.SET_PWM_FREQUENCY_ARGS, hf, PwmServer.calc_and_set_counter_values_checked]
  · rw [PwmServer.pwm_set_frequency_zero (PwmServer.regsEnv kos base) rs msg caller_id
      transport hrc hrsz hf]
    exact ⟨rfl, rfl, rfl, rfl⟩

/-- C14 on the sample register stand-in bound to client 7 at 1000 Hz with thresholds 50000
and 25000 loaded: client 7 sets the frequency to 0. -/
theorem C14_set_frequency_zero_keeps_thresholds_witness :
    (7 = Sample.pwmBound.client_id ∧ Sample.words 0 0 0 = 0)
    ∧ (PwmServer.handle_set_pwm_frequency (PwmServer.regsEnv Sample.kos 0x48300200)
          { client_id := 7, curr_freq := 1000, curr_pin_duty_cycle := (50, 25),
            hw := { tb_clk := 100000000, pwm_freq := 1000, cmpa := 50000, cmpb := 25000 } }
          ⟨1, 0, 4⟩ 7 (Sample.words 0 0)).state.hw.cmpa = 50000
    ∧ (PwmServer.handle_set_pwm_frequency (PwmServer.regsEnv Sample.kos 0x48300200)
          { client_id := 7, curr_freq := 1000, curr_pin_duty_cycle := (50, 25),
            hw := { tb_clk := 100000000, pwm_freq := 1000, cmpa := 50000, cmpb := 25000 } }
          ⟨1, 0, 4⟩ 7 (Sample.words 0 0)).state.hw.cmpb = 25000 :=
  have h := (C14_set_frequency_zero_keeps_thresholds Sample.pwmEnv Sample.pwmBound Sample.kos
      0x48300200
      { client_id := 7, curr_freq := 1000, curr_pin_duty_cycle := (50, 25),
        hw := { tb_clk := 100000000, pwm_freq := 1000, cmpa := 50000, cmpb := 25000 } }
      ⟨1, 0, 4⟩ 7 (Sample.words 0 0) (by decide) (by decide) (by decide) (by decide)
      (by decide)).2.2
  ⟨⟨by decide, by decide⟩, h.2.1, h.2.2.1⟩

/-! ### Bounds on the double-precision model -/

/-- The function `ilog2` finds the leading bit: `2 ^ ilog2 n ≤ n < 2 ^ (ilog2 n + 1)`. -/
theorem bit_length_aux_spec (fuel : Nat) :
    ∀ n : Nat, n ≤ fuel → n ≠ 0 →
      2 ^ bit_length_aux fuel n ≤ n ∧ n < 2 ^ (bit_length_aux fuel n + 1) := by
  induction fuel with
  | zero => intro n h1 h2; exact absurd (Nat.le_zero.mp h1) h2
  | succ k ih =>
    intro n h1 h2
    unfold bit_length_aux
    split_ifs with h
    · constructor <;> simp <;> omega
    · have h3 := ih (n / 2) (by omega) (by omega)
      rw [Nat.pow_succ, Nat.pow_succ]
      rw [Nat.pow_succ] at h3
      omega

theorem ilog2_spec (n : Nat) (hn : n ≠ 0) : 2 ^ ilog2 n ≤ n ∧ n < 2 ^ (ilog2 n + 1) :=
  bit_length_aux_spec n n (le_refl n) hn

/-- Rounding to nearest never passes an integer bound of the fraction. -/
theorem round_nearest_even_le (a b k : Nat) (hb : 0 < b) (h : a ≤ k * b) :
    round_nearest_even a b ≤ k := by
  have hq : a / b ≤ k := Nat.div_le_of_le_mul (by rw [Nat.mul_comm]; exact h)
  have hdm := Nat.div_add_mod a b
  have hr : a % b < b := Nat.mod_lt a hb
  unfold round_nearest_even
  have hlt : 0 < a % b → a / b + 1 ≤ k := by
    intro hpos
    by_contra hcon
    have hk : a / b = k := by omega
    rw [hk] at hdm
    have : b * k = k * b := Nat.mul_comm b k
    omega
  split_ifs <;> first | exact hq | (apply hlt; omega)

/-- Rounding to binary64 never passes an integer bound below `2 ^ 53` of the fraction. -/
theorem fl64_le_of_le (n d m : Nat) (hd : 0 < d) (h : n ≤ m * d) (hm : m < 2 ^ 53) :
    (fl64 n d).num ≤ m * 2 ^ (fl64 n d).exp := by
  have hlt : n < 2 ^ 53 * d := lt_of_le_of_lt h (Nat.mul_lt_mul_of_pos_right hm hd)
  simp only [fl64]
  split_ifs with h0 h1 h2 h3
  · simp
  · apply round_nearest_even_le _ _ _ hd
    calc n * 2 ^ (52 + ilog2 d - ilog2 n + 1) ≤ m * d * 2 ^ (52 + ilog2 d - ilog2 n + 1) :=
          Nat.mul_le_mul_right _ h
      _ = m * 2 ^ (52 + ilog2 d - ilog2 n + 1) * d := by ring
  · apply round_nearest_even_le _ _ _ hd
    calc n * 2 ^ (52 + ilog2 d - ilog2 n) ≤ m * d * 2 ^ (52 + ilog2 d - ilog2 n) :=
          Nat.mul_le_mul_right _ h
      _ = m * 2 ^ (52 + ilog2 d - ilog2 n) * d := by ring
  · have hn := ilog2_spec n h0
    have hdd := ilog2_spec d (by omega)
    have hexp : ilog2 n - (52 + ilog2 d) = 1 := by
      by_contra hne
      have h2le : 52 + ilog2 d + 2 ≤ ilog2 n := by omega
      have hpw : 2 ^ (52 + ilog2 d + 2) ≤ 2 ^ ilog2 n := Nat.pow_le_pow_right (by decide) h2le
      have e1 : 2 ^ (52 + ilog2 d + 2) = 2 ^ 53 * 2 ^ (ilog2 d + 1) := by
        rw [← Nat.pow_add]; congr 1; omega
      have hdl : 2 ^ 53 * d < 2 ^ 53 * 2 ^ (ilog2 d + 1) :=
        Nat.mul_lt_mul_of_pos_left hdd.2 (by positivity)
      omega
    simp only [hexp, Nat.sub_self, pow_zero, mul_one]
    exact round_nearest_even_le _ _ _ hd h
  · exfalso
    have hn := ilog2_spec n h0
    have hdd := ilog2_spec d (by omega)
    have hge : 1 ≤ ilog2 n - (52 + ilog2 d) := by omega
    have hp : 2 ^ 1 ≤ 2 ^ (ilog2 n - (52 + ilog2 d)) := Nat.pow_le_pow_right (by decide) hge
    have hmono : 2 ^ 52 * (d * 2 ^ 1) ≤ 2 ^ 52 * (d * 2 ^ (ilog2 n - (52 + ilog2 d))) :=
      Nat.mul_le_mul_left _ (Nat.mul_le_mul_left _ hp)
    have e : 2 ^ 52 * (d * 2 ^ 1) = 2 ^ 53 * d := by ring
    omega

/-- The cast yields a 32-bit value. -/
theorem double_to_uint32_lt (x : Double64) : double_to_uint32 x < 2 ^ 32 :=
  Nat.mod_lt _ (by norm_num)

/-- The cast never exceeds the integer part. -/
theorem double_to_uint32_le (x : Double64) : double_to_uint32 x ≤ double_integer_part x :=
  Nat.mod_le _ _

/-- Where the integer part is below `2 ^ 32` the cast yields it. -/
theorem double_to_uint32_of_fits (x : Double64) (h : double_integer_part x < 2 ^ 32) :
    double_to_uint32 x = double_integer_part x :=
  Nat.mod_eq_of_lt h

namespace PwmServer

/-- For a duty cycle of at most 100 the integer part of the computed product is at most
the period count. -/
theorem pwm_integer_part_le_period (f d : Nat) (hd : d ≤ 100) :
    double_integer_part (counter_value_double f d) ≤ TB_CLK / f := by
  have hpc : TB_CLK / f < 2 ^ 53 :=
    lt_of_le_of_lt (Nat.div_le_self _ _) (by decide)
  have hq : (fl64 (d * 2 ^ 0) (100 * 2 ^ 0)).num ≤ 1 * 2 ^ (fl64 (d * 2 ^ 0) (100 * 2 ^ 0)).exp :=
    fl64_le_of_le (d * 2 ^ 0) (100 * 2 ^ 0) 1 (by norm_num) (by omega) (by norm_num)
  have hr := fl64_le_of_le
    ((fl64 (d * 2 ^ 0) (100 * 2 ^ 0)).num * (TB_CLK / f))
    (2 ^ ((fl64 (d * 2 ^ 0) (100 * 2 ^ 0)).exp + 0)) (TB_CLK / f)
    (by positivity)
    (by
      rw [Nat.add_zero, Nat.mul_comm]
      exact Nat.mul_le_mul_left _ (by simpa using hq))
    hpc
  show double_integer_part (double_mul (double_div (uint32_to_double d) double_100)
    (uint32_to_double (TB_CLK / f))) ≤ TB_CLK / f
  unfold double_integer_part
  exact Nat.div_le_of_le_mul (by
    rw [Nat.mul_comm]
    exact hr)

/-- For a duty cycle of at most 100 the conversion to `uint32_t` is defined. -/
theorem pwm_fits_of_le_100 (f d : Nat) (hd : d ≤ 100) :
    double_integer_part (counter_value_double f d) < 2 ^ 32 := by
  have h1 := pwm_integer_part_le_period f d hd
  have h2 : TB_CLK / f ≤ TB_CLK := Nat.div_le_self _ _
  have h3 : TB_CLK < 2 ^ 32 := by decide
  omega

/-- Where the conversion is defined `counter_value` is the integer part of the product. -/
theorem pwm_counter_value_of_fits (f d : Nat)
    (h : double_integer_part (counter_value_double f d) < 2 ^ 32) :
    counter_value f d = double_integer_part (counter_value_double f d) :=
  double_to_uint32_of_fits _ h

/-- The checked computation, spelled out. -/
theorem pwm_counter_value_checked_eq (f d : Nat) :
    counter_value_checked f d
      = if f = 0 then none
        else if double_integer_part (counter_value_double f d) < 2 ^ 32 then
          some (double_integer_part (counter_value_double f d))
        else none :=
  rfl

/-- At a non-zero frequency, where the conversion is defined, the checked computation
returns `counter_value`. -/
theorem pwm_counter_value_checked_of_fits (f d : Nat) (hf : f ≠ 0)
    (h : double_integer_part (counter_value_double f d) < 2 ^ 32) :
    counter_value_checked f d = some (counter_value f d) := by
  rw [pwm_counter_value_checked_eq, if_neg hf, if_pos h, pwm_counter_value_of_fits f d h]

/-- Where the integer part of the product is `2 ^ 32` or more the checked computation has
no result. -/
theorem pwm_counter_value_checked_none (f d : Nat)
    (h : 2 ^ 32 ≤ double_integer_part (counter_value_double f d)) :
    counter_value_checked f d = none := by
  rw [pwm_counter_value_checked_eq]
  split_ifs with h1 h2
  · rfl
  · omega
  · rfl

/-- For a duty cycle of at most 100 the computed threshold is at most the period count. -/
theorem pwm_counter_value_le_period (f d : Nat) (hd : d ≤ 100) :
    counter_value f d ≤ TB_CLK / f :=
  le_trans (double_to_uint32_le _) (pwm_integer_part_le_period f d hd)

end PwmServer

/-! ### Invariants of the PWM state over a run -/

/-- A property of the state kept by every step on an admissible message holds after every
iteration of a run over admissible messages. -/
theorem run_invariant {S C : Type} (step : S → Incoming → Outcome S C)
    (run : S → List Incoming → List (Outcome S C)) (Q : Incoming → Prop) (P : S → Prop)
    (hnil : ∀ s, run s [] = [])
    (hcons : ∀ s i r, run s (i :: r) = step s i :: run (step s i).state r)
    (hstep : ∀ s i, Q i → P s → P (step s i).state) (msgs : List Incoming) :
    (∀ m ∈ msgs, Q m) → ∀ s, P s → ∀ o ∈ run s msgs, P o.state := by
  induction msgs with
  | nil => intro _ s _ o ho; rw [hnil] at ho; exact absurd ho (List.not_mem_nil o)
  | cons i r ih =>
    intro hq s hs o ho
    rw [hcons, List.mem_cons] at ho
    have h1 := hstep s i (hq i (List.mem_cons_self _ _)) hs
    rcases ho with ho | ho
    · rw [ho]; exact h1
    · exact ih (fun m hm => hq m (List.mem_cons_of_mem _ hm)) _ h1 o ho

namespace PwmServer

/-- Registration touches `client_id` only. -/
theorem pwm_handle_request_fields {H : Type} (env : Env H) (s : State H) (msg : kos_msg_t)
    (badge caller_id : Nat) (transport : Nat → Nat) :
    (handle_request env s msg badge caller_id transport).state.curr_freq = s.curr_freq
    ∧ (handle_request env s msg badge caller_id transport).state.curr_pin_duty_cycle
        = s.curr_pin_duty_cycle
    ∧ (handle_request env s msg badge caller_id transport).state.hw = s.hw := by
  simp only [handle_request]
  split_ifs <;> exact ⟨rfl, rfl, rfl⟩

/-- A set-frequency request that is not both authorized and well-formed changes nothing. -/
theorem pwm_set_frequency_rejected {H : Type} (env : Env H) (s : State H) (msg : kos_msg_t)
    (caller_id : Nat) (transport : Nat → Nat)
    (h : ¬ (caller_id = s.client_id ∧ env.kos.kos_msg_payload_size msg.metadata = 4 * 1)) :
    (handle_set_pwm_frequency env s msg caller_id transport).state = s := by
  simp only [handle_set_pwm_frequency, sizeof_uint32_t, SET_PWM_FREQUENCY_ARGS]
  split_ifs with h1 h2
  · rfl
  · rfl
  · exact absurd ⟨not_not.mp h1, not_not.mp h2⟩ h

/-- A set-duty-cycle request that is not both authorized and well-formed changes
nothing. -/
theorem pwm_set_duty_cycle_rejected {H : Type} (env : Env H) (s : State H) (msg : kos_msg_t)
    (caller_id : Nat) (transport : Nat → Nat)
    (h : ¬ (caller_id = s.client_id ∧ env.kos.kos_msg_payload_size msg.metadata = 4 * 2)) :
    (handle_set_pwm_duty_cycle env s msg caller_id transport).state = s := by
  simp only [handle_set_pwm_duty_cycle, sizeof_uint32_t, SET_PWM_DUTY_CYCLE_ARGS]
  split_ifs with h1 h2 h3
  · rfl
  · rfl
  · exact absurd ⟨not_not.mp h1, not_not.mp h2⟩ h
  · exact absurd ⟨not_not.mp h1, not_not.mp h2⟩ h

/-- A set-frequency request never changes the cached duty cycles. -/
theorem pwm_set_frequency_keeps_duty {H : Type} (env : Env H) (s : State H) (msg : kos_msg_t)
    (caller_id : Nat) (transport : Nat → Nat) :
    (handle_set_pwm_frequency env s msg caller_id transport).state.curr_pin_duty_cycle
      = s.curr_pin_duty_cycle := by
  simp only [handle_set_pwm_frequency]
  split_ifs
  · rfl
  · rfl
  · simp only [(pwm_calc_and_set_counter_values_fields env _ _ _).2.2]

/-- One loop iteration on a message whose set-duty-cycle percent, if it is such a request,
is at most 100 keeps both cached duty cycles at most 100. -/
theorem pwm_step_duty_within_100 {H : Type} (env : Env H) (s : State H) (inc : Incoming)
    (hq : inc.msg.label = SET_PWM_DUTY_CYCLE_REQUEST → inc.transport 1 ≤ 100)
    (hs : s.curr_pin_duty_cycle.1 ≤ 100 ∧ s.curr_pin_duty_cycle.2 ≤ 100) :
    (listen_step env s inc).state.curr_pin_duty_cycle.1 ≤ 100
    ∧ (listen_step env s inc).state.curr_pin_duty_cycle.2 ≤ 100 := by
  simp only [listen_step]
  split_ifs with hb hl1 hl2 hl3
  · exact hs
  · rw [(pwm_handle_request_fields env s inc.msg inc.badge inc.caller_id inc.transport).2.1]
    exact hs
  · rw [pwm_set_frequency_keeps_duty]
    exact hs
  · by_cases hok : inc.caller_id = s.client_id
        ∧ env.kos.kos_msg_payload_size inc.msg.metadata = 4 * 2
    · have hd := pwm_set_duty_cycle_cached env s inc.msg inc.caller_id inc.transport hok.1
        hok.2
      by_cases hp : inc.transport 0 = 0
      · rw [hd.2.2.2.1 hp]
        exact ⟨hq hl3, hs.2⟩
      · rw [hd.2.2.2.2 hp]
        exact ⟨hs.1, hq hl3⟩
    · rw [pwm_set_duty_cycle_rejected env s inc.msg inc.caller_id inc.transport hok]
      exact hs
  · exact hs

end PwmServer

/-- C17, what the code does with a percent above 100: on the sample PWM server the run
"register 7, channel A to 200" leaves the cached duty cycle of channel A at 200; at
frequency 1000 (period count 100000) such a request loads the threshold 200000. -/
theorem C17_duty_cycle_above_100_is_cached :
    (PwmServer.listen_thread_fn Sample.pwmEnv (PwmServer.State.initial [])
        [⟨⟨ALL_ONES, 0, 0⟩, 256, 7, Sample.words 0 0⟩,
         ⟨⟨2, 0, 8⟩, 256, 7, Sample.words 0 200⟩]).map
        (fun o => o.state.curr_pin_duty_cycle)
      = [(0, 0), (200, 0)]
    ∧ ¬ ((200 : Nat) ≤ 100)
    ∧ (PwmServer.handle_set_pwm_duty_cycle Sample.pwmRegsEnv (Sample.pwmRegsBound 1000 0 0)
          ⟨2, 0, 8⟩ 7 (Sample.words 0 200)).state.hw.cmpa = 200000
    ∧ PwmServer.TB_CLK / 1000 = 100000 := by
  decide

/-- C17 as amended: the set-duty-cycle handler caches the percent it is given without a
range check, so the cached duty cycles lie in [0, 100] as far as the requests do: for a
loop started with both cached duty cycles 0 and any finite sequence of messages in which
every set-duty-cycle request carries a percent of at most 100, both cached duty cycles are
at most 100 after every iteration; and for a duty cycle of at most 100 the computed
threshold is at most the period count `100000000 / f`. -/
theorem C17_duty_cycles_within_100_when_requests_are {H : Type} (env : PwmServer.Env H)
    (hw : H) (msgs : List Incoming)
    (hmsgs : ∀ m ∈ msgs,
      m.msg.label = PwmServer.SET_PWM_DUTY_CYCLE_REQUEST → m.transport 1 ≤ 100) :
    (∀ o ∈ PwmServer.listen_thread_fn env (PwmServer.State.initial hw) msgs,
        o.state.curr_pin_duty_cycle.1 ≤ 100 ∧ o.state.curr_pin_duty_cycle.2 ≤ 100)
    ∧ (∀ f d : Nat, d ≤ 100 → PwmServer.counter_value f d ≤ 100000000 / f)
    ∧ (∀ (s : PwmServer.State H) (msg : kos_msg_t) (caller_id : Nat) (transport : Nat → Nat),
        caller_id = s.client_id → env.kos.kos_msg_payload_size msg.metadata = 4 * 2 →
        (transport 0 = 0 →
          (PwmServer.handle_set_pwm_duty_cycle env s msg caller_id
              transport).state.curr_pin_duty_cycle = (transport 1, s.curr_pin_duty_cycle.2))
        ∧ (transport 0 ≠ 0 →
          (PwmServer.handle_set_pwm_duty_cycle env s msg caller_id
              transport).state.curr_pin_duty_cycle
            = (s.curr_pin_duty_cycle.1, transport 1))) := by
  refine ⟨?_, fun f d hd => PwmServer.pwm_counter_value_le_period f d hd, ?_⟩
  · exact run_invariant (PwmServer.listen_step env) (PwmServer.listen_thread_fn env)
      (fun m => m.msg.label = PwmServer.SET_PWM_DUTY_CYCLE_REQUEST → m.transport 1 ≤ 100)
      (fun s => s.curr_pin_duty_cycle.1 ≤ 100 ∧ s.curr_pin_duty_cycle.2 ≤ 100)
      (fun _ => rfl) (fun _ _ _ => rfl)
      (fun s i hq hs => PwmServer.pwm_step_duty_within_100 env s i hq hs) msgs hmsgs
      (PwmServer.State.initial hw) ⟨Nat.zero_le _, Nat.zero_le _⟩
  · intro s msg caller_id transport hc hsz
    have hd := pwm_set_duty_cycle_cached env s msg caller_id transport hc hsz
    exact ⟨hd.2.2.2.1, hd.2.2.2.2⟩

/-- C17 as amended, on the sample PWM server: the run "register 7, channel A to 50, channel
B to 100" keeps both cached duty cycles within 100; and `counter_value 3 100` is at most
the period count 33333333. -/
theorem C17_duty_cycles_within_100_when_requests_are_witness :
    (∀ m ∈ ([⟨⟨ALL_ONES, 0, 0⟩, 256, 7, Sample.words 0 0⟩,
          ⟨⟨2, 0, 8⟩, 256, 7, Sample.words 0 50⟩,
          ⟨⟨2, 0, 8⟩, 256, 7, Sample.words 1 100⟩] : List Incoming),
        m.msg.label = PwmServer.SET_PWM_DUTY_CYCLE_REQUEST → m.transport 1 ≤ 100)
    ∧ (∀ o ∈ PwmServer.listen_thread_fn Sample.pwmEnv (PwmServer.State.initial [])
          [⟨⟨ALL_ONES, 0, 0⟩, 256, 7, Sample.words 0 0⟩,
           ⟨⟨2, 0, 8⟩, 256, 7, Sample.words 0 50⟩,
           ⟨⟨2, 0, 8⟩, 256, 7, Sample.words 1 100⟩],
        o.state.curr_pin_duty_cycle.1 ≤ 100 ∧ o.state.curr_pin_duty_cycle.2 ≤ 100)
    ∧ PwmServer.counter_value 3 100 ≤ 100000000 / 3 :=
  have hm : ∀ m ∈ ([⟨⟨ALL_ONES, 0, 0⟩, 256, 7, Sample.words 0 0⟩,
          ⟨⟨2, 0, 8⟩, 256, 7, Sample.words 0 50⟩,
          ⟨⟨2, 0, 8⟩, 256, 7, Sample.words 1 100⟩] : List Incoming),
        m.msg.label = PwmServer.SET_PWM_DUTY_CYCLE_REQUEST → m.transport 1 ≤ 100 := by
    decide
  ⟨hm, (C17_duty_cycles_within_100_when_requests_are Sample.pwmEnv [] _ hm).1,
    (C17_duty_cycles_within_100_when_requests_are Sample.pwmEnv [] _ hm).2.1 3 100
      (by decide)⟩

/-! ### GPIO read and write -/

namespace GpioServer

/-- An accepted read request, spelled out. -/
theorem gpio_read_accepted {H : Type} (env : Env H) (s : State H) (msg : kos_msg_t)
    (caller_id : Nat) (transport : Nat → Nat) (hc : caller_id = s.client_id)
    (hsz : env.kos.kos_msg_payload_size msg.metadata = 4 * 1) (hpin : transport 0 ≤ 127) :
    handle_read env s msg caller_id transport
      = ⟨kos_msg_new STATUS_OK 0 4 0 0,
          Function.update transport 0
            (if env.drv.GPIOPinRead s.hw
                (env.gpio_controller_bases ⟨transport 0 / 32, by omega⟩) (transport 0 % 32) ≠ 0
              then 1 else 0),
          s,
          [GpioCall.gpio_controller_bases (transport 0 / 32),
           GpioCall.GPIOPinRead (env.gpio_controller_bases ⟨transport 0 / 32, by omega⟩)
             (transport 0 % 32)]⟩ := by
  have hp : ¬ transport 0 > MAX_PIN := by simp only [MAX_PIN]; omega
  simp only [handle_read, hc, ne_eq, not_true_eq_false, if_false, hsz, sizeof_uint32_t,
    READ_ARGS, hp, dite_false, flat_pin_to_controller_pin, PINS_IN_CONTROLLER]

/-- An accepted write request, spelled out. -/
theorem gpio_write_accepted {H : Type} (env : Env H) (s : State H) (msg : kos_msg_t)
    (caller_id : Nat) (transport : Nat → Nat) (hc : caller_id = s.client_id)
    (hsz : env.kos.kos_msg_payload_size msg.metadata = 4 * 2) (hpin : transport 0 ≤ 127) :
    handle_write env s msg caller_id transport
      = ⟨kos_msg_new_status STATUS_OK, transport,
          { s with hw := (env.drv.GPIOPinWrite s.hw
              (env.gpio_controller_bases ⟨transport 0 / 32, by omega⟩) (transport 0 % 32)
              (transport 1)) },
          [GpioCall.gpio_controller_bases (transport 0 / 32),
           GpioCall.GPIOPinWrite (env.gpio_controller_bases ⟨transport 0 / 32, by omega⟩)
             (transport 0 % 32) (transport 1)]⟩ := by
  have hp : ¬ transport 0 > MAX_PIN := by simp only [MAX_PIN]; omega
  simp only [handle_write, hc, ne_eq, not_true_eq_false, if_false, hsz, sizeof_uint32_t,
    WRITE_ARGS, hp, dite_false, flat_pin_to_controller_pin, PINS_IN_CONTROLLER]

/-- An accepted configure-pin request, spelled out: mode 1 sets the direction to output,
every other mode to input. -/
theorem gpio_configure_pin_accepted {H : Type} (env : Env H) (s : State H) (msg : kos_msg_t)
    (caller_id : Nat) (transport : Nat → Nat) (hc : caller_id = s.client_id)
    (hsz : env.kos.kos_msg_payload_size msg.metadata = 4 * 2) (hpin : transport 0 ≤ 127) :
    handle_configure_pin env s msg caller_id transport
      = ⟨kos_msg_new_status STATUS_OK, transport,
          { s with hw := (env.drv.GPIODirModeSet s.hw
              (env.gpio_controller_bases ⟨transport 0 / 32, by omega⟩) (transport 0 % 32)
              (if transport 1 = 1 then gpio_dir.GPIO_DIR_OUTPUT
                else gpio_dir.GPIO_DIR_INPUT)) },
          [GpioCall.gpio_controller_bases (transport 0 / 32),
           GpioCall.GPIODirModeSet (env.gpio_controller_bases ⟨transport 0 / 32, by omega⟩)
             (transport 0 % 32)
             (if transport 1 = 1 then gpio_dir.GPIO_DIR_OUTPUT
               else gpio_dir.GPIO_DIR_INPUT)]⟩ := by
  have hp : ¬ transport 0 > MAX_PIN := by simp only [MAX_PIN]; omega
  simp only [handle_configure_pin, hc, ne_eq, not_true_eq_false, if_false, hsz,
    sizeof_uint32_t, CONFIGURE_PIN_ARGS, hp, dite_false, flat_pin_to_controller_pin,
    PINS_IN_CONTROLLER, OUTPUT_MODE]
  split_ifs <;> rfl

end GpioServer

namespace GpioServer

/-- On the register stand-in: a write of level 0 or 1 to a pin that is an output, followed
by a read of the same pin, returns that level. -/
theorem gpio_regs_write_read (kos : Kos) (bases : Fin 4 → Nat) (s : State GpioRegs)
    (msgw msgr : kos_msg_t) (caller_id : Nat) (tw tr : Nat → Nat)
    (hc : caller_id = s.client_id)
    (hszw : kos.kos_msg_payload_size msgw.metadata = 4 * 2)
    (hszr : kos.kos_msg_payload_size msgr.metadata = 4 * 1)
    (hpin : tw 0 ≤ 127) (hv : tw 1 = 0 ∨ tw 1 = 1) (htr : tr 0 = tw 0)
    (hout : s.hw.dir (bases ⟨tw 0 / 32, by omega⟩) (tw 0 % 32) = gpio_dir.GPIO_DIR_OUTPUT) :
    (handle_write (regsEnv kos bases) s msgw caller_id tw).msg = kos_msg_new_status STATUS_OK
    ∧ (handle_read (regsEnv kos bases)
          (handle_write (regsEnv kos bases) s msgw caller_id tw).state msgr caller_id tr).msg
        = kos_msg_new STATUS_OK 0 4 0 0
    ∧ (handle_read (regsEnv kos bases)
          (handle_write (regsEnv kos bases) s msgw caller_id tw).state msgr caller_id
          tr).transport 0 = tw 1 := by
  have hw := gpio_write_accepted (regsEnv kos bases) s msgw caller_id tw hc hszw hpin
  have hpr : tr 0 ≤ 127 := by rw [htr]; exact hpin
  have hfin : (⟨tr 0 / 32, by omega⟩ : Fin 4) = ⟨tw 0 / 32, by omega⟩ :=
    Fin.ext (by simp only [htr])
  have hr := gpio_read_accepted (regsEnv kos bases)
    { s with hw := ((regsEnv kos bases).drv.GPIOPinWrite s.hw
        ((regsEnv kos bases).gpio_controller_bases ⟨tw 0 / 32, by omega⟩) (tw 0 % 32)
        (tw 1)) }
    msgr caller_id tr hc hszr hpr
  rw [hw]
  refine ⟨rfl, congrArg (fun o => o.msg) hr, ?_⟩
  refine (congrArg (fun o => o.transport 0) hr).trans ?_
  simp only [Function.update_same, regsEnv, regsDriver, hfin, htr, and_self, if_true, hout]
  rcases hv with h | h <;> simp [h]

end GpioServer

/-- C18: on the register stand-in of the GPIO controllers, for every pin in 0..127 that is
configured as an output and every level `v` in {0, 1}, an authorized, well-formed write of
`v` to the pin replies OK, and an authorized, well-formed read of the pin that follows
replies OK with one payload word, which is `v`.  This holds when the pin is an output in
the state at hand, and so when the write is preceded by an authorized, well-formed
configure-pin request with mode 1 for that pin. -/
theorem C18_write_then_read_returns_level (kos : Kos) (bases : Fin 4 → Nat)
    (s : GpioServer.State GpioServer.GpioRegs) (msgc msgw msgr : kos_msg_t)
    (caller_id : Nat) (tc tw tr : Nat → Nat) (hc : caller_id = s.client_id)
    (hszc : kos.kos_msg_payload_size msgc.metadata = 4 * 2)
    (hszw : kos.kos_msg_payload_size msgw.metadata = 4 * 2)
    (hszr : kos.kos_msg_payload_size msgr.metadata = 4 * 1)
    (hpin : tw 0 ≤ 127) (hv : tw 1 = 0 ∨ tw 1 = 1) (htr : tr 0 = tw 0)
    (htc : tc 0 = tw 0) (hmode : tc 1 = 1) :
    (s.hw.dir (bases ⟨tw 0 / 32, by omega⟩) (tw 0 % 32) = GpioServer.gpio_dir.GPIO_DIR_OUTPUT →
        (GpioServer.handle_write (GpioServer.regsEnv kos bases) s msgw caller_id tw).msg
            = kos_msg_new_status STATUS_OK
        ∧ (GpioServer.handle_read (GpioServer.regsEnv kos bases)
              (GpioServer.handle_write (GpioServer.regsEnv kos bases) s msgw caller_id
                tw).state msgr caller_id tr).msg = kos_msg_new STATUS_OK 0 4 0 0
        ∧ (GpioServer.handle_read (GpioServer.regsEnv kos bases)
              (GpioServer.handle_write (GpioServer.regsEnv kos bases) s msgw caller_id
                tw).state msgr caller_id tr).transport 0 = tw 1)
    ∧ ((GpioServer.handle_configure_pin (GpioServer.regsEnv kos bases) s msgc caller_id
            tc).msg = kos_msg_new_status STATUS_OK
        ∧ (GpioServer.handle_write (GpioServer.regsEnv kos bases)
              (GpioServer.handle_configure_pin (GpioServer.regsEnv kos bases) s msgc
                caller_id tc).state msgw caller_id tw).msg = kos_msg_new_status STATUS_OK
        ∧ (GpioServer.handle_read (GpioServer.regsEnv kos bases)
              (GpioServer.handle_write (GpioServer.regsEnv kos bases)
                (GpioServer.handle_configure_pin (GpioServer.regsEnv kos bases) s msgc
                  caller_id tc).state msgw caller_id tw).state msgr caller_id tr).msg
            = kos_msg_new STATUS_OK 0 4 0 0
        ∧ (GpioServer.handle_read (GpioServer.regsEnv kos bases)
              (GpioServer.handle_write (GpioServer.regsEnv kos bases)
                (GpioServer.handle_configure_pin (GpioServer.regsEnv kos bases) s msgc
                  caller_id tc).state msgw caller_id tw).state msgr caller_id tr).transport 0
            = tw 1) := by
  constructor
  · intro hout
    exact GpioServer.gpio_regs_write_read kos bases s msgw msgr caller_id tw tr hc hszw hszr
      hpin hv htr hout
  · have hpc : tc 0 ≤ 127 := by rw [htc]; exact hpin
    have hcfg := GpioServer.gpio_configure_pin_accepted (GpioServer.regsEnv kos bases) s msgc
      caller_id tc hc hszc hpc
    have hfin : (⟨tc 0 / 32, by omega⟩ : Fin 4) = ⟨tw 0 / 32, by omega⟩ :=
      Fin.ext (by simp only [htc])
    rw [hcfg]
    have h := GpioServer.gpio_regs_write_read kos bases
      { s with hw := ((GpioServer.regsEnv kos bases).drv.GPIODirModeSet s.hw
          ((GpioServer.regsEnv kos bases).gpio_controller_bases ⟨tc 0 / 32, by omega⟩)
          (tc 0 % 32)
          (if tc 1 = 1 then GpioServer.gpio_dir.GPIO_DIR_OUTPUT
            else GpioServer.gpio_dir.GPIO_DIR_INPUT)) }
      msgw msgr caller_id tw tr hc hszw hszr hpin hv htr
      (by simp [GpioServer.regsEnv, GpioServer.regsDriver, hfin, htc, hmode])
    exact ⟨rfl, h.1, h.2.1, h.2.2⟩

/-- C18 on the sample register stand-in, bound to client 7, after reset: client 7
configures pin 77 as output, writes 1 and reads the pin. -/
theorem C18_write_then_read_returns_level_witness :
    (Sample.words 77 1 0 ≤ 127 ∧ (Sample.words 77 1 1 = 0 ∨ Sample.words 77 1 1 = 1))
    ∧ (GpioServer.handle_read Sample.gpioRegsEnv
          (GpioServer.handle_write Sample.gpioRegsEnv
            (GpioServer.handle_configure_pin Sample.gpioRegsEnv
              { client_id := 7, hw := Sample.gpioRegs0 } ⟨1, 0, 8⟩ 7 (Sample.words 77 1)).state
            ⟨5, 0, 8⟩ 7 (Sample.words 77 1)).state ⟨4, 0, 4⟩ 7 (Sample.words 77 0)).transport 0
        = Sample.words 77 1 1 :=
  ⟨⟨by decide, by decide⟩,
    (C18_write_then_read_returns_level Sample.kos Sample.gpioBases
      { client_id := 7, hw := Sample.gpioRegs0 } ⟨1, 0, 8⟩ ⟨5, 0, 8⟩ ⟨4, 0, 4⟩ 7
      (Sample.words 77 1) (Sample.words 77 1) (Sample.words 77 0) (by decide) (by decide)
      (by decide) (by decide) (by decide) (by decide) (by decide) (by decide)
      (by decide)).2.2.2.2⟩

/-- C19: for every pin in 0..127 an authorized, well-formed read request replies
`kos_msg_new(STATUS_OK, 0, 4, 0, 0)`, a payload of exactly one 32-bit word, after one call
of `GPIOPinRead` on the base of controller `pin / 32` with local index `pin % 32`; whatever
raw value that call returns, word 0 of the payload is 1 when the raw value is non-zero and 0
when it is zero; the state is as it was. -/
theorem C19_read_replies_normalised_level {H : Type} (env : GpioServer.Env H)
    (s : GpioServer.State H) (msg : kos_msg_t) (caller_id : Nat) (transport : Nat → Nat)
    (hc : caller_id = s.client_id)
    (hsz : env.kos.kos_msg_payload_size msg.metadata = 4 * 1) (hpin : transport 0 ≤ 127) :
    GpioServer.handle_read env s msg caller_id transport
      = ⟨kos_msg_new STATUS_OK 0 4 0 0,
          Function.update transport 0
            (if env.drv.GPIOPinRead s.hw
                (env.gpio_controller_bases ⟨transport 0 / 32, by omega⟩) (transport 0 % 32) ≠ 0
              then 1 else 0),
          s,
          [GpioServer.GpioCall.gpio_controller_bases (transport 0 / 32),
           GpioServer.GpioCall.GPIOPinRead
             (env.gpio_controller_bases ⟨transport 0 / 32, by omega⟩) (transport 0 % 32)]⟩
    ∧ (GpioServer.handle_read env s msg caller_id transport).msg.payload_size = 4
    ∧ (∀ raw : Nat,
        env.drv.GPIOPinRead s.hw (env.gpio_controller_bases ⟨transport 0 / 32, by omega⟩)
            (transport 0 % 32) = raw →
        (GpioServer.handle_read env s msg caller_id transport).transport 0
            = (if raw ≠ 0 then 1 else 0)
        ∧ ((GpioServer.handle_read env s msg caller_id transport).transport 0 = 0
          ∨ (GpioServer.handle_read env s msg caller_id transport).transport 0 = 1)) := by
  have h := GpioServer.gpio_read_accepted env s msg caller_id transport hc hsz hpin
  refine ⟨h, ?_, ?_⟩
  · rw [h]; rfl
  · intro raw hraw
    rw [h]
    simp only [Function.update_same, hraw]
    by_cases h0 : raw = 0 <;> simp [h0]

/-- C19 on the sample GPIO server bound to client 7, whose register read returns 1: client
7 reads pin 77, on controller 2 at local index 13. -/
theorem C19_read_replies_normalised_level_witness :
    (7 = Sample.gpioBound.client_id ∧ Sample.words 77 0 0 ≤ 127)
    ∧ (GpioServer.handle_read Sample.gpioEnv Sample.gpioBound ⟨4, 0, 4⟩ 7
          (Sample.words 77 0)).msg.payload_size = 4
    ∧ (GpioServer.handle_read Sample.gpioEnv Sample.gpioBound ⟨4, 0, 4⟩ 7
          (Sample.words 77 0)).calls
        = [GpioServer.GpioCall.gpio_controller_bases 2,
           GpioServer.GpioCall.GPIOPinRead 0x481ac000 13] :=
  ⟨⟨by decide, by decide⟩,
    (C19_read_replies_normalised_level Sample.gpioEnv Sample.gpioBound ⟨4, 0, 4⟩ 7
      (Sample.words 77 0) (by decide) (by decide) (by decide)).2.1,
    congrArg (fun o => o.calls)
      (C19_read_replies_normalised_level Sample.gpioEnv Sample.gpioBound ⟨4, 0, 4⟩ 7
        (Sample.words 77 0) (by decide) (by decide) (by decide)).1⟩

/-! ### The synchronous binding -/

/-- C20, the binding at pin 128: `configure_pin`, `write`, `set_debounce` and
`set_debounce_time`, called with the arguments 128 and 1, do not reject the pin; they
compute controller 4 and read `gpio_controller_bases[4]`, outside the four entries
(indices 0..3) of the table; `read`, passed two arguments, does the same.  At pin
4294967295 the index is 134217727.  The server's handler rejects pin 128. -/
theorem C20_binding_indexes_past_the_table :
    ((GpioNif.configure_pin Sample.nifEnv []
          [GpioNif.erl_term.integer 128, GpioNif.erl_term.integer 1]).ret
        = GpioNif.nif_return.index_out_of_table 4
      ∧ (GpioNif.configure_pin Sample.nifEnv []
          [GpioNif.erl_term.integer 128, GpioNif.erl_term.integer 1]).calls
        = [GpioServer.GpioCall.gpio_controller_bases 4]
      ∧ ¬ (4 < GpioNif.NUM_GPIOS))
    ∧ (GpioNif.write Sample.nifEnv []
          [GpioNif.erl_term.integer 128, GpioNif.erl_term.integer 1]).ret
        = GpioNif.nif_return.index_out_of_table 4
    ∧ (GpioNif.set_debounce Sample.nifEnv []
          [GpioNif.erl_term.integer 128, GpioNif.erl_term.integer 1]).ret
        = GpioNif.nif_return.index_out_of_table 4
    ∧ (GpioNif.set_debounce_time Sample.nifEnv []
          [GpioNif.erl_term.integer 128, GpioNif.erl_term.integer 1]).ret
        = GpioNif.nif_return.index_out_of_table 4
    ∧ (GpioNif.read Sample.nifEnv []
          [GpioNif.erl_term.integer 128, GpioNif.erl_term.integer 1]).ret
        = GpioNif.nif_return.index_out_of_table 4
    ∧ (GpioNif.configure_pin Sample.nifEnv []
          [GpioNif.erl_term.integer 4294967295, GpioNif.erl_term.integer 1]).ret
        = GpioNif.nif_return.index_out_of_table 134217727
    ∧ (GpioServer.handle_configure_pin Sample.gpioEnv Sample.gpioBound ⟨1, 0, 8⟩ 7
          (Sample.words 128 1)).msg = kos_msg_new_status STATUS_BAD_REQUEST := by
  decide

/-- C21, the binding's `read` called the way it is registered: `nif_funcs` registers it
with arity `READ_ARGS = 1`, the function compares `argc` with `CONFIGURE_PIN_ARGS = 2`, so
with its single argument, whatever term that is, it returns the `badarg` exception without
touching the hardware; at pin 5 the server's read on the same recording hardware replies OK
with level 1.  Only when passed two arguments does the binding return a level. -/
theorem C21_binding_read_with_one_argument_is_badarg :
    (GpioNif.nif_funcs_arity.get? 1 = some GpioNif.READ_ARGS ∧ GpioNif.READ_ARGS = 1
      ∧ GpioNif.CONFIGURE_PIN_ARGS = 2)
    ∧ (∀ t : GpioNif.erl_term,
        (GpioNif.read Sample.nifEnv [] [t]).ret = GpioNif.nif_return.badarg
        ∧ (GpioNif.read Sample.nifEnv [] [t]).calls = [])
    ∧ (GpioNif.read Sample.nifEnv [] [GpioNif.erl_term.integer 5]).ret
        = GpioNif.nif_return.badarg
    ∧ ((GpioServer.handle_read Sample.gpioEnv Sample.gpioBound ⟨4, 0, 4⟩ 7
          (Sample.words 5 0)).msg = kos_msg_new STATUS_OK 0 4 0 0
      ∧ (GpioServer.handle_read Sample.gpioEnv Sample.gpioBound ⟨4, 0, 4⟩ 7
          (Sample.words 5 0)).transport 0 = 1)
    ∧ (GpioNif.read Sample.nifEnv []
          [GpioNif.erl_term.integer 5, GpioNif.erl_term.atom 0]).ret
        = GpioNif.nif_return.ok_level 1 := by
  refine ⟨by decide, ?_, by decide, by decide, by decide⟩
  intro t
  exact ⟨rfl, rfl⟩

/-! ### Configure pin -/

namespace GpioServer

/-- Two accepted configure-pin requests for the same pin and mode leave the state that one
leaves, for register functions whose direction-set is idempotent. -/
theorem gpio_configure_pin_twice {H : Type} (env : Env H) (s : State H)
    (msg msg2 : kos_msg_t) (caller_id : Nat) (t t2 : Nat → Nat)
    (hidem : ∀ (hw : H) (base pin : Nat) (d : gpio_dir),
      env.drv.GPIODirModeSet (env.drv.GPIODirModeSet hw base pin d) base pin d
        = env.drv.GPIODirModeSet hw base pin d)
    (hc : caller_id = s.client_id)
    (hsz : env.kos.kos_msg_payload_size msg.metadata = 4 * 2)
    (hsz2 : env.kos.kos_msg_payload_size msg2.metadata = 4 * 2)
    (hpin : t 0 ≤ 127) (ht0 : t2 0 = t 0) (ht1 : t2 1 = t 1) :
    (handle_configure_pin env s msg caller_id t).msg = kos_msg_new_status STATUS_OK
    ∧ (handle_configure_pin env (handle_configure_pin env s msg caller_id t).state msg2
          caller_id t2).msg = kos_msg_new_status STATUS_OK
    ∧ (handle_configure_pin env (handle_configure_pin env s msg caller_id t).state msg2
          caller_id t2).state = (handle_configure_pin env s msg caller_id t).state := by
  have h1 := gpio_configure_pin_accepted env s msg caller_id t hc hsz hpin
  have hp2 : t2 0 ≤ 127 := by rw [ht0]; exact hpin
  have hfin : (⟨t2 0 / 32, by omega⟩ : Fin 4) = ⟨t 0 / 32, by omega⟩ :=
    Fin.ext (by simp only [ht0])
  have h2 := gpio_configure_pin_accepted env
    { s with hw := (env.drv.GPIODirModeSet s.hw
        (env.gpio_controller_bases ⟨t 0 / 32, by omega⟩) (t 0 % 32)
        (if t 1 = 1 then gpio_dir.GPIO_DIR_OUTPUT else gpio_dir.GPIO_DIR_INPUT)) }
    msg2 caller_id t2 hc hsz2 hp2
  rw [h1]
  refine ⟨rfl, congrArg (fun o => o.msg) h2, ?_⟩
  refine (congrArg (fun o => o.state) h2).trans ?_
  simp only [hfin, ht0, ht1, hidem]

/-- The direction-set of the register stand-in is idempotent. -/
theorem gpio_regs_dir_mode_set_idem (hw : GpioRegs) (base pin : Nat) (d : gpio_dir) :
    regsDriver.GPIODirModeSet (regsDriver.GPIODirModeSet hw base pin d) base pin d
      = regsDriver.GPIODirModeSet hw base pin d := by
  simp only [regsDriver]
  congr 1
  funext b p
  split_ifs <;> rfl

end GpioServer

/-- C22: on the register stand-in of the GPIO controllers, for every pin in 0..127, every
mode and every starting state, two consecutive authorized, well-formed configure-pin
requests for that pin and mode both reply OK and leave the same server state, hardware
included, as the first alone.  The same holds for any register functions whose
direction-set, applied twice with the same arguments, has the effect of applying it
once. -/
theorem C22_configure_pin_twice_is_once {H : Type} (env : GpioServer.Env H)
    (s : GpioServer.State H) (kos : Kos) (bases : Fin 4 → Nat)
    (rs : GpioServer.State GpioServer.GpioRegs) (msg msg2 : kos_msg_t) (caller_id : Nat)
    (t t2 : Nat → Nat) (hc : caller_id = s.client_id) (hrc : caller_id = rs.client_id)
    (hsz : env.kos.kos_msg_payload_size msg.metadata = 4 * 2)
    (hsz2 : env.kos.kos_msg_payload_size msg2.metadata = 4 * 2)
    (hrsz : kos.kos_msg_payload_size msg.metadata = 4 * 2)
    (hrsz2 : kos.kos_msg_payload_size msg2.metadata = 4 * 2)
    (hpin : t 0 ≤ 127) (ht0 : t2 0 = t 0) (ht1 : t2 1 = t 1) :
    ((GpioServer.handle_configure_pin (GpioServer.regsEnv kos bases) rs msg caller_id t).msg
        = kos_msg_new_status STATUS_OK
      ∧ (GpioServer.handle_configure_pin (GpioServer.regsEnv kos bases)
            (GpioServer.handle_configure_pin (GpioServer.regsEnv kos bases) rs msg caller_id
              t).state msg2 caller_id t2).msg = kos_msg_new_status STATUS_OK
      ∧ (GpioServer.handle_configure_pin (GpioServer.regsEnv kos bases)
            (GpioServer.handle_configure_pin (GpioServer.regsEnv kos bases) rs msg caller_id
              t).state msg2 caller_id t2).state
          = (GpioServer.handle_configure_pin (GpioServer.regsEnv kos bases) rs msg caller_id
              t).state)
    ∧ ((∀ (hw : H) (base pin : Nat) (d : GpioServer.gpio_dir),
          env.drv.GPIODirModeSet (env.drv.GPIODirModeSet hw base pin d) base pin d
            = env.drv.GPIODirModeSet hw base pin d) →
        (GpioServer.handle_configure_pin env
            (GpioServer.handle_configure_pin env s msg caller_id t).state msg2 caller_id
            t2).state = (GpioServer.handle_configure_pin env s msg caller_id t).state) := by
  constructor
  · exact GpioServer.gpio_configure_pin_twice (GpioServer.regsEnv kos bases) rs msg msg2
      caller_id t t2 (fun hw base pin d => GpioServer.gpio_regs_dir_mode_set_idem hw base pin d)
      hrc hrsz hrsz2 hpin ht0 ht1
  · intro hidem
    exact (GpioServer.gpio_configure_pin_twice env s msg msg2 caller_id t t2 hidem hc hsz hsz2
      hpin ht0 ht1).2.2

/-- C22 on the sample register stand-in bound to client 7, after reset: client 7 configures
pin 77 as output twice; the direction of the line (controller 2, index 13) is output after
one request and after two. -/
theorem C22_configure_pin_twice_is_once_witness :
    (7 = Sample.gpioBound.client_id ∧ Sample.words 77 1 0 ≤ 127)
    ∧ (GpioServer.handle_configure_pin Sample.gpioRegsEnv
          (GpioServer.handle_configure_pin Sample.gpioRegsEnv
            { client_id := 7, hw := Sample.gpioRegs0 } ⟨1, 0, 8⟩ 7 (Sample.words 77 1)).state
          ⟨1, 0, 8⟩ 7 (Sample.words 77 1)).state
        = (GpioServer.handle_configure_pin Sample.gpioRegsEnv
            { client_id := 7, hw := Sample.gpioRegs0 } ⟨1, 0, 8⟩ 7 (Sample.words 77 1)).state
    ∧ (GpioServer.handle_configure_pin Sample.gpioRegsEnv
          { client_id := 7, hw := Sample.gpioRegs0 } ⟨1, 0, 8⟩ 7
          (Sample.words 77 1)).state.hw.dir 0x481ac000 13
        = GpioServer.gpio_dir.GPIO_DIR_OUTPUT :=
  ⟨⟨by decide, by decide⟩,
    (C22_configure_pin_twice_is_once Sample.gpioEnv Sample.gpioBound Sample.kos
      Sample.gpioBases { client_id := 7, hw := Sample.gpioRegs0 } ⟨1, 0, 8⟩ ⟨1, 0, 8⟩ 7
      (Sample.words 77 1) (Sample.words 77 1) (by decide) (by decide) (by decide) (by decide)
      (by decide) (by decide) (by decide) rfl rfl).1.2.2,
    by decide⟩

/-- C23: for every pin in 0..127 an authorized, well-formed configure-pin request replies
OK and makes exactly one call of `GPIODirModeSet`, on the base of controller `pin / 32`
with local index `pin % 32`: with direction output when the mode is 1 (`OUTPUT_MODE`), with
direction input when the mode is any other value, 0 (`INPUT_MODE`) included; no mode is
rejected.  On the register stand-in the direction of that line is the one requested and
the direction of every other line, hence (the four controllers having distinct bases) of
every other pin in 0..127, and all other registers are as before. -/
theorem C23_configure_pin_sets_one_direction {H : Type} (env : GpioServer.Env H)
    (s : GpioServer.State H) (kos : Kos) (bases : Fin 4 → Nat)
    (rs : GpioServer.State GpioServer.GpioRegs) (msg : kos_msg_t) (caller_id : Nat)
    (t : Nat → Nat) (hc : caller_id = s.client_id) (hrc : caller_id = rs.client_id)
    (hsz : env.kos.kos_msg_payload_size msg.metadata = 4 * 2)
    (hrsz : kos.kos_msg_payload_size msg.metadata = 4 * 2) (hpin : t 0 ≤ 127) :
    (GpioServer.INPUT_MODE = 0 ∧ GpioServer.OUTPUT_MODE = 1)
    ∧ (t 1 = 1 →
        GpioServer.handle_configure_pin env s msg caller_id t
          = ⟨kos_msg_new_status STATUS_OK, t,
              { s with hw := (env.drv.GPIODirModeSet s.hw
                  (env.gpio_controller_bases ⟨t 0 / 32, by omega⟩) (t 0 % 32)
                  GpioServer.gpio_dir.GPIO_DIR_OUTPUT) },
              [GpioServer.GpioCall.gpio_controller_bases (t 0 / 32),
               GpioServer.GpioCall.GPIODirModeSet
                 (env.gpio_controller_bases ⟨t 0 / 32, by omega⟩) (t 0 % 32)
                 GpioServer.gpio_dir.GPIO_DIR_OUTPUT]⟩)
    ∧ (t 1 ≠ 1 →
        GpioServer.handle_configure_pin env s msg caller_id t
          = ⟨kos_msg_new_status STATUS_OK, t,
              { s with hw := (env.drv.GPIODirModeSet s.hw
                  (env.gpio_controller_bases ⟨t 0 / 32, by omega⟩) (t 0 % 32)
                  GpioServer.gpio_dir.GPIO_DIR_INPUT) },
              [GpioServer.GpioCall.gpio_controller_bases (t 0 / 32),
               GpioServer.GpioCall.GPIODirModeSet
                 (env.gpio_controller_bases ⟨t 0 / 32, by omega⟩) (t 0 % 32)
                 GpioServer.gpio_dir.GPIO_DIR_INPUT]⟩)
    ∧ ((GpioServer.handle_configure_pin (GpioServer.regsEnv kos bases) rs msg caller_id
          t).state.hw.dir (bases ⟨t 0 / 32, by omega⟩) (t 0 % 32)
        = (if t 1 = 1 then GpioServer.gpio_dir.GPIO_DIR_OUTPUT
            else GpioServer.gpio_dir.GPIO_DIR_INPUT)
      ∧ (∀ b p : Nat, ¬ (b = bases ⟨t 0 / 32, by omega⟩ ∧ p = t 0 % 32) →
          (GpioServer.handle_configure_pin (GpioServer.regsEnv kos bases) rs msg caller_id
            t).state.hw.dir b p = rs.hw.dir b p)
      ∧ (Function.Injective bases → ∀ (q : Nat) (hq : q ≤ 127), q ≠ t 0 →
          (GpioServer.handle_configure_pin (GpioServer.regsEnv kos bases) rs msg caller_id
            t).state.hw.dir (bases ⟨q / 32, by omega⟩) (q % 32)
            = rs.hw.dir (bases ⟨q / 32, by omega⟩) (q % 32))
      ∧ (GpioServer.handle_configure_pin (GpioServer.regsEnv kos bases) rs msg caller_id
          t).state.hw.debounce = rs.hw.debounce
      ∧ (GpioServer.handle_configure_pin (GpioServer.regsEnv kos bases) rs msg caller_id
          t).state.hw.debounce_time = rs.hw.debounce_time
      ∧ (GpioServer.handle_configure_pin (GpioServer.regsEnv kos bases) rs msg caller_id
          t).state.hw.dataout = rs.hw.dataout
      ∧ (GpioServer.handle_configure_pin (GpioServer.regsEnv kos bases) rs msg caller_id
          t).state.hw.datain = rs.hw.datain
      ∧ (GpioServer.handle_configure_pin (GpioServer.regsEnv kos bases) rs msg caller_id
          t).state.client_id = rs.client_id) := by
  have h := GpioServer.gpio_configure_pin_accepted env s msg caller_id t hc hsz hpin
  have hr := GpioServer.gpio_configure_pin_accepted (GpioServer.regsEnv kos bases) rs msg
    caller_id t hrc hrsz hpin
  refine ⟨⟨rfl, rfl⟩, ?_, ?_, ?_⟩
  · intro hm
    rw [h]
    simp only [hm, if_true]
  · intro hm
    rw [h]
    simp only [hm, if_false]
  · rw [hr]
    refine ⟨?_, ?_, ?_, rfl, rfl, rfl, rfl, rfl⟩
    · simp [GpioServer.regsEnv, GpioServer.regsDriver]
    · intro b p hbp
      simp only [GpioServer.regsEnv, GpioServer.regsDriver]
      rw [if_neg hbp]
    · intro hinj q hq hne
      simp only [GpioServer.regsEnv, GpioServer.regsDriver]
      rw [if_neg]
      rintro ⟨hb, hp⟩
      have hfin := hinj hb
      have hdiv : q / 32 = t 0 / 32 := by
        simpa using congrArg Fin.val hfin
      omega

/-- C23 on the sample GPIO server bound to client 7: client 7 configures pin 77 with mode
1, and pin 77 with mode 5. -/
theorem C23_configure_pin_sets_one_direction_witness :
    (7 = Sample.gpioBound.client_id ∧ Sample.words 77 1 0 ≤ 127 ∧ Sample.words 77 5 1 ≠ 1)
    ∧ (GpioServer.handle_configure_pin Sample.gpioEnv Sample.gpioBound ⟨1, 0, 8⟩ 7
          (Sample.words 77 1)).calls
        = [GpioServer.GpioCall.gpio_controller_bases 2,
           GpioServer.GpioCall.GPIODirModeSet 0x481ac000 13
             GpioServer.gpio_dir.GPIO_DIR_OUTPUT]
    ∧ (GpioServer.handle_configure_pin Sample.gpioEnv Sample.gpioBound ⟨1, 0, 8⟩ 7
          (Sample.words 77 5)).calls
        = [GpioServer.GpioCall.gpio_controller_bases 2,
           GpioServer.GpioCall.GPIODirModeSet 0x481ac000 13
             GpioServer.gpio_dir.GPIO_DIR_INPUT] :=
  ⟨⟨by decide, by decide, by decide⟩,
    congrArg (fun o => o.calls)
      ((C23_configure_pin_sets_one_direction Sample.gpioEnv Sample.gpioBound Sample.kos
        Sample.gpioBases { client_id := 7, hw := Sample.gpioRegs0 } ⟨1, 0, 8⟩ 7
        (Sample.words 77 1) (by decide) (by decide) (by decide) (by decide)
        (by decide)).2.1 (by decide)),
    congrArg (fun o => o.calls)
      ((C23_configure_pin_sets_one_direction Sample.gpioEnv Sample.gpioBound Sample.kos
        Sample.gpioBases { client_id := 7, hw := Sample.gpioRegs0 } ⟨1, 0, 8⟩ 7
        (Sample.words 77 5) (by decide) (by decide) (by decide) (by decide)
        (by decide)).2.2.1 (by decide))⟩

/-! ### Operations before registration -/

/-- C24, what the unbound servers do for caller id 0.  `client_id` is 0 when the loop
starts, so the test `caller_id != client_id` lets a request with caller id 0 through: on
the sample servers a write of level 1 to pin 3 is answered OK and `GPIOPinWrite` is called,
and a set-frequency request is answered OK and the period and both compare registers are
programmed, while `client_id` stays 0.  The registration handler, by contrast, turns
caller id 0 away. -/
theorem C24_caller_zero_is_served_before_registration :
    ((GpioServer.State.initial ([] : List GpioServer.GpioCall)).client_id = 0
      ∧ (GpioServer.listen_step Sample.gpioEnv (GpioServer.State.initial [])
          ⟨⟨5, 0, 8⟩, 256, 0, Sample.words 3 1⟩).msg = kos_msg_new_status STATUS_OK
      ∧ (GpioServer.listen_step Sample.gpioEnv (GpioServer.State.initial [])
          ⟨⟨5, 0, 8⟩, 256, 0, Sample.words 3 1⟩).calls
          = [GpioServer.GpioCall.gpio_controller_bases 0,
             GpioServer.GpioCall.GPIOPinWrite 0x44e07000 3 1]
      ∧ (GpioServer.listen_step Sample.gpioEnv (GpioServer.State.initial [])
          ⟨⟨5, 0, 8⟩, 256, 0, Sample.words 3 1⟩).state.client_id = 0)
    ∧ ((PwmServer.State.initial ([] : List PwmServer.PwmCall)).client_id = 0
      ∧ (PwmServer.listen_step Sample.pwmEnv (PwmServer.State.initial [])
          ⟨⟨1, 0, 4⟩, 256, 0, Sample.words 1000 0⟩).msg = kos_msg_new_status STATUS_OK
      ∧ (PwmServer.listen_step Sample.pwmEnv (PwmServer.State.initial [])
          ⟨⟨1, 0, 4⟩, 256, 0, Sample.words 1000 0⟩).calls
          = [PwmServer.PwmCall.EHRPWMPWMOpFreqSet 0x48300200 100000000 1000,
             PwmServer.PwmCall.EHRPWMLoadCMPA 0x48300200 0,
             PwmServer.PwmCall.EHRPWMLoadCMPB 0x48300200 0]
      ∧ (PwmServer.listen_step Sample.pwmEnv (PwmServer.State.initial [])
          ⟨⟨1, 0, 4⟩, 256, 0, Sample.words 1000 0⟩).state.client_id = 0)
    ∧ (GpioServer.listen_step Sample.gpioEnv (GpioServer.State.initial [])
          ⟨⟨ALL_ONES, 0, 0⟩, 256, 0, Sample.words 0 0⟩).msg
        = kos_msg_new_status STATUS_BAD_REQUEST
    ∧ (GpioServer.listen_step Sample.gpioEnv (GpioServer.State.initial [])
          ⟨⟨5, 0, 8⟩, 256, 9, Sample.words 3 1⟩).msg
        = kos_msg_new_status STATUS_UNAUTHORIZED := by
  decide

/-! ### Monotonicity of the double-precision model -/

/-- Rounding to nearest never falls below an integer bound of the fraction. -/
theorem round_nearest_even_ge (a b k : Nat) (hb : 0 < b) (h : k * b ≤ a) :
    k ≤ round_nearest_even a b := by
  have hq : k ≤ a / b := (Nat.le_div_iff_mul_le hb).mpr h
  unfold round_nearest_even
  split_ifs <;> omega

/-- Rounding to nearest is monotone in the numerator. -/
theorem round_nearest_even_mono_num (a a2 b : Nat) (hb : 0 < b) (h : a ≤ a2) :
    round_nearest_even a b ≤ round_nearest_even a2 b := by
  have hq : a / b ≤ a2 / b := Nat.div_le_div_right h
  have h1 := Nat.div_add_mod a b
  have h2 := Nat.div_add_mod a2 b
  have hr1 : a % b < b := Nat.mod_lt a hb
  have hr2 : a2 % b < b := Nat.mod_lt a2 hb
  rcases Nat.lt_or_ge (a / b) (a2 / b) with hlt | hge
  · have hle : round_nearest_even a b ≤ a / b + 1 := by
      unfold round_nearest_even; split_ifs <;> omega
    have hge2 : a2 / b ≤ round_nearest_even a2 b := by
      unfold round_nearest_even; split_ifs <;> omega
    omega
  · have heq : a / b = a2 / b := le_antisymm hq hge
    have hrr : a % b ≤ a2 % b := by
      rw [heq] at h1
      have : b * (a2 / b) + a % b ≤ b * (a2 / b) + a2 % b := by omega
      omega
    unfold round_nearest_even
    rw [heq]
    split_ifs <;> omega

/-- Rounding to nearest depends on the fraction only. -/
theorem round_nearest_even_scale (a b c : Nat) (hc : 0 < c) :
    round_nearest_even (a * c) (b * c) = round_nearest_even a b := by
  unfold round_nearest_even
  rw [Nat.mul_div_mul_right a b hc, Nat.mul_mod_mul_right]
  have e1 : (2 * (a % b * c) < b * c) ↔ (2 * (a % b) < b) := by
    rw [← Nat.mul_assoc]
    exact Nat.mul_lt_mul_right hc
  have e2 : (b * c < 2 * (a % b * c)) ↔ (b < 2 * (a % b)) := by
    rw [← Nat.mul_assoc]
    exact Nat.mul_lt_mul_right hc
  simp only [e1, e2]

/-- Rounding to nearest is monotone in the fraction. -/
theorem round_nearest_even_mono (a b a2 b2 : Nat) (hb : 0 < b) (hb2 : 0 < b2)
    (h : a * b2 ≤ a2 * b) : round_nearest_even a b ≤ round_nearest_even a2 b2 := by
  rw [← round_nearest_even_scale a b b2 hb2, ← round_nearest_even_scale a2 b2 b hb,
    Nat.mul_comm b2 b]
  exact round_nearest_even_mono_num _ _ _ (Nat.mul_pos hb hb2) h

/-- A non-zero fraction below `2 ^ 52` is scaled up into `[2^52, 2^53)` before it is
rounded: the shape of `fl64` on such a fraction. -/
theorem fl64_scaled_up (n d : Nat) (hn : n ≠ 0) (hd : 0 < d) (h : n < 2 ^ 52 * d) :
    ∃ s : Nat, fl64 n d = ⟨round_nearest_even (n * 2 ^ s) d, s⟩ ∧
      2 ^ 52 * d ≤ n * 2 ^ s ∧ n * 2 ^ s < 2 ^ 53 * d := by
  have hnn := ilog2_spec n hn
  have hdd := ilog2_spec d (by omega)
  have hA : ilog2 n ≤ 52 + ilog2 d := by
    by_contra hcon
    have h1 : 52 + ilog2 d + 1 ≤ ilog2 n := by omega
    have hpw : 2 ^ (52 + ilog2 d + 1) ≤ 2 ^ ilog2 n := Nat.pow_le_pow_right (by decide) h1
    have e1 : 2 ^ (52 + ilog2 d + 1) = 2 ^ 52 * 2 ^ (ilog2 d + 1) := by
      rw [← Nat.pow_add, Nat.add_assoc]
    have hdl : 2 ^ 52 * d < 2 ^ 52 * 2 ^ (ilog2 d + 1) :=
      Nat.mul_lt_mul_of_pos_left hdd.2 (by positivity)
    omega
  have hup : n * 2 ^ (52 + ilog2 d - ilog2 n) < 2 ^ 53 * d := by
    have e1 : 2 ^ (ilog2 n + 1) * 2 ^ (52 + ilog2 d - ilog2 n) = 2 ^ 53 * 2 ^ ilog2 d := by
      rw [← Nat.pow_add, ← Nat.pow_add]; congr 1; omega
    have h1 : n * 2 ^ (52 + ilog2 d - ilog2 n)
        < 2 ^ (ilog2 n + 1) * 2 ^ (52 + ilog2 d - ilog2 n) :=
      Nat.mul_lt_mul_of_pos_right hnn.2 (by positivity)
    have h2 : 2 ^ 53 * 2 ^ ilog2 d ≤ 2 ^ 53 * d := Nat.mul_le_mul_left _ hdd.1
    omega
  have hlow : 2 ^ 52 * d < 2 * (n * 2 ^ (52 + ilog2 d - ilog2 n)) := by
    have e1 : 2 * (2 ^ ilog2 n * 2 ^ (52 + ilog2 d - ilog2 n)) = 2 ^ 52 * 2 ^ (ilog2 d + 1) := by
      rw [← Nat.pow_add, ← Nat.pow_add, ← Nat.pow_succ']; congr 1; omega
    have h1 : 2 ^ ilog2 n * 2 ^ (52 + ilog2 d - ilog2 n)
        ≤ n * 2 ^ (52 + ilog2 d - ilog2 n) := Nat.mul_le_mul_right _ hnn.1
    have h2 : 2 ^ 52 * d < 2 ^ 52 * 2 ^ (ilog2 d + 1) :=
      Nat.mul_lt_mul_of_pos_left hdd.2 (by positivity)
    omega
  simp only [fl64, if_neg hn, if_pos hA]
  split_ifs with h1
  · refine ⟨52 + ilog2 d - ilog2 n + 1, rfl, ?_, ?_⟩
    · have e : n * 2 ^ (52 + ilog2 d - ilog2 n + 1)
          = 2 * (n * 2 ^ (52 + ilog2 d - ilog2 n)) := by rw [Nat.pow_succ]; ring
      omega
    · have e : n * 2 ^ (52 + ilog2 d - ilog2 n + 1)
          = 2 * (n * 2 ^ (52 + ilog2 d - ilog2 n)) := by rw [Nat.pow_succ]; ring
      omega
  · exact ⟨52 + ilog2 d - ilog2 n, rfl, by omega, hup⟩

/-- Rounding to binary64 is monotone on fractions below `2 ^ 52`: if `n / d ≤ n2 / d2` then
the rounded values are in the same order. -/
theorem fl64_mono (n d n2 d2 : Nat) (hd : 0 < d) (hd2 : 0 < d2)
    (h : n < 2 ^ 52 * d) (h2 : n2 < 2 ^ 52 * d2) (hle : n * d2 ≤ n2 * d) :
    (fl64 n d).num * 2 ^ (fl64 n2 d2).exp ≤ (fl64 n2 d2).num * 2 ^ (fl64 n d).exp := by
  by_cases hn : n = 0
  · subst hn
    simp [fl64]
  have hn2 : n2 ≠ 0 := by
    intro h0
    subst h0
    have : n * d2 = 0 := by omega
    rcases Nat.mul_eq_zero.mp this with h1 | h1 <;> omega
  obtain ⟨s, hs, hlo, hhi⟩ := fl64_scaled_up n d hn hd h
  obtain ⟨s2, hs2, hlo2, hhi2⟩ := fl64_scaled_up n2 d2 hn2 hd2 h2
  rw [hs, hs2]
  show round_nearest_even (n * 2 ^ s) d * 2 ^ s2 ≤ round_nearest_even (n2 * 2 ^ s2) d2 * 2 ^ s
  have hss : s2 ≤ s := by
    by_contra hcon
    have h1 : s + 1 ≤ s2 := by omega
    have hp : 2 ^ (s + 1) ≤ 2 ^ s2 := Nat.pow_le_pow_right (by decide) h1
    -- n * 2^s2 * d2 ≤ n2 * 2^s2 * d < 2^53 * d2 * d
    have a1 : n * d2 * 2 ^ s2 ≤ n2 * d * 2 ^ s2 := Nat.mul_le_mul_right _ hle
    have a2 : n2 * 2 ^ s2 * d < 2 ^ 53 * d2 * d := Nat.mul_lt_mul_of_pos_right hhi2 hd
    have a3 : n * 2 ^ (s + 1) * d2 ≤ n * 2 ^ s2 * d2 :=
      Nat.mul_le_mul_right _ (Nat.mul_le_mul_left _ hp)
    have a4 : 2 ^ 52 * d * (2 * d2) ≤ n * 2 ^ s * (2 * d2) := Nat.mul_le_mul_right _ hlo
    have e1 : n * 2 ^ (s + 1) * d2 = n * 2 ^ s * (2 * d2) := by rw [Nat.pow_succ]; ring
    have e2 : n * 2 ^ s2 * d2 = n * d2 * 2 ^ s2 := by ring
    have e3 : n2 * d * 2 ^ s2 = n2 * 2 ^ s2 * d := by ring
    have e4 : 2 ^ 52 * d * (2 * d2) = 2 ^ 53 * d2 * d := by ring
    omega
  rcases Nat.eq_or_lt_of_le hss with heq | hlt
  · subst heq
    apply Nat.mul_le_mul_right
    apply round_nearest_even_mono _ _ _ _ hd hd2
    calc n * 2 ^ s2 * d2 = n * d2 * 2 ^ s2 := by ring
      _ ≤ n2 * d * 2 ^ s2 := Nat.mul_le_mul_right _ hle
      _ = n2 * 2 ^ s2 * d := by ring
  · have hm : round_nearest_even (n * 2 ^ s) d ≤ 2 ^ 53 :=
      round_nearest_even_le _ _ _ hd (le_of_lt hhi)
    have hm2 : 2 ^ 52 ≤ round_nearest_even (n2 * 2 ^ s2) d2 :=
      round_nearest_even_ge _ _ _ hd2 hlo2
    have hp : 2 ^ (s2 + 1) ≤ 2 ^ s := Nat.pow_le_pow_right (by decide) hlt
    calc round_nearest_even (n * 2 ^ s) d * 2 ^ s2 ≤ 2 ^ 53 * 2 ^ s2 :=
          Nat.mul_le_mul_right _ hm
      _ = 2 ^ 52 * 2 ^ (s2 + 1) := by rw [Nat.pow_succ]; ring
      _ ≤ 2 ^ 52 * 2 ^ s := Nat.mul_le_mul_left _ hp
      _ ≤ round_nearest_even (n2 * 2 ^ s2) d2 * 2 ^ s := Nat.mul_le_mul_right _ hm2

/-- Rounding to binary64 never falls below an integer bound of a fraction below
`2 ^ 52`. -/
theorem fl64_ge_of_ge (n d k : Nat) (hd : 0 < d) (h : n < 2 ^ 52 * d) (hk : k * d ≤ n) :
    k * 2 ^ (fl64 n d).exp ≤ (fl64 n d).num := by
  by_cases hn : n = 0
  · subst hn
    have : k = 0 := by
      rcases Nat.mul_eq_zero.mp (Nat.le_zero.mp hk) with h1 | h1 <;> omega
    subst this
    simp
  obtain ⟨s, hs, _, _⟩ := fl64_scaled_up n d hn hd h
  rw [hs]
  apply round_nearest_even_ge _ _ _ hd
  calc k * 2 ^ s * d = k * d * 2 ^ s := by ring
    _ ≤ n * 2 ^ s := Nat.mul_le_mul_right _ hk

/-- Integer division is monotone in the fraction. -/
theorem nat_div_mono_frac (a b a2 b2 : Nat) (hb : 0 < b) (hb2 : 0 < b2)
    (h : a * b2 ≤ a2 * b) : a / b ≤ a2 / b2 := by
  rw [Nat.le_div_iff_mul_le hb2]
  have h1 : a / b * b ≤ a := Nat.div_mul_le_self a b
  have h2 : a / b * b2 * b ≤ a2 * b := by
    calc a / b * b2 * b = a / b * b * b2 := by ring
      _ ≤ a * b2 := Nat.mul_le_mul_right _ h1
      _ ≤ a2 * b := h
  exact Nat.le_of_mul_le_mul_right h2 hb

namespace PwmServer

/-- The quotient `duty_cycle / 100.0` as computed in doubles is at most `m` when the duty
cycle is at most `100 * m`. -/
theorem pwm_duty_quotient_le (d m : Nat) (hd : d ≤ m * 100) (hm : m < 2 ^ 53) :
    (double_div (uint32_to_double d) double_100).num
      ≤ m * 2 ^ (double_div (uint32_to_double d) double_100).exp := by
  show (fl64 (d * 2 ^ 0) (100 * 2 ^ 0)).num ≤ m * 2 ^ (fl64 (d * 2 ^ 0) (100 * 2 ^ 0)).exp
  exact fl64_le_of_le (d * 2 ^ 0) (100 * 2 ^ 0) m (by norm_num) (by omega) hm

/-- The integer part of the computed product is monotone in the duty cycle up to 100
percent. -/
theorem pwm_integer_part_mono (f d d2 : Nat) (h : d ≤ d2) (h2 : d2 ≤ 100) :
    double_integer_part (counter_value_double f d)
      ≤ double_integer_part (counter_value_double f d2) := by
  have hpc : TB_CLK / f < 2 ^ 52 :=
    lt_of_le_of_lt (Nat.div_le_self _ _) (by decide)
  have hq := pwm_duty_quotient_le d 1 (by omega) (by norm_num)
  have hq2 := pwm_duty_quotient_le d2 1 (by omega) (by norm_num)
  have step1 : (double_div (uint32_to_double d) double_100).num
        * 2 ^ (double_div (uint32_to_double d2) double_100).exp
      ≤ (double_div (uint32_to_double d2) double_100).num
        * 2 ^ (double_div (uint32_to_double d) double_100).exp :=
    fl64_mono (d * 2 ^ 0) (100 * 2 ^ 0) (d2 * 2 ^ 0) (100 * 2 ^ 0) (by norm_num)
      (by norm_num) (by omega) (by omega) (by omega)
  show double_integer_part (double_mul (double_div (uint32_to_double d) double_100)
      (uint32_to_double (TB_CLK / f)))
    ≤ double_integer_part (double_mul (double_div (uint32_to_double d2) double_100)
      (uint32_to_double (TB_CLK / f)))
  generalize double_div (uint32_to_double d) double_100 = q at hq step1 ⊢
  generalize double_div (uint32_to_double d2) double_100 = q2 at hq2 step1 ⊢
  have hlt : ∀ x : Double64, x.num ≤ 1 * 2 ^ x.exp →
      x.num * (TB_CLK / f) < 2 ^ 52 * 2 ^ (x.exp + 0) := by
    intro x hx
    rw [Nat.add_zero]
    have hpos : 0 < 2 ^ x.exp := by positivity
    calc x.num * (TB_CLK / f) ≤ 1 * 2 ^ x.exp * (TB_CLK / f) := Nat.mul_le_mul_right _ hx
      _ = (TB_CLK / f) * 2 ^ x.exp := by ring
      _ < 2 ^ 52 * 2 ^ x.exp := Nat.mul_lt_mul_of_pos_right hpc hpos
  have step2 := fl64_mono (q.num * (TB_CLK / f)) (2 ^ (q.exp + 0))
    (q2.num * (TB_CLK / f)) (2 ^ (q2.exp + 0)) (by positivity) (by positivity)
    (hlt q hq) (hlt q2 hq2)
    (by
      rw [Nat.add_zero, Nat.add_zero]
      calc q.num * (TB_CLK / f) * 2 ^ q2.exp = q.num * 2 ^ q2.exp * (TB_CLK / f) := by ring
        _ ≤ q2.num * 2 ^ q.exp * (TB_CLK / f) := Nat.mul_le_mul_right _ step1
        _ = q2.num * (TB_CLK / f) * 2 ^ q.exp := by ring)
  unfold double_integer_part
  exact nat_div_mono_frac _ _ _ _ (by positivity) (by positivity) step2

/-- The computed threshold is monotone in the duty cycle up to 100 percent. -/
theorem pwm_counter_value_mono (f d d2 : Nat) (h : d ≤ d2) (h2 : d2 ≤ 100) :
    counter_value f d ≤ counter_value f d2 := by
  rw [pwm_counter_value_of_fits f d (pwm_fits_of_le_100 f d (by omega)),
    pwm_counter_value_of_fits f d2 (pwm_fits_of_le_100 f d2 h2)]
  exact pwm_integer_part_mono f d d2 h h2

/-- A duty cycle of at most 100 percent never makes the conversion overflow: the checked
computation returns the threshold for every non-zero frequency. -/
theorem pwm_counter_value_checked_some (f d : Nat) (hf : f ≠ 0) (hd : d ≤ 100) :
    counter_value_checked f d = some (counter_value f d) :=
  pwm_counter_value_checked_of_fits f d hf (pwm_fits_of_le_100 f d hd)

end PwmServer

/-- Rounding to nearest is within one half of the fraction from below. -/
theorem round_nearest_even_lower (a b : Nat) (hb : 0 < b) :
    2 * a ≤ 2 * round_nearest_even a b * b + b := by
  have hdm := Nat.div_add_mod a b
  have hr : a % b < b := Nat.mod_lt a hb
  have e1 : 2 * (a / b) * b = 2 * (b * (a / b)) := by ring
  have e2 : 2 * (a / b + 1) * b = 2 * (b * (a / b)) + 2 * b := by ring
  unfold round_nearest_even
  split_ifs <;> omega

namespace PwmServer

/-- The shape of `duty_cycle / 100.0` for a non-zero 32-bit duty cycle: the quotient is
scaled by a power of two into `[2^52, 2^53)` and rounded there. -/
theorem pwm_duty_quotient_shape (d : Nat) (hd0 : d ≠ 0) (hd : d < 2 ^ 32) :
    ∃ s : Nat, double_div (uint32_to_double d) double_100
        = ⟨round_nearest_even (d * 2 ^ s) 100, s⟩ ∧ 2 ^ 52 * 100 ≤ d * 2 ^ s := by
  obtain ⟨s, hs, hlo, _⟩ := fl64_scaled_up (d * 2 ^ 0) (100 * 2 ^ 0) (by omega) (by norm_num)
    (by omega)
  refine ⟨s, ?_, ?_⟩
  · show fl64 (d * 2 ^ 0) (100 * 2 ^ 0) = _
    rw [hs]
    simp
  · simpa using hlo

/-- Whenever the exact product `duty_cycle / 100 * period_count` is above `2 ^ 32`, so is
the integer part of the product computed in doubles. -/
theorem pwm_threshold_overflow_strict (pc d : Nat) (hpc : pc ≤ 100000000) (hd : d < 2 ^ 32)
    (h : 100 * 2 ^ 32 < d * pc) :
    2 ^ 32 ≤ double_integer_part
      (double_mul (double_div (uint32_to_double d) double_100) (uint32_to_double pc)) := by
  have hd0 : d ≠ 0 := by
    intro h0; subst h0; simp at h
  obtain ⟨s, hq, hlo⟩ := pwm_duty_quotient_shape d hd0 hd
  rw [hq]
  have hlow := round_nearest_even_lower (d * 2 ^ s) 100 (by norm_num)
  have hup : round_nearest_even (d * 2 ^ s) 100 ≤ 42949673 * 2 ^ s :=
    round_nearest_even_le _ _ _ (by norm_num) (by
      calc d * 2 ^ s ≤ 4294967300 * 2 ^ s := Nat.mul_le_mul_right _ (by omega)
        _ = 42949673 * 2 ^ s * 100 := by ring)
  have hX : 0 < 2 ^ s := by positivity
  generalize round_nearest_even (d * 2 ^ s) 100 = m at hlow hup ⊢
  generalize hXe : 2 ^ s = X at hlo hlow hup hX
  obtain ⟨E, hE⟩ := Nat.exists_eq_add_of_lt h
  have k1 : 50 * (d * pc) ≤ (E + 1) * (2 ^ 52 * 100) := by
    rw [hE]; omega
  have k2 : (E + 1) * (2 ^ 52 * 100) ≤ (E + 1) * (d * X) := Nat.mul_le_mul_left _ hlo
  have k3 : 50 * pc ≤ (E + 1) * X := by
    have : 50 * pc * d ≤ (E + 1) * X * d := by
      calc 50 * pc * d = 50 * (d * pc) := by ring
        _ ≤ (E + 1) * (d * X) := le_trans k1 k2
        _ = (E + 1) * X * d := by ring
    exact Nat.le_of_mul_le_mul_right this (Nat.pos_of_ne_zero hd0)
  have k4 : d * X * pc = 100 * 2 ^ 32 * X + (E + 1) * X := by
    calc d * X * pc = d * pc * X := by ring
      _ = (100 * 2 ^ 32 + E + 1) * X := by rw [hE]
      _ = 100 * 2 ^ 32 * X + (E + 1) * X := by ring
  have k5 : 2 * (d * X) * pc ≤ (2 * m * 100 + 100) * pc := Nat.mul_le_mul_right _ hlow
  have k6 : 2 * (d * X) * pc = 2 * (d * X * pc) := by ring
  have k7 : (2 * m * 100 + 100) * pc = 200 * (m * pc) + 100 * pc := by ring
  have main : 2 ^ 32 * X ≤ m * pc := by omega
  have hbound : m * pc < 2 ^ 52 * X := by
    calc m * pc ≤ 42949673 * X * 100000000 := Nat.mul_le_mul hup hpc
      _ = 4294967300000000 * X := by ring
      _ < 2 ^ 52 * X := Nat.mul_lt_mul_of_pos_right (by norm_num) hX
  subst hXe
  show 2 ^ 32 ≤ (fl64 (m * pc) (2 ^ (s + 0))).num / 2 ^ (fl64 (m * pc) (2 ^ (s + 0))).exp
  rw [Nat.le_div_iff_mul_le (by positivity)]
  exact fl64_ge_of_ge (m * pc) (2 ^ (s + 0)) (2 ^ 32) (by positivity)
    (by rw [Nat.add_zero]; exact hbound) (by rw [Nat.add_zero]; exact main)

/-- Whenever the exact product `duty_cycle / 100 * period_count` is exactly `2 ^ 32`, the
product computed in doubles is `2 ^ 32` or more as well. -/
theorem pwm_threshold_overflow_exact (pc d : Nat) (hpc : pc ≤ 100000000) (hd : d < 2 ^ 32)
    (h : d * pc = 100 * 2 ^ 32) :
    2 ^ 32 ≤ double_integer_part
      (double_mul (double_div (uint32_to_double d) double_100) (uint32_to_double pc)) := by
  have hdvd : pc ∣ 2 ^ 34 * 5 ^ 2 := ⟨d, by rw [Nat.mul_comm pc d, h]; norm_num⟩
  obtain ⟨k1, k2, hk1, hk2, hk⟩ := (Nat.dvd_mul).mp hdvd
  obtain ⟨a, ha, rfl⟩ := (Nat.dvd_prime_pow Nat.prime_two).mp hk1
  obtain ⟨b, hb, rfl⟩ := (Nat.dvd_prime_pow Nat.prime_five).mp hk2
  have hdeq : d = 100 * 2 ^ 32 / pc :=
    (Nat.div_eq_of_eq_mul_left (by rw [← hk]; positivity) h.symm).symm
  interval_cases a <;> interval_cases b <;> norm_num at hk <;> subst hk <;>
    norm_num at hdeq <;>
    first
    | omega
    | (subst hdeq; decide)

end PwmServer

/-! ### Range and monotonicity of the compare threshold -/

/-- C26: at a current frequency `f ≥ 1` and a duty cycle `d ≤ 100`,
`calc_and_set_counter_values` loads `counter_value f d` into the compare register of the
channel; the period count `100000000 / f` is 0 when `f > 100000000`; the threshold is at
most the period count, which is at most `100000000 < 2 ^ 32`, so the conversion to
`uint32_t` is defined and the checked computation returns the same result; the threshold
does not decrease when the duty cycle grows up to 100.  For a 32-bit duty cycle `d2` with
`d2 / 100 * periodCount ≥ 2 ^ 32` the integer part of the computed product is `2 ^ 32` or
more, so the conversion is not defined; at `f = 1` and `d2 = 2 ^ 32 - 1` that integer part
is 4294967295000000. -/
theorem C26_threshold_bounded_and_monotone {H : Type} (env : PwmServer.Env H)
    (s : PwmServer.State H) (f d : Nat) (hs : s.curr_freq = f) (hf : 1 ≤ f)
    (hd : d ≤ 100) :
    ((PwmServer.calc_and_set_counter_values env s PwmServer.PIN_A d).2
        = [PwmServer.PwmCall.EHRPWMLoadCMPA env.pwm_controller_base
            (PwmServer.counter_value f d)]
      ∧ (PwmServer.calc_and_set_counter_values env s PwmServer.PIN_B d).2
        = [PwmServer.PwmCall.EHRPWMLoadCMPB env.pwm_controller_base
            (PwmServer.counter_value f d)])
    ∧ (PwmServer.TB_CLK = 100000000
      ∧ (100000000 < f → PwmServer.TB_CLK / f = 0))
    ∧ (PwmServer.counter_value f d
          = double_integer_part (PwmServer.counter_value_double f d)
      ∧ PwmServer.counter_value f d ≤ PwmServer.TB_CLK / f
      ∧ PwmServer.TB_CLK / f ≤ 100000000
      ∧ 100000000 < 2 ^ 32)
    ∧ (PwmServer.counter_value_checked f d = some (PwmServer.counter_value f d)
      ∧ PwmServer.calc_and_set_counter_values_checked env s PwmServer.PIN_A d
        = some (PwmServer.calc_and_set_counter_values env s PwmServer.PIN_A d)
      ∧ PwmServer.calc_and_set_counter_values_checked env s PwmServer.PIN_B d
        = some (PwmServer.calc_and_set_counter_values env s PwmServer.PIN_B d))
    ∧ (∀ d2 : Nat, d ≤ d2 → d2 ≤ 100 →
        PwmServer.counter_value f d ≤ PwmServer.counter_value f d2)
    ∧ (∀ d2 : Nat, d2 < 2 ^ 32 → 100 * 2 ^ 32 ≤ d2 * (PwmServer.TB_CLK / f) →
        2 ^ 32 ≤ double_integer_part (PwmServer.counter_value_double f d2)
        ∧ PwmServer.counter_value_checked f d2 = none
        ∧ PwmServer.calc_and_set_counter_values_checked env s PwmServer.PIN_A d2 = none
        ∧ PwmServer.calc_and_set_counter_values_checked env s PwmServer.PIN_B d2 = none)
    ∧ (double_integer_part (PwmServer.counter_value_double 1 (2 ^ 32 - 1))
          = 4294967295000000
      ∧ PwmServer.counter_value_checked 1 (2 ^ 32 - 1) = none) := by
  subst hs
  have hf0 : s.curr_freq ≠ 0 := by omega
  have hcalc := PwmServer.pwm_calc_at_nonzero_freq env s d hf0
  have hle : PwmServer.TB_CLK / s.curr_freq ≤ 100000000 := Nat.div_le_self _ _
  have hsome := PwmServer.pwm_counter_value_checked_some s.curr_freq d hf0 hd
  refine ⟨⟨by rw [hcalc.1], by rw [hcalc.2]⟩, ⟨rfl, ?_⟩,
    ⟨PwmServer.pwm_counter_value_of_fits _ d (PwmServer.pwm_fits_of_le_100 _ d hd),
      PwmServer.pwm_counter_value_le_period _ d hd, hle, by norm_num⟩, ⟨hsome, ?_, ?_⟩,
    fun d2 h1 h2 => PwmServer.pwm_counter_value_mono _ d d2 h1 h2, ?_, by decide⟩
  · intro hgt
    exact Nat.div_eq_of_lt hgt
  · rw [hcalc.1]
    simp [PwmServer.calc_and_set_counter_values_checked, hf0, hsome]
  · rw [hcalc.2]
    simp [PwmServer.calc_and_set_counter_values_checked, hf0, hsome, PwmServer.PIN_A,
      PwmServer.PIN_B]
  · intro d2 hd2 hprod
    have hge : 2 ^ 32 ≤ double_integer_part (PwmServer.counter_value_double s.curr_freq d2) := by
      rcases Nat.eq_or_lt_of_le hprod with heq | hlt
      · exact PwmServer.pwm_threshold_overflow_exact _ d2 hle hd2 heq.symm
      · exact PwmServer.pwm_threshold_overflow_strict _ d2 hle hd2 hlt
    have hnone : PwmServer.counter_value_checked s.curr_freq d2 = none :=
      PwmServer.pwm_counter_value_checked_none _ d2 hge
    refine ⟨hge, hnone, ?_, ?_⟩
    · simp [PwmServer.calc_and_set_counter_values_checked, hf0, hnone]
    · simp [PwmServer.calc_and_set_counter_values_checked, hf0, hnone]

/-- C26 on the sample server bound at 1000 Hz: the period count is 100000, 50 percent gives
the threshold 50000, the checked computation agrees, 75 percent gives no less, and for a
duty cycle of 4294967295 the checked computation has no result. -/
theorem C26_threshold_bounded_and_monotone_witness :
    (Sample.pwmBound.curr_freq = 1000 ∧ 1 ≤ 1000 ∧ 50 ≤ 100)
    ∧ (PwmServer.calc_and_set_counter_values Sample.pwmEnv Sample.pwmBound PwmServer.PIN_A
          50).2
        = [PwmServer.PwmCall.EHRPWMLoadCMPA 0x48300200 50000]
    ∧ PwmServer.counter_value 1000 50 ≤ 100000
    ∧ PwmServer.counter_value_checked 1000 50 = some 50000
    ∧ PwmServer.counter_value 1000 50 ≤ PwmServer.counter_value 1000 75
    ∧ PwmServer.counter_value_checked 1000 4294967295 = none :=
  have h := C26_threshold_bounded_and_monotone Sample.pwmEnv Sample.pwmBound 1000 50
    (by decide) (by decide) (by decide)
  ⟨⟨by decide, by decide, by decide⟩, h.1.1.trans (by decide),
    le_trans h.2.2.1.2.1 (by decide), h.2.2.2.1.1.trans (by decide),
    h.2.2.2.2.1 75 (by decide) (by decide),
    (h.2.2.2.2.2.1 4294967295 (by decide) (by decide)).2.1⟩

/-! ### The computation with its undefined cases made explicit, against the handlers -/

namespace PwmServer

/-- The checked `calc_and_set_counter_values` has no result exactly when the current
frequency is non-zero and the integer part of the product is `2 ^ 32` or more; otherwise it
returns what `calc_and_set_counter_values` returns. -/
theorem pwm_calc_checked_eq {H : Type} (env : Env H) (s : State H) (pin d : Nat) :
    calc_and_set_counter_values_checked env s pin d
      = if s.curr_freq ≠ 0 ∧ 2 ^ 32 ≤ double_integer_part (counter_value_double s.curr_freq d)
        then none
        else some (calc_and_set_counter_values env s pin d) := by
  by_cases hf : s.curr_freq = 0
  · simp [calc_and_set_counter_values_checked, calc_and_set_counter_values, hf]
  · by_cases hfit : double_integer_part (counter_value_double s.curr_freq d) < 2 ^ 32
    · have hcv := pwm_counter_value_checked_of_fits s.curr_freq d hf hfit
      rw [if_neg (by omega)]
      simp only [calc_and_set_counter_values_checked, calc_and_set_counter_values, if_neg hf,
        hcv]
      split_ifs <;> rfl
    · have hcv := pwm_counter_value_checked_none s.curr_freq d (by omega)
      rw [if_pos ⟨hf, by omega⟩]
      simp only [calc_and_set_counter_values_checked, if_neg hf, hcv]

/-- The checked set-duty-cycle handler has no result exactly when the request is accepted,
the current frequency is non-zero and the integer part of the product is `2 ^ 32` or more;
otherwise it returns what the handler returns. -/
theorem pwm_set_duty_cycle_checked_eq {H : Type} (env : Env H) (s : State H)
    (msg : kos_msg_t) (caller_id : Nat) (transport : Nat → Nat) :
    handle_set_pwm_duty_cycle_checked env s msg caller_id transport
      = if caller_id = s.client_id ∧ env.kos.kos_msg_payload_size msg.metadata = 4 * 2
            ∧ s.curr_freq ≠ 0
            ∧ 2 ^ 32 ≤ double_integer_part (counter_value_double s.curr_freq (transport 1))
        then none
        else some (handle_set_pwm_duty_cycle env s msg caller_id transport) := by
  simp only [handle_set_pwm_duty_cycle_checked, handle_set_pwm_duty_cycle, sizeof_uint32_t,
    SET_PWM_DUTY_CYCLE_ARGS, pwm_calc_checked_eq]
  generalize (2 : Nat) ^ 32 = B
  by_cases hc : caller_id = s.client_id
  · by_cases hsz : env.kos.kos_msg_payload_size msg.metadata = 4 * 2
    · by_cases hu : s.curr_freq ≠ 0
          ∧ B ≤ double_integer_part (counter_value_double s.curr_freq (transport 1))
      · have hu2 : caller_id = s.client_id
            ∧ env.kos.kos_msg_payload_size msg.metadata = 4 * 2 ∧ s.curr_freq ≠ 0
            ∧ B ≤ double_integer_part
                (counter_value_double s.curr_freq (transport 1)) := ⟨hc, hsz, hu.1, hu.2⟩
        rw [if_pos hu2]
        simp only [hc, hsz, ne_eq, not_true_eq_false, if_false, if_pos hu]
        split_ifs <;> rfl
      · have hu2 : ¬ (caller_id = s.client_id
            ∧ env.kos.kos_msg_payload_size msg.metadata = 4 * 2 ∧ s.curr_freq ≠ 0
            ∧ B ≤ double_integer_part
                (counter_value_double s.curr_freq (transport 1))) :=
          fun h => hu ⟨h.2.2.1, h.2.2.2⟩
        rw [if_neg hu2]
        simp only [hc, hsz, ne_eq, not_true_eq_false, if_false, if_neg hu]
        split_ifs <;> rfl
    · simp [hc, hsz]
  · simp [hc]

/-- The checked set-frequency handler has no result exactly when the request is accepted,
the new frequency is non-zero and the integer part of the product of one of the cached
duty cycles is `2 ^ 32` or more; otherwise it returns what the handler returns. -/
theorem pwm_set_frequency_checked_eq {H : Type} (env : Env H) (s : State H)
    (msg : kos_msg_t) (caller_id : Nat) (transport : Nat → Nat) :
    handle_set_pwm_frequency_checked env s msg caller_id transport
      = if caller_id = s.client_id ∧ env.kos.kos_msg_payload_size msg.metadata = 4 * 1
            ∧ transport 0 ≠ 0
            ∧ (2 ^ 32 ≤ double_integer_part
                  (counter_value_double (transport 0) s.curr_pin_duty_cycle.1)
              ∨ 2 ^ 32 ≤ double_integer_part
                  (counter_value_double (transport 0) s.curr_pin_duty_cycle.2))
        then none
        else some (handle_set_pwm_frequency env s msg caller_id transport) := by
  simp only [handle_set_pwm_frequency_checked, handle_set_pwm_frequency, sizeof_uint32_t,
    SET_PWM_FREQUENCY_ARGS, pwm_calc_checked_eq,
    (pwm_calc_and_set_counter_values_fields env _ _ _).2.1,
    (pwm_calc_and_set_counter_values_fields env _ _ _).2.2]
  generalize (2 : Nat) ^ 32 = B
  by_cases hc : caller_id = s.client_id
  · by_cases hsz : env.kos.kos_msg_payload_size msg.metadata = 4 * 1
    · by_cases hf : transport 0 = 0
      · simp [hc, hsz, hf, (pwm_calc_and_set_counter_values_fields env _ _ _).2.1,
            (pwm_calc_and_set_counter_values_fields env _ _ _).2.2]
      · by_cases hA : B ≤ double_integer_part
            (counter_value_double (transport 0) s.curr_pin_duty_cycle.1)
        · simp [hc, hsz, hf, hA, (pwm_calc_and_set_counter_values_fields env _ _ _).2.1,
            (pwm_calc_and_set_counter_values_fields env _ _ _).2.2]
        · by_cases hB : B ≤ double_integer_part
              (counter_value_double (transport 0) s.curr_pin_duty_cycle.2)
          · simp [hc, hsz, hf, hA, hB, (pwm_calc_and_set_counter_values_fields env _ _ _).2.1,
            (pwm_calc_and_set_counter_values_fields env _ _ _).2.2]
          · simp [hc, hsz, hf, hA, hB, (pwm_calc_and_set_counter_values_fields env _ _ _).2.1,
            (pwm_calc_and_set_counter_values_fields env _ _ _).2.2]
    · simp [hc, hsz]
  · simp [hc]

end PwmServer

/-- Rounding to nearest is within one half of the fraction from above. -/
theorem round_nearest_even_upper (a b : Nat) (hb : 0 < b) :
    2 * round_nearest_even a b * b ≤ 2 * a + b := by
  have hdm := Nat.div_add_mod a b
  have hr : a % b < b := Nat.mod_lt a hb
  have e1 : 2 * (a / b) * b = 2 * (b * (a / b)) := by ring
  have e2 : 2 * (a / b + 1) * b = 2 * (b * (a / b)) + 2 * b := by ring
  unfold round_nearest_even
  split_ifs <;> omega

/-- Rounding to binary64 never passes a bound `m / 2 ^ k` with `m < 2 ^ 53` of a fraction
below `2 ^ 52`. -/
theorem fl64_le_of_le_dyadic (n d m k : Nat) (hd : 0 < d) (h : n < 2 ^ 52 * d)
    (hle : n * 2 ^ k ≤ m * d) (hm : m < 2 ^ 53) :
    (fl64 n d).num * 2 ^ k ≤ m * 2 ^ (fl64 n d).exp := by
  by_cases hn : n = 0
  · subst hn
    simp [fl64]
  obtain ⟨s, hs, hlo, hhi⟩ := fl64_scaled_up n d hn hd h
  rw [hs]
  show round_nearest_even (n * 2 ^ s) d * 2 ^ k ≤ m * 2 ^ s
  have hks : k ≤ s := by
    by_contra hcon
    have h1 : s + 1 ≤ k := by omega
    have hp : 2 ^ (s + 1) ≤ 2 ^ k := Nat.pow_le_pow_right (by decide) h1
    have a1 : n * 2 ^ (s + 1) ≤ n * 2 ^ k := Nat.mul_le_mul_left _ hp
    have a2 : n * 2 ^ (s + 1) = 2 * (n * 2 ^ s) := by rw [Nat.pow_succ]; ring
    have a3 : m * d < 2 ^ 53 * d := Nat.mul_lt_mul_of_pos_right hm hd
    have a4 : 2 ^ 53 * d = 2 * (2 ^ 52 * d) := by ring
    omega
  obtain ⟨j, rfl⟩ := Nat.exists_eq_add_of_le hks
  have hr : round_nearest_even (n * 2 ^ (k + j)) d ≤ m * 2 ^ j :=
    round_nearest_even_le _ _ _ hd (by
      calc n * 2 ^ (k + j) = n * 2 ^ k * 2 ^ j := by rw [Nat.pow_add]; ring
        _ ≤ m * d * 2 ^ j := Nat.mul_le_mul_right _ hle
        _ = m * 2 ^ j * d := by ring)
  calc round_nearest_even (n * 2 ^ (k + j)) d * 2 ^ k ≤ m * 2 ^ j * 2 ^ k :=
        Nat.mul_le_mul_right _ hr
    _ = m * 2 ^ (k + j) := by rw [Nat.pow_add]; ring

namespace PwmServer

/-- Whenever the exact product `duty_cycle / 100 * period_count` of a 32-bit duty cycle and
a period count is below `2 ^ 32`, so is the integer part of the product computed in
doubles: the conversion to `uint32_t` is defined. -/
theorem pwm_threshold_fits (pc d : Nat) (hd : d < 2 ^ 32) (h : d * pc < 100 * 2 ^ 32) :
    double_integer_part
      (double_mul (double_div (uint32_to_double d) double_100) (uint32_to_double pc))
      < 2 ^ 32 := by
  by_cases hd0 : d = 0
  · subst hd0
    simp [double_div, double_mul, uint32_to_double, double_100, fl64, double_integer_part]
  obtain ⟨s, hq, hlo⟩ := pwm_duty_quotient_shape d hd0 hd
  rw [hq]
  have hupp := round_nearest_even_upper (d * 2 ^ s) 100 (by norm_num)
  have hX : 0 < 2 ^ s := by positivity
  generalize round_nearest_even (d * 2 ^ s) 100 = m at hupp ⊢
  generalize hXe : 2 ^ s = X at hlo hupp hX
  have k1 : 2 * m * 100 * pc ≤ (2 * (d * X) + 100) * pc := Nat.mul_le_mul_right _ hupp
  have k2 : 2 * m * 100 * pc = 200 * (m * pc) := by ring
  have k3 : (2 * (d * X) + 100) * pc = 2 * (d * pc * X) + 100 * pc := by ring
  have k4 : d * pc * X ≤ (100 * 2 ^ 32 - 1) * X := Nat.mul_le_mul_right _ (by omega)
  have k5 : (100 * 2 ^ 32 - 1) * X = 429496729599 * X := by norm_num
  have k6 : 2 ^ 52 * 100 * pc ≤ d * X * pc := Nat.mul_le_mul_right _ hlo
  have k7 : d * X * pc = d * pc * X := by ring
  have k8 : 2 ^ 52 * 100 * pc = 450359962737049600 * pc := by norm_num
  have main : m * pc * 2 ^ 21 ≤ (2 ^ 53 - 1) * X := by
    have e1 : m * pc * 2 ^ 21 = 2097152 * (m * pc) := by norm_num; ring
    have e2 : (2 ^ 53 - 1) * X = 9007199254740991 * X := by norm_num
    omega
  have hbound : m * pc < 2 ^ 52 * X := by
    have e1 : m * pc * 2 ^ 21 = 2097152 * (m * pc) := by norm_num; ring
    have e2 : (2 ^ 53 - 1) * X = 9007199254740991 * X := by norm_num
    have e3 : 2 ^ 52 * X = 4503599627370496 * X := by norm_num
    omega
  subst hXe
  show (fl64 (m * pc) (2 ^ (s + 0))).num / 2 ^ (fl64 (m * pc) (2 ^ (s + 0))).exp < 2 ^ 32
  have hr := fl64_le_of_le_dyadic (m * pc) (2 ^ (s + 0)) (2 ^ 53 - 1) 21 (by positivity)
    (by rw [Nat.add_zero]; exact hbound) (by rw [Nat.add_zero]; exact main) (by norm_num)
  rw [Nat.div_lt_iff_lt_mul (by positivity)]
  have hpos : 0 < 2 ^ (fl64 (m * pc) (2 ^ (s + 0))).exp := by positivity
  generalize (fl64 (m * pc) (2 ^ (s + 0))).num = a at hr ⊢
  generalize 2 ^ (fl64 (m * pc) (2 ^ (s + 0))).exp = e at hr hpos ⊢
  have e1 : a * 2 ^ 21 = 2097152 * a := by norm_num; ring
  have e2 : (2 ^ 53 - 1) * e = 9007199254740991 * e := by norm_num
  have e3 : 2 ^ 32 * e = 4294967296 * e := by norm_num
  omega

/-- Whenever `duty_cycle * period_count < 100 * 2 ^ 32` for a 32-bit duty cycle, the
conversion in `counter_value` is defined. -/
theorem pwm_fits_of_product_lt (f d : Nat) (hd : d < 2 ^ 32)
    (h : d * (TB_CLK / f) < 100 * 2 ^ 32) :
    double_integer_part (counter_value_double f d) < 2 ^ 32 :=
  pwm_threshold_fits (TB_CLK / f) d hd h

/-- An iteration of the checked loop that has a result has the result of the loop
iteration. -/
theorem pwm_listen_step_checked_some {H : Type} (env : Env H) (s : State H) (inc : Incoming)
    (o : Outcome (State H) PwmCall) (h : listen_step_checked env s inc = some o) :
    o = listen_step env s inc := by
  simp only [listen_step_checked] at h
  simp only [listen_step]
  split_ifs at h ⊢ with hb hl1 hl2 hl3
  · exact (Option.some.inj h).symm
  · exact (Option.some.inj h).symm
  · rw [pwm_set_frequency_checked_eq] at h
    split_ifs at h
    exact (Option.some.inj h).symm
  · rw [pwm_set_duty_cycle_checked_eq] at h
    split_ifs at h
    exact (Option.some.inj h).symm
  · exact (Option.some.inj h).symm

/-- A run of the checked loop that has a result has the result of the loop. -/
theorem pwm_listen_thread_fn_checked_some {H : Type} (env : Env H) (msgs : List Incoming) :
    ∀ (s : State H) (os : List (Outcome (State H) PwmCall)),
      listen_thread_fn_checked env s msgs = some os → os = listen_thread_fn env s msgs := by
  induction msgs with
  | nil =>
    intro s os h
    exact (Option.some.inj h).symm
  | cons i r ih =>
    intro s os h
    simp only [listen_thread_fn_checked] at h
    cases hstep : listen_step_checked env s i with
    | none => simp only [hstep] at h; exact absurd h (by simp)
    | some o =>
      simp only [hstep] at h
      have ho := pwm_listen_step_checked_some env s i o hstep
      cases hrest : listen_thread_fn_checked env o.state r with
      | none => simp only [hrest] at h; exact absurd h (by simp)
      | some os2 =>
        simp only [hrest] at h
        have h2 := ih o.state os2 hrest
        have h3 : o :: os2 = os := Option.some.inj h
        rw [← h3, h2, ho]
        rfl

/-- One iteration from a state whose cached duty cycles are at most 100, on a message
whose set-duty-cycle percent, if it is such a request, is at most 100, executes no
undefined step. -/
theorem pwm_listen_step_checked_within_100 {H : Type} (env : Env H) (s : State H)
    (inc : Incoming)
    (hq : inc.msg.label = SET_PWM_DUTY_CYCLE_REQUEST → inc.transport 1 ≤ 100)
    (hs : s.curr_pin_duty_cycle.1 ≤ 100 ∧ s.curr_pin_duty_cycle.2 ≤ 100) :
    listen_step_checked env s inc = some (listen_step env s inc) := by
  simp only [listen_step_checked, listen_step]
  split_ifs with hb hl1 hl2 hl3
  · rfl
  · rfl
  · rw [pwm_set_frequency_checked_eq, if_neg]
    intro hu
    have hA := pwm_fits_of_le_100 (inc.transport 0) _ hs.1
    have hB := pwm_fits_of_le_100 (inc.transport 0) _ hs.2
    rcases hu.2.2.2 with h1 | h1 <;> omega
  · rw [pwm_set_duty_cycle_checked_eq, if_neg]
    intro hu
    have hA := pwm_fits_of_le_100 s.curr_freq _ (hq hl3)
    have := hu.2.2.2
    omega
  · rfl

/-- A run from a state whose cached duty cycles are at most 100, over messages whose
set-duty-cycle percents are at most 100, executes no undefined step. -/
theorem pwm_listen_thread_fn_checked_within_100 {H : Type} (env : Env H)
    (msgs : List Incoming) :
    ∀ s : State H,
      (∀ m ∈ msgs, m.msg.label = SET_PWM_DUTY_CYCLE_REQUEST → m.transport 1 ≤ 100) →
      s.curr_pin_duty_cycle.1 ≤ 100 ∧ s.curr_pin_duty_cycle.2 ≤ 100 →
      listen_thread_fn_checked env s msgs = some (listen_thread_fn env s msgs) := by
  induction msgs with
  | nil => intro s _ _; rfl
  | cons i r ih =>
    intro s hq hs
    have hi := hq i (List.mem_cons_self _ _)
    have h1 := pwm_listen_step_checked_within_100 env s i hi hs
    have h2 := ih (listen_step env s i).state
      (fun m hm => hq m (List.mem_cons_of_mem _ hm)) (pwm_step_duty_within_100 env s i hi hs)
    simp only [listen_thread_fn_checked, h1, h2]
    rfl

/-- On the register stand-in one iteration of the checked loop keeps this true: when the
cached frequency is non-zero, the conversion of the product of the cached frequency and
each cached duty cycle is defined and its value is the compare threshold of the channel. -/
theorem pwm_regs_checked_step_thresholds (kos : Kos) (base : Nat) (s : State PwmRegs)
    (inc : Incoming) (o : Outcome (State PwmRegs) PwmCall)
    (h : listen_step_checked (regsEnv kos base) s inc = some o)
    (hinv : s.curr_freq ≠ 0 →
      counter_value_checked s.curr_freq s.curr_pin_duty_cycle.1 = some s.hw.cmpa
      ∧ counter_value_checked s.curr_freq s.curr_pin_duty_cycle.2 = some s.hw.cmpb) :
    o.state.curr_freq ≠ 0 →
      counter_value_checked o.state.curr_freq o.state.curr_pin_duty_cycle.1
          = some o.state.hw.cmpa
      ∧ counter_value_checked o.state.curr_freq o.state.curr_pin_duty_cycle.2
          = some o.state.hw.cmpb := by
  simp only [listen_step_checked] at h
  split_ifs at h with hb hl1 hl2 hl3
  · obtain rfl := Option.some.inj h
    exact hinv
  · obtain rfl := Option.some.inj h
    have hfl := pwm_handle_request_fields (regsEnv kos base) s inc.msg inc.badge inc.caller_id
      inc.transport
    rw [hfl.1, hfl.2.1, hfl.2.2]
    exact hinv
  · rw [pwm_set_frequency_checked_eq] at h
    split_ifs at h with hu
    obtain rfl := Option.some.inj h
    by_cases hok : inc.caller_id = s.client_id
        ∧ (regsEnv kos base).kos.kos_msg_payload_size inc.msg.metadata = 4 * 1
    · by_cases hf : inc.transport 0 = 0
      · rw [pwm_set_frequency_zero (regsEnv kos base) s inc.msg inc.caller_id inc.transport
          hok.1 hok.2 hf]
        intro hne
        exact absurd rfl hne
      · rw [pwm_set_frequency_nonzero (regsEnv kos base) s inc.msg inc.caller_id
          inc.transport hok.1 hok.2 hf]
        intro _
        have hA : double_integer_part
            (counter_value_double (inc.transport 0) s.curr_pin_duty_cycle.1) < 2 ^ 32 := by
          by_contra hcon
          exact hu ⟨hok.1, hok.2, hf, Or.inl (by omega)⟩
        have hB : double_integer_part
            (counter_value_double (inc.transport 0) s.curr_pin_duty_cycle.2) < 2 ^ 32 := by
          by_contra hcon
          exact hu ⟨hok.1, hok.2, hf, Or.inr (by omega)⟩
        exact ⟨pwm_counter_value_checked_of_fits _ _ hf hA,
          pwm_counter_value_checked_of_fits _ _ hf hB⟩
    · rw [pwm_set_frequency_rejected (regsEnv kos base) s inc.msg inc.caller_id inc.transport
        hok]
      exact hinv
  · rw [pwm_set_duty_cycle_checked_eq] at h
    split_ifs at h with hu
    obtain rfl := Option.some.inj h
    by_cases hok : inc.caller_id = s.client_id
        ∧ (regsEnv kos base).kos.kos_msg_payload_size inc.msg.metadata = 4 * 2
    · by_cases hf : s.curr_freq = 0
      · intro hne
        have hd := pwm_set_duty_cycle_cached (regsEnv kos base) s inc.msg inc.caller_id
          inc.transport hok.1 hok.2
        rw [hd.2.2.1] at hne
        exact absurd hf hne
      · have hd := pwm_set_duty_cycle_at_nonzero_freq (regsEnv kos base) s inc.msg
          inc.caller_id inc.transport hok.1 hok.2 hf
        have hfit : double_integer_part
            (counter_value_double s.curr_freq (inc.transport 1)) < 2 ^ 32 := by
          by_contra hcon
          exact hu ⟨hok.1, hok.2, hf, by omega⟩
        by_cases hp : inc.transport 0 = 0
        · rw [hd.1 hp]
          intro _
          exact ⟨pwm_counter_value_checked_of_fits _ _ hf hfit, (hinv hf).2⟩
        · rw [hd.2 hp]
          intro _
          exact ⟨(hinv hf).1, pwm_counter_value_checked_of_fits _ _ hf hfit⟩
    · rw [pwm_set_duty_cycle_rejected (regsEnv kos base) s inc.msg inc.caller_id
        inc.transport hok]
      exact hinv
  · obtain rfl := Option.some.inj h
    exact hinv

/-- On the register stand-in the property of `pwm_regs_checked_step_thresholds` holds
after every iteration of a run of the checked loop that has a result. -/
theorem pwm_regs_checked_run_thresholds (kos : Kos) (base : Nat) (msgs : List Incoming) :
    ∀ (s : State PwmRegs) (os : List (Outcome (State PwmRegs) PwmCall)),
      listen_thread_fn_checked (regsEnv kos base) s msgs = some os →
      (s.curr_freq ≠ 0 →
        counter_value_checked s.curr_freq s.curr_pin_duty_cycle.1 = some s.hw.cmpa
        ∧ counter_value_checked s.curr_freq s.curr_pin_duty_cycle.2 = some s.hw.cmpb) →
      ∀ o ∈ os, o.state.curr_freq ≠ 0 →
        counter_value_checked o.state.curr_freq o.state.curr_pin_duty_cycle.1
            = some o.state.hw.cmpa
        ∧ counter_value_checked o.state.curr_freq o.state.curr_pin_duty_cycle.2
            = some o.state.hw.cmpb := by
  induction msgs with
  | nil =>
    intro s os h _ o ho
    rw [← Option.some.inj h] at ho
    exact absurd ho (List.not_mem_nil o)
  | cons i r ih =>
    intro s os h hs o ho
    simp only [listen_thread_fn_checked] at h
    cases hstep : listen_step_checked (regsEnv kos base) s i with
    | none => simp only [hstep] at h; exact absurd h (by simp)
    | some o1 =>
      simp only [hstep] at h
      have h1 := pwm_regs_checked_step_thresholds kos base s i o1 hstep hs
      cases hrest : listen_thread_fn_checked (regsEnv kos base) o1.state r with
      | none => simp only [hrest] at h; exact absurd h (by simp)
      | some os2 =>
        simp only [hrest] at h
        have h3 : o1 :: os2 = os := Option.some.inj h
        rw [← h3, List.mem_cons] at ho
        rcases ho with ho | ho
        · rw [ho]; exact h1
        · exact ih o1.state os2 hrest h1 o ho

end PwmServer

/-! ### The value loaded by a set-duty-cycle request -/

/-- C12 as amended: an authorized, well-formed set-duty-cycle request issued while the
cached frequency `f` is non-zero, with a percent for which the integer part of the
double-precision product `percent / 100.0 * periodCount` is below `2 ^ 32` (so that the
conversion to `uint32_t` is defined; `periodCount = 100000000 / f` is the integer
quotient), loads that integer part into the compare register of the selected channel (A
for channel value 0, B otherwise) by one call of `EHRPWMLoadCMPA` or `EHRPWMLoadCMPB`: the
fraction is cut off, not rounded.  No undefined step is executed.  On the register stand-in
that value is the compare threshold of the channel afterwards.  The condition holds for
every 32-bit percent with `percent * periodCount < 100 * 2 ^ 32`, hence for every percent
up to 100. -/
theorem C12_duty_cycle_loads_truncated_product {H : Type} (env : PwmServer.Env H)
    (s : PwmServer.State H) (kos : Kos) (base : Nat)
    (rs : PwmServer.State PwmServer.PwmRegs) (msg : kos_msg_t) (caller_id : Nat)
    (transport : Nat → Nat) (hc : caller_id = s.client_id) (hrc : caller_id = rs.client_id)
    (hsz : env.kos.kos_msg_payload_size msg.metadata = 4 * 2)
    (hrsz : kos.kos_msg_payload_size msg.metadata = 4 * 2)
    (hf : s.curr_freq ≠ 0) (hrf : rs.curr_freq ≠ 0)
    (hfit : double_integer_part (PwmServer.counter_value_double s.curr_freq (transport 1))
      < 2 ^ 32)
    (hrfit : double_integer_part (PwmServer.counter_value_double rs.curr_freq (transport 1))
      < 2 ^ 32) :
    (PwmServer.counter_value_double s.curr_freq (transport 1)
        = double_mul (double_div (uint32_to_double (transport 1)) double_100)
            (uint32_to_double (100000000 / s.curr_freq))
      ∧ double_integer_part (PwmServer.counter_value_double s.curr_freq (transport 1))
          * 2 ^ (PwmServer.counter_value_double s.curr_freq (transport 1)).exp
        ≤ (PwmServer.counter_value_double s.curr_freq (transport 1)).num
      ∧ (PwmServer.counter_value_double s.curr_freq (transport 1)).num
        < (double_integer_part (PwmServer.counter_value_double s.curr_freq (transport 1)) + 1)
          * 2 ^ (PwmServer.counter_value_double s.curr_freq (transport 1)).exp)
    ∧ (transport 0 = 0 →
        PwmServer.handle_set_pwm_duty_cycle env s msg caller_id transport
          = ⟨kos_msg_new_status STATUS_OK, transport,
              { s with
                curr_pin_duty_cycle := (transport 1, s.curr_pin_duty_cycle.2),
                hw := (env.drv.EHRPWMLoadCMPA s.hw env.pwm_controller_base
                  (double_integer_part
                    (PwmServer.counter_value_double s.curr_freq (transport 1)))
                  PwmServer.ehrpwm_const.EHRPWM_SHADOW_WRITE_ENABLE
                  PwmServer.ehrpwm_const.EHRPWM_CMPCTL_LOADAMODE_TBCTRZERO
                  PwmServer.ehrpwm_const.EHRPWM_CMPCTL_OVERWR_SH_FL) },
              [PwmServer.PwmCall.EHRPWMLoadCMPA env.pwm_controller_base
                (double_integer_part
                  (PwmServer.counter_value_double s.curr_freq (transport 1)))]⟩)
    ∧ (transport 0 ≠ 0 →
        PwmServer.handle_set_pwm_duty_cycle env s msg caller_id transport
          = ⟨kos_msg_new_status STATUS_OK, transport,
              { s with
                curr_pin_duty_cycle := (s.curr_pin_duty_cycle.1, transport 1),
                hw := (env.drv.EHRPWMLoadCMPB s.hw env.pwm_controller_base
                  (double_integer_part
                    (PwmServer.counter_value_double s.curr_freq (transport 1)))
                  PwmServer.ehrpwm_const.EHRPWM_SHADOW_WRITE_ENABLE
                  PwmServer.ehrpwm_const.EHRPWM_CMPCTL_LOADAMODE_TBCTRZERO
                  PwmServer.ehrpwm_const.EHRPWM_CMPCTL_OVERWR_SH_FL) },
              [PwmServer.PwmCall.EHRPWMLoadCMPB env.pwm_controller_base
                (double_integer_part
                  (PwmServer.counter_value_double s.curr_freq (transport 1)))]⟩)
    ∧ PwmServer.handle_set_pwm_duty_cycle_checked env s msg caller_id transport
        = some (PwmServer.handle_set_pwm_duty_cycle env s msg caller_id transport)
    ∧ (transport 0 = 0 →
        (PwmServer.handle_set_pwm_duty_cycle (PwmServer.regsEnv kos base) rs msg caller_id
            transport).state.hw.cmpa
          = double_integer_part (PwmServer.counter_value_double rs.curr_freq (transport 1)))
    ∧ (transport 0 ≠ 0 →
        (PwmServer.handle_set_pwm_duty_cycle (PwmServer.regsEnv kos base) rs msg caller_id
            transport).state.hw.cmpb
          = double_integer_part (PwmServer.counter_value_double rs.curr_freq (transport 1)))
    ∧ (∀ f percent : Nat, percent < 2 ^ 32 → percent * (100000000 / f) < 100 * 2 ^ 32 →
        double_integer_part (PwmServer.counter_value_double f percent) < 2 ^ 32)
    ∧ (∀ f percent : Nat, percent ≤ 100 →
        double_integer_part (PwmServer.counter_value_double f percent) < 2 ^ 32) := by
  have h1 := PwmServer.pwm_set_duty_cycle_at_nonzero_freq env s msg caller_id transport hc
    hsz hf
  have h2 := PwmServer.pwm_set_duty_cycle_at_nonzero_freq (PwmServer.regsEnv kos base) rs msg
    caller_id transport hrc hrsz hrf
  have e1 := PwmServer.pwm_counter_value_of_fits _ _ hfit
  have e2 := PwmServer.pwm_counter_value_of_fits _ _ hrfit
  rw [e1] at h1
  rw [e2] at h2
  refine ⟨⟨rfl, Nat.div_mul_le_self _ _, ?_⟩, h1.1, h1.2, ?_, ?_, ?_,
    fun f p hp hlt => PwmServer.pwm_fits_of_product_lt f p hp hlt,
    fun f p hp => PwmServer.pwm_fits_of_le_100 f p hp⟩
  · exact Nat.lt_mul_of_div_lt (Nat.lt_succ_self _) (by positivity)
  · rw [PwmServer.pwm_set_duty_cycle_checked_eq, if_neg]
    intro hu
    have := hu.2.2.2
    omega
  · intro hp
    rw [h2.1 hp]
    rfl
  · intro hp
    rw [h2.2 hp]
    rfl

/-- C12 as amended, on the sample servers bound to client 7 at 1000 Hz and at 3 Hz: client
7 sets channel A to 50 percent; the stand-in's threshold becomes 16666666 at 3 Hz. -/
theorem C12_duty_cycle_loads_truncated_product_witness :
    (7 = Sample.pwmBound.client_id ∧ 7 = (Sample.pwmRegsBound 3 0 0).client_id
      ∧ Sample.pwmBound.curr_freq ≠ 0 ∧ (Sample.pwmRegsBound 3 0 0).curr_freq ≠ 0
      ∧ double_integer_part (PwmServer.counter_value_double Sample.pwmBound.curr_freq 50)
          < 2 ^ 32
      ∧ double_integer_part (PwmServer.counter_value_double 3 50) < 2 ^ 32)
    ∧ (PwmServer.handle_set_pwm_duty_cycle (PwmServer.regsEnv Sample.kos 0x48300200)
          (Sample.pwmRegsBound 3 0 0) ⟨2, 0, 8⟩ 7 (Sample.words 0 50)).state.hw.cmpa
        = double_integer_part (PwmServer.counter_value_double 3 50)
    ∧ double_integer_part (PwmServer.counter_value_double 3 50) = 16666666 :=
  ⟨⟨by decide, by decide, by decide, by decide, by decide, by decide⟩,
    (C12_duty_cycle_loads_truncated_product Sample.pwmEnv Sample.pwmBound Sample.kos
      0x48300200 (Sample.pwmRegsBound 3 0 0) ⟨2, 0, 8⟩ 7 (Sample.words 0 50) (by decide)
      (by decide) (by decide) (by decide) (by decide) (by decide) (by decide)
      (by decide)).2.2.2.2.1 (by decide),
    by decide⟩

/-! ### The values loaded by a set-frequency request -/

/-- C13: an authorized, well-formed set-frequency request with a non-zero frequency `f`,
issued when for both cached duty cycles the integer part of the double-precision product
`duty / 100.0 * (100000000 / f)` is below `2 ^ 32` (so that both conversions to `uint32_t`
are defined, as they are for duty cycles up to 100), replies OK, sets `curr_freq` to `f`
and, after programming the period, loads those integer parts into the compare registers of
channel A and of channel B; the cached duty cycles stay, no set-duty-cycle request is
involved and no undefined step is executed.  On the register stand-in these values are the
two thresholds afterwards; and there, setting channel A to 50 percent and then the
frequency to 1000 leaves the threshold of channel A at 50000, which is
`round(0.5 * 100000000 / 1000)`. -/
theorem C13_set_frequency_reloads_both_thresholds {H : Type} (env : PwmServer.Env H)
    (s : PwmServer.State H) (kos : Kos) (base : Nat)
    (rs : PwmServer.State PwmServer.PwmRegs) (msg : kos_msg_t) (caller_id : Nat)
    (transport : Nat → Nat) (hc : caller_id = s.client_id) (hrc : caller_id = rs.client_id)
    (hsz : env.kos.kos_msg_payload_size msg.metadata = 4 * 1)
    (hrsz : kos.kos_msg_payload_size msg.metadata = 4 * 1)
    (hf : transport 0 ≠ 0)
    (hfitA : double_integer_part
      (PwmServer.counter_value_double (transport 0) s.curr_pin_duty_cycle.1) < 2 ^ 32)
    (hfitB : double_integer_part
      (PwmServer.counter_value_double (transport 0) s.curr_pin_duty_cycle.2) < 2 ^ 32)
    (hrfitA : double_integer_part
      (PwmServer.counter_value_double (transport 0) rs.curr_pin_duty_cycle.1) < 2 ^ 32)
    (hrfitB : double_integer_part
      (PwmServer.counter_value_double (transport 0) rs.curr_pin_duty_cycle.2) < 2 ^ 32) :
    PwmServer.handle_set_pwm_frequency env s msg caller_id transport
      = ⟨kos_msg_new_status STATUS_OK, transport,
          { s with
            curr_freq := transport 0,
            hw := (env.drv.EHRPWMLoadCMPB
              (env.drv.EHRPWMLoadCMPA
                (env.drv.EHRPWMPWMOpFreqSet s.hw env.pwm_controller_base PwmServer.TB_CLK
                  (transport 0) PwmServer.ehrpwm_const.EHRPWM_COUNT_UP
                  PwmServer.ehrpwm_const.EHRPWM_SHADOW_WRITE_ENABLE)
                env.pwm_controller_base
                (double_integer_part
                  (PwmServer.counter_value_double (transport 0) s.curr_pin_duty_cycle.1))
                PwmServer.ehrpwm_const.EHRPWM_SHADOW_WRITE_ENABLE
                PwmServer.ehrpwm_const.EHRPWM_CMPCTL_LOADAMODE_TBCTRZERO
                PwmServer.ehrpwm_const.EHRPWM_CMPCTL_OVERWR_SH_FL)
              env.pwm_controller_base
              (double_integer_part
                (PwmServer.counter_value_double (transport 0) s.curr_pin_duty_cycle.2))
              PwmServer.ehrpwm_const.EHRPWM_SHADOW_WRITE_ENABLE
              PwmServer.ehrpwm_const.EHRPWM_CMPCTL_LOADAMODE_TBCTRZERO
              PwmServer.ehrpwm_const.EHRPWM_CMPCTL_OVERWR_SH_FL) },
          [PwmServer.PwmCall.EHRPWMPWMOpFreqSet env.pwm_controller_base PwmServer.TB_CLK
             (transport 0),
           PwmServer.PwmCall.EHRPWMLoadCMPA env.pwm_controller_base
             (double_integer_part
               (PwmServer.counter_value_double (transport 0) s.curr_pin_duty_cycle.1)),
           PwmServer.PwmCall.EHRPWMLoadCMPB env.pwm_controller_base
             (double_integer_part
               (PwmServer.counter_value_double (transport 0) s.curr_pin_duty_cycle.2))]⟩
    ∧ PwmServer.handle_set_pwm_frequency_checked env s msg caller_id transport
        = some (PwmServer.handle_set_pwm_frequency env s msg caller_id transport)
    ∧ ((PwmServer.handle_set_pwm_frequency (PwmServer.regsEnv kos base) rs msg caller_id
          transport).state.curr_freq = transport 0
      ∧ (PwmServer.handle_set_pwm_frequency (PwmServer.regsEnv kos base) rs msg caller_id
          transport).state.curr_pin_duty_cycle = rs.curr_pin_duty_cycle
      ∧ (PwmServer.handle_set_pwm_frequency (PwmServer.regsEnv kos base) rs msg caller_id
          transport).state.hw.cmpa
          = double_integer_part
              (PwmServer.counter_value_double (transport 0) rs.curr_pin_duty_cycle.1)
      ∧ (PwmServer.handle_set_pwm_frequency (PwmServer.regsEnv kos base) rs msg caller_id
          transport).state.hw.cmpb
          = double_integer_part
              (PwmServer.counter_value_double (transport 0) rs.curr_pin_duty_cycle.2))
    ∧ (∀ (msg1 : kos_msg_t) (t1 : Nat → Nat),
        kos.kos_msg_payload_size msg1.metadata = 4 * 2 → t1 0 = 0 → t1 1 = 50 →
        transport 0 = 1000 →
        PwmServer.handle_set_pwm_duty_cycle_checked (PwmServer.regsEnv kos base) rs msg1
            caller_id t1
          = some (PwmServer.handle_set_pwm_duty_cycle (PwmServer.regsEnv kos base) rs msg1
              caller_id t1)
        ∧ PwmServer.handle_set_pwm_frequency_checked (PwmServer.regsEnv kos base)
            (PwmServer.handle_set_pwm_duty_cycle (PwmServer.regsEnv kos base) rs msg1
              caller_id t1).state msg caller_id transport
          = some (PwmServer.handle_set_pwm_frequency (PwmServer.regsEnv kos base)
              (PwmServer.handle_set_pwm_duty_cycle (PwmServer.regsEnv kos base) rs msg1
                caller_id t1).state msg caller_id transport)
        ∧ (PwmServer.handle_set_pwm_frequency (PwmServer.regsEnv kos base)
            (PwmServer.handle_set_pwm_duty_cycle (PwmServer.regsEnv kos base) rs msg1
              caller_id t1).state msg caller_id transport).state.hw.cmpa = 50000
        ∧ PwmServer.spec_threshold_rounded 1000 50 = 50000) := by
  have h1 := PwmServer.pwm_set_frequency_nonzero env s msg caller_id transport hc hsz hf
  have h2 := PwmServer.pwm_set_frequency_nonzero (PwmServer.regsEnv kos base) rs msg
    caller_id transport hrc hrsz hf
  rw [PwmServer.pwm_counter_value_of_fits _ _ hfitA,
    PwmServer.pwm_counter_value_of_fits _ _ hfitB] at h1
  rw [PwmServer.pwm_counter_value_of_fits _ _ hrfitA,
    PwmServer.pwm_counter_value_of_fits _ _ hrfitB] at h2
  refine ⟨h1, ?_, ?_, ?_⟩
  · rw [PwmServer.pwm_set_frequency_checked_eq, if_neg]
    intro hu
    rcases hu.2.2.2 with h | h <;> omega
  · rw [h2]
    exact ⟨rfl, rfl, rfl, rfl⟩
  · intro msg1 t1 hsz1 hA hp h1000
    have hd := pwm_set_duty_cycle_cached (PwmServer.regsEnv kos base) rs msg1 caller_id t1
      hrc hsz1
    have hfit50 : ∀ f : Nat,
        double_integer_part (PwmServer.counter_value_double f 50) < 2 ^ 32 :=
      fun f => PwmServer.pwm_fits_of_le_100 f 50 (by decide)
    refine ⟨?_, ?_, ?_, by decide⟩
    · rw [PwmServer.pwm_set_duty_cycle_checked_eq, if_neg]
      intro hu
      have h3 := hu.2.2.2
      rw [hp] at h3
      have := hfit50 rs.curr_freq
      omega
    · rw [PwmServer.pwm_set_frequency_checked_eq, if_neg]
      intro hu
      have h3 := hu.2.2.2
      rw [hd.2.2.2.1 hA, hp] at h3
      have h5 : 2 ^ 32 ≤ double_integer_part (PwmServer.counter_value_double (transport 0) 50)
          ∨ 2 ^ 32 ≤ double_integer_part
              (PwmServer.counter_value_double (transport 0) rs.curr_pin_duty_cycle.2) := h3
      have := hfit50 (transport 0)
      rcases h5 with h5 | h5 <;> omega
    · rw [PwmServer.pwm_set_frequency_nonzero (PwmServer.regsEnv kos base) _ msg caller_id
        transport (hrc.trans hd.2.1.symm) hrsz hf]
      show PwmServer.counter_value (transport 0) _ = 50000
      rw [hd.2.2.2.1 hA, h1000, hp]
      show PwmServer.counter_value 1000 50 = 50000
      decide

/-- C13 on the sample register stand-in bound to client 7 with cached duty cycles 50 and
25: client 7 sets the frequency to 1000; the thresholds become 50000 and 25000. -/
theorem C13_set_frequency_reloads_both_thresholds_witness :
    (7 = Sample.pwmBound.client_id ∧ 7 = (Sample.pwmRegsBound 0 50 25).client_id
      ∧ Sample.words 1000 0 0 ≠ 0
      ∧ double_integer_part (PwmServer.counter_value_double (Sample.words 1000 0 0) 50)
          < 2 ^ 32
      ∧ double_integer_part (PwmServer.counter_value_double (Sample.words 1000 0 0) 25)
          < 2 ^ 32)
    ∧ (PwmServer.handle_set_pwm_frequency (PwmServer.regsEnv Sample.kos 0x48300200)
          (Sample.pwmRegsBound 0 50 25) ⟨1, 0, 4⟩ 7 (Sample.words 1000 0)).state.hw.cmpa
        = double_integer_part
            (PwmServer.counter_value_double (Sample.words 1000 0 0) 50)
    ∧ double_integer_part (PwmServer.counter_value_double 1000 50) = 50000
    ∧ double_integer_part (PwmServer.counter_value_double 1000 25) = 25000 :=
  ⟨⟨by decide, by decide, by decide, by decide, by decide⟩,
    (C13_set_frequency_reloads_both_thresholds Sample.pwmEnv Sample.pwmBound Sample.kos
      0x48300200 (Sample.pwmRegsBound 0 50 25) ⟨1, 0, 4⟩ 7 (Sample.words 1000 0) (by decide)
      (by decide) (by decide) (by decide) (by decide) (by decide) (by decide) (by decide)
      (by decide)).2.2.1.2.2.1,
    by decide, by decide⟩

/-! ### Duty cycles set while the frequency is 0 -/

/-- C15: while the cached frequency is 0, as it is when the loop starts, an authorized,
well-formed set-duty-cycle request replies OK, stores the percent as the cached duty cycle
of the selected channel (A for channel value 0, B otherwise) and makes no outside call, so
no compare register is written, and no conversion is executed; a set-frequency request
with a non-zero frequency `f` that follows, when for that percent and for the other cached
duty cycle the integer part of the product `duty / 100.0 * (100000000 / f)` is below
`2 ^ 32` (so that the conversions are defined), then loads the integer part for that
percent into the compare register of the channel, and the one for the other cached duty
cycle into the other register. -/
theorem C15_duty_cycle_cached_at_zero_frequency {H : Type} (env : PwmServer.Env H)
    (s : PwmServer.State H) (msg : kos_msg_t) (caller_id : Nat) (transport : Nat → Nat)
    (hc : caller_id = s.client_id)
    (hsz : env.kos.kos_msg_payload_size msg.metadata = 4 * 2) (hf : s.curr_freq = 0) :
    (∀ hw : H, (PwmServer.State.initial hw).curr_freq = 0)
    ∧ (transport 0 = 0 →
        PwmServer.handle_set_pwm_duty_cycle env s msg caller_id transport
          = ⟨kos_msg_new_status STATUS_OK, transport,
              { s with curr_pin_duty_cycle := (transport 1, s.curr_pin_duty_cycle.2) }, []⟩)
    ∧ (transport 0 ≠ 0 →
        PwmServer.handle_set_pwm_duty_cycle env s msg caller_id transport
          = ⟨kos_msg_new_status STATUS_OK, transport,
              { s with curr_pin_duty_cycle := (s.curr_pin_duty_cycle.1, transport 1) }, []⟩)
    ∧ PwmServer.handle_set_pwm_duty_cycle_checked env s msg caller_id transport
        = some (PwmServer.handle_set_pwm_duty_cycle env s msg caller_id transport)
    ∧ (∀ (msg2 : kos_msg_t) (t2 : Nat → Nat),
        env.kos.kos_msg_payload_size msg2.metadata = 4 * 1 → t2 0 ≠ 0 →
        (transport 0 = 0 →
          double_integer_part (PwmServer.counter_value_double (t2 0) (transport 1))
            < 2 ^ 32 →
          double_integer_part (PwmServer.counter_value_double (t2 0) s.curr_pin_duty_cycle.2)
            < 2 ^ 32 →
          (PwmServer.handle_set_pwm_frequency env
              (PwmServer.handle_set_pwm_duty_cycle env s msg caller_id transport).state
              msg2 caller_id t2).calls
            = [PwmServer.PwmCall.EHRPWMPWMOpFreqSet env.pwm_controller_base
                 PwmServer.TB_CLK (t2 0),
               PwmServer.PwmCall.EHRPWMLoadCMPA env.pwm_controller_base
                 (double_integer_part
                   (PwmServer.counter_value_double (t2 0) (transport 1))),
               PwmServer.PwmCall.EHRPWMLoadCMPB env.pwm_controller_base
                 (double_integer_part
                   (PwmServer.counter_value_double (t2 0) s.curr_pin_duty_cycle.2))]
          ∧ PwmServer.handle_set_pwm_frequency_checked env
              (PwmServer.handle_set_pwm_duty_cycle env s msg caller_id transport).state
              msg2 caller_id t2
            = some (PwmServer.handle_set_pwm_frequency env
                (PwmServer.handle_set_pwm_duty_cycle env s msg caller_id transport).state
                msg2 caller_id t2))
        ∧ (transport 0 ≠ 0 →
          double_integer_part (PwmServer.counter_value_double (t2 0) s.curr_pin_duty_cycle.1)
            < 2 ^ 32 →
          double_integer_part (PwmServer.counter_value_double (t2 0) (transport 1))
            < 2 ^ 32 →
          (PwmServer.handle_set_pwm_frequency env
              (PwmServer.handle_set_pwm_duty_cycle env s msg caller_id transport).state
              msg2 caller_id t2).calls
            = [PwmServer.PwmCall.EHRPWMPWMOpFreqSet env.pwm_controller_base
                 PwmServer.TB_CLK (t2 0),
               PwmServer.PwmCall.EHRPWMLoadCMPA env.pwm_controller_base
                 (double_integer_part
                   (PwmServer.counter_value_double (t2 0) s.curr_pin_duty_cycle.1)),
               PwmServer.PwmCall.EHRPWMLoadCMPB env.pwm_controller_base
                 (double_integer_part
                   (PwmServer.counter_value_double (t2 0) (transport 1)))]
          ∧ PwmServer.handle_set_pwm_frequency_checked env
              (PwmServer.handle_set_pwm_duty_cycle env s msg caller_id transport).state
              msg2 caller_id t2
            = some (PwmServer.handle_set_pwm_frequency env
                (PwmServer.handle_set_pwm_duty_cycle env s msg caller_id transport).state
                msg2 caller_id t2))) := by
  have h := PwmServer.pwm_set_duty_cycle_at_zero_freq env s msg caller_id transport hc hsz hf
  refine ⟨fun _ => rfl, h.1, h.2, ?_, ?_⟩
  · rw [PwmServer.pwm_set_duty_cycle_checked_eq, if_neg]
    intro hu
    exact hu.2.2.1 hf
  intro msg2 t2 hsz2 hf2
  constructor
  · intro hp hA hB
    rw [h.1 hp]
    constructor
    · have hcalls := congrArg (fun o => o.calls) (PwmServer.pwm_set_frequency_nonzero env
        { s with curr_pin_duty_cycle := (transport 1, s.curr_pin_duty_cycle.2) } msg2
        caller_id t2 hc hsz2 hf2)
      rw [PwmServer.pwm_counter_value_of_fits _ _ hA,
        PwmServer.pwm_counter_value_of_fits _ _ hB] at hcalls
      exact hcalls
    · rw [PwmServer.pwm_set_frequency_checked_eq, if_neg]
      intro hu
      rcases hu.2.2.2 with h3 | h3
      · have h4 : 2 ^ 32 ≤ double_integer_part
            (PwmServer.counter_value_double (t2 0) (transport 1)) := h3
        omega
      · have h4 : 2 ^ 32 ≤ double_integer_part
            (PwmServer.counter_value_double (t2 0) s.curr_pin_duty_cycle.2) := h3
        omega
  · intro hp hA hB
    rw [h.2 hp]
    constructor
    · have hcalls := congrArg (fun o => o.calls) (PwmServer.pwm_set_frequency_nonzero env
        { s with curr_pin_duty_cycle := (s.curr_pin_duty_cycle.1, transport 1) } msg2
        caller_id t2 hc hsz2 hf2)
      rw [PwmServer.pwm_counter_value_of_fits _ _ hA,
        PwmServer.pwm_counter_value_of_fits _ _ hB] at hcalls
      exact hcalls
    · rw [PwmServer.pwm_set_frequency_checked_eq, if_neg]
      intro hu
      rcases hu.2.2.2 with h3 | h3
      · have h4 : 2 ^ 32 ≤ double_integer_part
            (PwmServer.counter_value_double (t2 0) s.curr_pin_duty_cycle.1) := h3
        omega
      · have h4 : 2 ^ 32 ≤ double_integer_part
            (PwmServer.counter_value_double (t2 0) (transport 1)) := h3
        omega

/-- C15 on the sample register stand-in bound to client 7 at frequency 0: client 7 sets
channel B to 75 percent, nothing is loaded; the frequency 1000 then loads 75000 for B. -/
theorem C15_duty_cycle_cached_at_zero_frequency_witness :
    (7 = (Sample.pwmRegsBound 0 0 0).client_id ∧ (Sample.pwmRegsBound 0 0 0).curr_freq = 0
      ∧ Sample.words 1 75 0 ≠ 0)
    ∧ PwmServer.handle_set_pwm_duty_cycle Sample.pwmRegsEnv (Sample.pwmRegsBound 0 0 0)
          ⟨2, 0, 8⟩ 7 (Sample.words 1 75)
        = ⟨kos_msg_new_status STATUS_OK, Sample.words 1 75, Sample.pwmRegsBound 0 0 75, []⟩
    ∧ (PwmServer.handle_set_pwm_frequency Sample.pwmRegsEnv
          (PwmServer.handle_set_pwm_duty_cycle Sample.pwmRegsEnv (Sample.pwmRegsBound 0 0 0)
            ⟨2, 0, 8⟩ 7 (Sample.words 1 75)).state ⟨1, 0, 4⟩ 7 (Sample.words 1000 0)).calls
        = [PwmServer.PwmCall.EHRPWMPWMOpFreqSet 0x48300200 100000000 1000,
           PwmServer.PwmCall.EHRPWMLoadCMPA 0x48300200 0,
           PwmServer.PwmCall.EHRPWMLoadCMPB 0x48300200 75000] :=
  have h := C15_duty_cycle_cached_at_zero_frequency Sample.pwmRegsEnv
    (Sample.pwmRegsBound 0 0 0) ⟨2, 0, 8⟩ 7 (Sample.words 1 75) (by decide) (by decide)
    (by decide)
  ⟨⟨by decide, by decide, by decide⟩, h.2.2.1 (by decide),
    ((h.2.2.2.2 ⟨1, 0, 4⟩ (Sample.words 1000 0) (by decide) (by decide)).2 (by decide)
      (by decide) (by decide)).1.trans (by decide)⟩

/-! ### Thresholds and the cached frequency over a run -/

namespace PwmServer

/-- A result of the checked computation is `counter_value`. -/
theorem pwm_counter_value_checked_value (f d v : Nat) (h : counter_value_checked f d = some v) :
    v = counter_value f d := by
  rw [pwm_counter_value_checked_eq] at h
  split_ifs at h with h1 h2
  rw [pwm_counter_value_of_fits f d h2]
  exact (Option.some.inj h).symm

end PwmServer

/-- C16: on the register stand-in, started as `init_pwm_controller` leaves it (cached
frequency 0, both cached duty cycles 0; the compare thresholds are 0 at startup, and any
registers may be taken), for every finite sequence of messages over which the loop executes
no undefined step (no conversion to `uint32_t` of a product whose integer part is `2 ^ 32`
or more): after every iteration, if the cached frequency is non-zero, the compare threshold
of each channel is the value computed from the cached frequency and the cached duty cycle
of that channel, the conversion of that value being defined.  No undefined step is
executed over any sequence of messages whose set-duty-cycle requests carry a percent of at
most 100. -/
theorem C16_thresholds_follow_cached_frequency (kos : Kos) (base : Nat)
    (hw : PwmServer.PwmRegs) (msgs : List Incoming)
    (hrun : (PwmServer.listen_thread_fn_checked (PwmServer.regsEnv kos base)
      (PwmServer.State.initial hw) msgs).isSome = true) :
    ((PwmServer.State.initial PwmServer.PwmRegs.startup).curr_freq = 0
      ∧ (PwmServer.State.initial PwmServer.PwmRegs.startup).curr_pin_duty_cycle = (0, 0)
      ∧ PwmServer.PwmRegs.startup.cmpa = 0 ∧ PwmServer.PwmRegs.startup.cmpb = 0
      ∧ (PwmServer.State.initial hw).curr_freq = 0)
    ∧ PwmServer.listen_thread_fn_checked (PwmServer.regsEnv kos base)
          (PwmServer.State.initial hw) msgs
        = some (PwmServer.listen_thread_fn (PwmServer.regsEnv kos base)
            (PwmServer.State.initial hw) msgs)
    ∧ (∀ o ∈ PwmServer.listen_thread_fn (PwmServer.regsEnv kos base)
          (PwmServer.State.initial hw) msgs,
        o.state.curr_freq ≠ 0 →
          (PwmServer.counter_value_checked o.state.curr_freq o.state.curr_pin_duty_cycle.1
              = some o.state.hw.cmpa
            ∧ PwmServer.counter_value_checked o.state.curr_freq
                o.state.curr_pin_duty_cycle.2 = some o.state.hw.cmpb)
          ∧ (o.state.hw.cmpa
              = PwmServer.counter_value o.state.curr_freq o.state.curr_pin_duty_cycle.1
            ∧ o.state.hw.cmpb
              = PwmServer.counter_value o.state.curr_freq o.state.curr_pin_duty_cycle.2))
    ∧ (∀ msgs2 : List Incoming,
        (∀ m ∈ msgs2,
          m.msg.label = PwmServer.SET_PWM_DUTY_CYCLE_REQUEST → m.transport 1 ≤ 100) →
        (PwmServer.listen_thread_fn_checked (PwmServer.regsEnv kos base)
          (PwmServer.State.initial hw) msgs2).isSome = true) := by
  obtain ⟨os, hos⟩ := Option.isSome_iff_exists.mp hrun
  have heq := PwmServer.pwm_listen_thread_fn_checked_some (PwmServer.regsEnv kos base) msgs
    (PwmServer.State.initial hw) os hos
  have hinv := PwmServer.pwm_regs_checked_run_thresholds kos base msgs
    (PwmServer.State.initial hw) os hos (fun h => absurd rfl h)
  refine ⟨⟨rfl, rfl, rfl, rfl, rfl⟩, by rw [hos, heq], ?_, ?_⟩
  · intro o ho hne
    rw [← heq] at ho
    have h := hinv o ho hne
    exact ⟨h, PwmServer.pwm_counter_value_checked_value _ _ _ h.1,
      PwmServer.pwm_counter_value_checked_value _ _ _ h.2⟩
  · intro msgs2 hq
    rw [PwmServer.pwm_listen_thread_fn_checked_within_100 (PwmServer.regsEnv kos base) msgs2
      (PwmServer.State.initial hw) hq ⟨Nat.zero_le _, Nat.zero_le _⟩]
    rfl

/-- C16 on the sample register stand-in: the run "register 7, channel A to 50, frequency
1000, channel B to 25, frequency 3" executes no undefined step and leaves after its
iterations the thresholds (0, 0), (0, 0), (50000, 0), (50000, 25000) and
(16666666, 8333333). -/
theorem C16_thresholds_follow_cached_frequency_witness :
    (PwmServer.listen_thread_fn_checked Sample.pwmRegsEnv
          (PwmServer.State.initial PwmServer.PwmRegs.startup)
          [⟨⟨ALL_ONES, 0, 0⟩, 256, 7, Sample.words 0 0⟩, ⟨⟨2, 0, 8⟩, 256, 7, Sample.words 0 50⟩,
           ⟨⟨1, 0, 4⟩, 256, 7, Sample.words 1000 0⟩, ⟨⟨2, 0, 8⟩, 256, 7, Sample.words 1 25⟩,
           ⟨⟨1, 0, 4⟩, 256, 7, Sample.words 3 0⟩]).isSome = true
    ∧ PwmServer.listen_thread_fn_checked Sample.pwmRegsEnv
          (PwmServer.State.initial PwmServer.PwmRegs.startup)
          [⟨⟨ALL_ONES, 0, 0⟩, 256, 7, Sample.words 0 0⟩, ⟨⟨2, 0, 8⟩, 256, 7, Sample.words 0 50⟩,
           ⟨⟨1, 0, 4⟩, 256, 7, Sample.words 1000 0⟩, ⟨⟨2, 0, 8⟩, 256, 7, Sample.words 1 25⟩,
           ⟨⟨1, 0, 4⟩, 256, 7, Sample.words 3 0⟩]
        = some (PwmServer.listen_thread_fn Sample.pwmRegsEnv
          (PwmServer.State.initial PwmServer.PwmRegs.startup)
          [⟨⟨ALL_ONES, 0, 0⟩, 256, 7, Sample.words 0 0⟩, ⟨⟨2, 0, 8⟩, 256, 7, Sample.words 0 50⟩,
           ⟨⟨1, 0, 4⟩, 256, 7, Sample.words 1000 0⟩, ⟨⟨2, 0, 8⟩, 256, 7, Sample.words 1 25⟩,
           ⟨⟨1, 0, 4⟩, 256, 7, Sample.words 3 0⟩])
    ∧ (PwmServer.listen_thread_fn Sample.pwmRegsEnv
          (PwmServer.State.initial PwmServer.PwmRegs.startup)
          [⟨⟨ALL_ONES, 0, 0⟩, 256, 7, Sample.words 0 0⟩, ⟨⟨2, 0, 8⟩, 256, 7, Sample.words 0 50⟩,
           ⟨⟨1, 0, 4⟩, 256, 7, Sample.words 1000 0⟩, ⟨⟨2, 0, 8⟩, 256, 7, Sample.words 1 25⟩,
           ⟨⟨1, 0, 4⟩, 256, 7, Sample.words 3 0⟩]).map
          (fun o => (o.state.hw.cmpa, o.state.hw.cmpb))
        = [(0, 0), (0, 0), (50000, 0), (50000, 25000), (16666666, 8333333)] :=
  ⟨by decide,
    (C16_thresholds_follow_cached_frequency Sample.kos 0x48300200 PwmServer.PwmRegs.startup
      [⟨⟨ALL_ONES, 0, 0⟩, 256, 7, Sample.words 0 0⟩, ⟨⟨2, 0, 8⟩, 256, 7, Sample.words 0 50⟩,
       ⟨⟨1, 0, 4⟩, 256, 7, Sample.words 1000 0⟩, ⟨⟨2, 0, 8⟩, 256, 7, Sample.words 1 25⟩,
       ⟨⟨1, 0, 4⟩, 256, 7, Sample.words 3 0⟩] (by decide)).2.1,
    by decide⟩

/-! ### Channel selection -/

/-- C25: an authorized, well-formed set-duty-cycle request replies OK for every channel
value; value 0 selects channel A, every other value channel B.  The cached duty cycle of
the selected channel becomes the percent; the other cached duty cycle, the cached
frequency and `client_id` are as before.  When the cached frequency is 0 no outside call
is made; when it is non-zero the only outside call loads one 32-bit value into the compare
register of the selected channel, and that value is the integer part of the product
`percent / 100.0 * periodCount` whenever that integer part is below `2 ^ 32`, which is
when the conversion to `uint32_t` is defined.  On the register stand-in the threshold of
the other channel and the timebase registers are as before. -/
theorem C25_set_duty_cycle_touches_one_channel {H : Type} (env : PwmServer.Env H)
    (s : PwmServer.State H) (kos : Kos) (base : Nat)
    (rs : PwmServer.State PwmServer.PwmRegs) (msg : kos_msg_t) (caller_id : Nat)
    (t : Nat → Nat) (hc : caller_id = s.client_id) (hrc : caller_id = rs.client_id)
    (hsz : env.kos.kos_msg_payload_size msg.metadata = 4 * 2)
    (hrsz : kos.kos_msg_payload_size msg.metadata = 4 * 2) :
    ((PwmServer.handle_set_pwm_duty_cycle env s msg caller_id t).msg
        = kos_msg_new_status STATUS_OK
      ∧ (PwmServer.handle_set_pwm_duty_cycle env s msg caller_id t).state.client_id
        = s.client_id
      ∧ (PwmServer.handle_set_pwm_duty_cycle env s msg caller_id t).state.curr_freq
        = s.curr_freq)
    ∧ (t 0 = 0 →
        (PwmServer.handle_set_pwm_duty_cycle env s msg caller_id t).state.curr_pin_duty_cycle
          = (t 1, s.curr_pin_duty_cycle.2)
        ∧ (s.curr_freq = 0 →
            (PwmServer.handle_set_pwm_duty_cycle env s msg caller_id t).calls = [])
        ∧ (s.curr_freq ≠ 0 → ∃ v : Nat, v < 2 ^ 32
            ∧ (PwmServer.handle_set_pwm_duty_cycle env s msg caller_id t).calls
              = [PwmServer.PwmCall.EHRPWMLoadCMPA env.pwm_controller_base v]
            ∧ (double_integer_part (PwmServer.counter_value_double s.curr_freq (t 1))
                < 2 ^ 32 →
              v = double_integer_part (PwmServer.counter_value_double s.curr_freq (t 1)))))
    ∧ (t 0 ≠ 0 →
        (PwmServer.handle_set_pwm_duty_cycle env s msg caller_id t).state.curr_pin_duty_cycle
          = (s.curr_pin_duty_cycle.1, t 1)
        ∧ (s.curr_freq = 0 →
            (PwmServer.handle_set_pwm_duty_cycle env s msg caller_id t).calls = [])
        ∧ (s.curr_freq ≠ 0 → ∃ v : Nat, v < 2 ^ 32
            ∧ (PwmServer.handle_set_pwm_duty_cycle env s msg caller_id t).calls
              = [PwmServer.PwmCall.EHRPWMLoadCMPB env.pwm_controller_base v]
            ∧ (double_integer_part (PwmServer.counter_value_double s.curr_freq (t 1))
                < 2 ^ 32 →
              v = double_integer_part (PwmServer.counter_value_double s.curr_freq (t 1)))))
    ∧ (t 0 = 0 →
        (PwmServer.handle_set_pwm_duty_cycle (PwmServer.regsEnv kos base) rs msg caller_id
            t).state.hw.cmpb = rs.hw.cmpb
        ∧ (rs.curr_freq = 0 →
            (PwmServer.handle_set_pwm_duty_cycle (PwmServer.regsEnv kos base) rs msg
              caller_id t).state.hw.cmpa = rs.hw.cmpa)
        ∧ (rs.curr_freq ≠ 0 →
            double_integer_part (PwmServer.counter_value_double rs.curr_freq (t 1))
              < 2 ^ 32 →
            (PwmServer.handle_set_pwm_duty_cycle (PwmServer.regsEnv kos base) rs msg
              caller_id t).state.hw.cmpa
              = double_integer_part (PwmServer.counter_value_double rs.curr_freq (t 1)))
        ∧ (PwmServer.handle_set_pwm_duty_cycle (PwmServer.regsEnv kos base) rs msg caller_id
            t).state.hw.pwm_freq = rs.hw.pwm_freq
        ∧ (PwmServer.handle_set_pwm_duty_cycle (PwmServer.regsEnv kos base) rs msg caller_id
            t).state.hw.tb_clk = rs.hw.tb_clk)
    ∧ (t 0 ≠ 0 →
        (PwmServer.handle_set_pwm_duty_cycle (PwmServer.regsEnv kos base) rs msg caller_id
            t).state.hw.cmpa = rs.hw.cmpa
        ∧ (rs.curr_freq = 0 →
            (PwmServer.handle_set_pwm_duty_cycle (PwmServer.regsEnv kos base) rs msg
              caller_id t).state.hw.cmpb = rs.hw.cmpb)
        ∧ (rs.curr_freq ≠ 0 →
            double_integer_part (PwmServer.counter_value_double rs.curr_freq (t 1))
              < 2 ^ 32 →
            (PwmServer.handle_set_pwm_duty_cycle (PwmServer.regsEnv kos base) rs msg
              caller_id t).state.hw.cmpb
              = double_integer_part (PwmServer.counter_value_double rs.curr_freq (t 1)))
        ∧ (PwmServer.handle_set_pwm_duty_cycle (PwmServer.regsEnv kos base) rs msg caller_id
            t).state.hw.pwm_freq = rs.hw.pwm_freq
        ∧ (PwmServer.handle_set_pwm_duty_cycle (PwmServer.regsEnv kos base) rs msg caller_id
            t).state.hw.tb_clk = rs.hw.tb_clk)
    ∧ ((s.curr_freq = 0
          ∨ double_integer_part (PwmServer.counter_value_double s.curr_freq (t 1)) < 2 ^ 32) →
        PwmServer.handle_set_pwm_duty_cycle_checked env s msg caller_id t
          = some (PwmServer.handle_set_pwm_duty_cycle env s msg caller_id t)) := by
  have hd := pwm_set_duty_cycle_cached env s msg caller_id t hc hsz
  refine ⟨⟨hd.1, hd.2.1, hd.2.2.1⟩, ?_, ?_, ?_, ?_, ?_⟩
  · intro hp
    refine ⟨hd.2.2.2.1 hp, ?_, ?_⟩
    · intro hf
      rw [(PwmServer.pwm_set_duty_cycle_at_zero_freq env s msg caller_id t hc hsz hf).1 hp]
    · intro hf
      rw [(PwmServer.pwm_set_duty_cycle_at_nonzero_freq env s msg caller_id t hc hsz hf).1 hp]
      exact ⟨PwmServer.counter_value s.curr_freq (t 1), double_to_uint32_lt _, rfl,
        fun hfit => PwmServer.pwm_counter_value_of_fits _ _ hfit⟩
  · intro hp
    refine ⟨hd.2.2.2.2 hp, ?_, ?_⟩
    · intro hf
      rw [(PwmServer.pwm_set_duty_cycle_at_zero_freq env s msg caller_id t hc hsz hf).2 hp]
    · intro hf
      rw [(PwmServer.pwm_set_duty_cycle_at_nonzero_freq env s msg caller_id t hc hsz hf).2 hp]
      exact ⟨PwmServer.counter_value s.curr_freq (t 1), double_to_uint32_lt _, rfl,
        fun hfit => PwmServer.pwm_counter_value_of_fits _ _ hfit⟩
  · intro hp
    by_cases hf : rs.curr_freq = 0
    · rw [(PwmServer.pwm_set_duty_cycle_at_zero_freq (PwmServer.regsEnv kos base) rs msg
        caller_id t hrc hrsz hf).1 hp]
      exact ⟨rfl, fun _ => rfl, fun h => absurd hf h, rfl, rfl⟩
    · rw [(PwmServer.pwm_set_duty_cycle_at_nonzero_freq (PwmServer.regsEnv kos base) rs msg
        caller_id t hrc hrsz hf).1 hp]
      exact ⟨rfl, fun h => absurd h hf,
        fun _ hfit => PwmServer.pwm_counter_value_of_fits _ _ hfit, rfl, rfl⟩
  · intro hp
    by_cases hf : rs.curr_freq = 0
    · rw [(PwmServer.pwm_set_duty_cycle_at_zero_freq (PwmServer.regsEnv kos base) rs msg
        caller_id t hrc hrsz hf).2 hp]
      exact ⟨rfl, fun _ => rfl, fun h => absurd hf h, rfl, rfl⟩
    · rw [(PwmServer.pwm_set_duty_cycle_at_nonzero_freq (PwmServer.regsEnv kos base) rs msg
        caller_id t hrc hrsz hf).2 hp]
      exact ⟨rfl, fun h => absurd h hf,
        fun _ hfit => PwmServer.pwm_counter_value_of_fits _ _ hfit, rfl, rfl⟩
  · intro hdef
    rw [PwmServer.pwm_set_duty_cycle_checked_eq, if_neg]
    intro hu
    rcases hdef with h0 | hfit
    · exact hu.2.2.1 h0
    · have := hu.2.2.2
      omega

/-- C25 on the sample servers bound to client 7 at 1000 Hz: channel value 4294967295
selects channel B; 75 percent loads 75000 into `EHRPWMLoadCMPB` and channel A keeps its
cached 50. -/
theorem C25_set_duty_cycle_touches_one_channel_witness :
    (7 = Sample.pwmBound.client_id ∧ Sample.words 4294967295 75 0 ≠ 0)
    ∧ (PwmServer.handle_set_pwm_duty_cycle Sample.pwmEnv Sample.pwmBound ⟨2, 0, 8⟩ 7
          (Sample.words 4294967295 75)).state.curr_pin_duty_cycle
        = (Sample.pwmBound.curr_pin_duty_cycle.1, Sample.words 4294967295 75 1)
    ∧ (PwmServer.handle_set_pwm_duty_cycle Sample.pwmEnv Sample.pwmBound ⟨2, 0, 8⟩ 7
          (Sample.words 4294967295 75)).calls
        = [PwmServer.PwmCall.EHRPWMLoadCMPB 0x48300200 75000] :=
  have h := (C25_set_duty_cycle_touches_one_channel Sample.pwmEnv Sample.pwmBound Sample.kos
      0x48300200 (Sample.pwmRegsBound 1000 50 25) ⟨2, 0, 8⟩ 7 (Sample.words 4294967295 75)
      (by decide) (by decide) (by decide) (by decide)).2.2.1 (by decide)
  ⟨⟨by decide, by decide⟩, h.1, by decide⟩
